import Mathlib

/-!
# D-Gate+ downgrade guard (Gate 2): shallow embedding of `silicon/dgate_fsm.{h,cpp}`

Conventions of the embedding.

* `ap_uint<1>` flags are `Bool` (`1` is `true`, `0` is `false`).
* Wider `ap_uint<w>` values are `Nat`; the only arithmetic the state machine does on
  them is `++` on 8-bit counters, written `(x + 1) % 256`.
* `dgate_state_t` and `dgate_event_t` are C enums: they are embedded as `Nat` with the
  enumerators as named constants, so that the `default:` arm of the switch stays
  reachable in the model.
* The context is passed in and returned (the source mutates it through a reference);
  the process-wide `amf_public_key` is an explicit argument.
* The members of the payload union are independent fields of `payload_t`; the source
  reads each member only under the event kind that carries it.
-/

namespace DGate

/-! ## Configuration (dgate_fsm.h, lines 34-49) -/

abbrev EMERGENCY_911 : Nat := 0x393131
abbrev EMERGENCY_112 : Nat := 0x313132
abbrev MAX_TRANSITIONS : Nat := 64

/-! ## States (dgate_fsm.h, lines 59-79) -/

abbrev dgate_state_t := Nat

abbrev STATE_INIT : dgate_state_t := 0
abbrev STATE_5G_SCANNING : dgate_state_t := 1
abbrev STATE_5G_ATTACHING : dgate_state_t := 2
abbrev STATE_5G_CONNECTED : dgate_state_t := 3
abbrev STATE_PERMIT_REQUEST : dgate_state_t := 4
abbrev STATE_PERMIT_VALIDATION : dgate_state_t := 5
abbrev STATE_LEGACY_ALLOWED : dgate_state_t := 6
abbrev STATE_LEGACY_ATTACHING : dgate_state_t := 7
abbrev STATE_LEGACY_CONNECTED : dgate_state_t := 8
abbrev STATE_EMERGENCY_BYPASS : dgate_state_t := 9
abbrev STATE_REJECT : dgate_state_t := 10
abbrev STATE_FAIL_SAFE : dgate_state_t := 11

/-- The twelve enumerators of `dgate_state_t` are the values `0 .. 11`. -/
def is_declared_state (s : dgate_state_t) : Prop := s ≤ 11

instance (s : dgate_state_t) : Decidable (is_declared_state s) := by
  unfold is_declared_state; infer_instance

/-! ## Events (dgate_fsm.h, lines 85-109) -/

abbrev dgate_event_t := Nat

abbrev EVENT_5G_FOUND : dgate_event_t := 0
abbrev EVENT_5G_ATTACHED : dgate_event_t := 1
abbrev EVENT_5G_LOST : dgate_event_t := 2
abbrev EVENT_SERVICE_REJECT : dgate_event_t := 3
abbrev EVENT_PERMIT_RECEIVED : dgate_event_t := 4
abbrev EVENT_PERMIT_VALID : dgate_event_t := 5
abbrev EVENT_PERMIT_INVALID : dgate_event_t := 6
abbrev EVENT_PERMIT_EXPIRED : dgate_event_t := 7
abbrev EVENT_LEGACY_ATTACHED : dgate_event_t := 8
abbrev EVENT_LEGACY_FAILED : dgate_event_t := 9
abbrev EVENT_EMERGENCY_DIAL : dgate_event_t := 10
abbrev EVENT_EMERGENCY_END : dgate_event_t := 11
abbrev EVENT_TIMEOUT : dgate_event_t := 12
abbrev EVENT_ERROR : dgate_event_t := 13

/-- The fourteen enumerators of `dgate_event_t` are the values `0 .. 13`. -/
def is_declared_event (e : dgate_event_t) : Prop := e ≤ 13

instance (e : dgate_event_t) : Decidable (is_declared_event e) := by
  unfold is_declared_event; infer_instance

/-! ## Data types (dgate_fsm.h, lines 115-245) -/

abbrev timestamp_t := Nat
abbrev ue_id_t := Nat
abbrev rat_bitmap_t := Nat

/-- Record `downgrade_permit_t` (dgate_fsm.h, lines 146-172). The two `ap_fixed<32,16>`
coordinates are carried as their raw integer value; the state machine only copies them. -/
structure downgrade_permit_t where
  version : Nat
  issued_to : ue_id_t
  issued_by : Nat
  allowed_rats : rat_bitmap_t
  emergency_only : Bool
  reserved : Nat
  valid_from : timestamp_t
  valid_until : timestamp_t
  has_geo_bounds : Bool
  latitude : Int
  longitude : Int
  radius_km : Nat
  signature : Nat
  deriving DecidableEq, Repr

/-- Record `fsm_context_t` (dgate_fsm.h, lines 180-207). -/
structure fsm_context_t where
  current_state : dgate_state_t
  ue_id : ue_id_t
  cached_permit : downgrade_permit_t
  has_permit : Bool
  transition_count : Nat
  previous_state : dgate_state_t
  state_entry_time : timestamp_t
  permit_expiry : timestamp_t
  in_emergency : Bool
  emergency_number : Nat
  permit_failures : Nat
  attach_failures : Nat
  deriving DecidableEq, Repr

/-- The payload union of `fsm_input_t` (dgate_fsm.h, lines 220-224), one field per member. -/
structure payload_t where
  permit : downgrade_permit_t
  dialed_num : Nat
  cause_code : Nat
  deriving DecidableEq, Repr

/-- Record `fsm_input_t` (dgate_fsm.h, lines 214-227). -/
structure fsm_input_t where
  event : dgate_event_t
  ue_id : ue_id_t
  timestamp : timestamp_t
  payload : payload_t
  last : Bool
  deriving DecidableEq, Repr

/-- Record `fsm_output_t` (dgate_fsm.h, lines 230-245). -/
structure fsm_output_t where
  ue_id : ue_id_t
  new_state : dgate_state_t
  allow_attach : Bool
  request_permit : Bool
  log_security : Bool
  allowed_rats : rat_bitmap_t
  prev_state : dgate_state_t
  trigger_event : dgate_event_t
  last : Bool
  deriving DecidableEq, Repr

/-! ## Inline helpers (dgate_fsm.h, lines 306-324; dgate_fsm.cpp, lines 83-95) -/

/-- Validity window test `is_permit_valid` (dgate_fsm.h, lines 306-311). -/
def is_permit_valid (permit : downgrade_permit_t) (current : timestamp_t) : Bool :=
  decide (current ≥ permit.valid_from) && decide (current ≤ permit.valid_until)

/-- Recogniser `is_emergency_number` (dgate_fsm.h, lines 319-324). -/
def is_emergency_number (number : Nat) : Bool :=
  number == EMERGENCY_911 ||
  number == EMERGENCY_112 ||
  (number >>> 8) == 0x393131 ||
  (number >>> 8) == 0x313132

/-- Signature stub `verify_permit_signature` (dgate_fsm.cpp, lines 83-95): any non-zero
signature verifies; the key is not consulted. -/
def verify_permit_signature (permit : downgrade_permit_t) (_amf_pubkey : Nat) : Bool :=
  permit.signature != 0

/-! ## Context allocation (dgate_fsm.cpp, lines 57-70) -/

/-- The assignments the `ALLOC_LOOP` of `get_context_index` makes to the free slot it
picks: the subscriber-id, state `INIT`, and the flags and counters cleared. Every other
field of the slot (the cached permit among them) keeps whatever it held. -/
def alloc_context (slot : fsm_context_t) (ue_id : ue_id_t) : fsm_context_t :=
  { slot with
    ue_id := ue_id
    current_state := STATE_INIT
    has_permit := false
    transition_count := 0
    in_emergency := false
    permit_failures := 0
    attach_failures := 0 }

/-! ## The transition function (dgate_fsm.cpp, lines 113-493) -/

/-- Initialisation of the action record at the head of `process_transition`
(dgate_fsm.cpp, lines 121-130). The source leaves `output.new_state` unassigned here and
assigns it on every path; the record below holds the state before the call in that
field, a value that every path overwrites. -/
def initial_output (ctx : fsm_context_t) (input : fsm_input_t) : fsm_output_t :=
  { ue_id := ctx.ue_id
    new_state := ctx.current_state
    prev_state := ctx.current_state
    trigger_event := input.event
    allow_attach := false
    request_permit := false
    log_security := false
    allowed_rats := 0x8
    last := input.last }

/-- The `switch (ctx.current_state)` of `process_transition` (dgate_fsm.cpp, lines
169-478), one arm per `case` label in source order and the `default:` arm last. It takes
the context and the action record as they stand when the switch is entered. -/
def state_switch (amf_public_key : Nat) (ctx : fsm_context_t) (output : fsm_output_t)
    (input : fsm_input_t) (timestamp : timestamp_t) : fsm_context_t × fsm_output_t :=
  if ctx.current_state = STATE_INIT then
    ({ ctx with current_state := STATE_5G_SCANNING },
     { output with new_state := STATE_5G_SCANNING })
  else if ctx.current_state = STATE_5G_SCANNING then
    if input.event = EVENT_5G_FOUND then
      ({ ctx with current_state := STATE_5G_ATTACHING },
       { output with new_state := STATE_5G_ATTACHING, allow_attach := true, allowed_rats := 0x8 })
    else if input.event = EVENT_TIMEOUT then
      ({ ctx with current_state := STATE_PERMIT_REQUEST },
       { output with new_state := STATE_PERMIT_REQUEST, request_permit := true,
                     log_security := true })
    else
      (ctx, { output with new_state := STATE_5G_SCANNING })
  else if ctx.current_state = STATE_5G_ATTACHING then
    if input.event = EVENT_5G_ATTACHED then
      ({ ctx with current_state := STATE_5G_CONNECTED },
       { output with new_state := STATE_5G_CONNECTED, allow_attach := true, allowed_rats := 0x8 })
    else if input.event = EVENT_SERVICE_REJECT then
      ({ ctx with current_state := STATE_PERMIT_REQUEST },
       { output with new_state := STATE_PERMIT_REQUEST, request_permit := true,
                     log_security := true })
    else if input.event = EVENT_TIMEOUT ∨ input.event = EVENT_ERROR then
      let ctx : fsm_context_t :=
        { ctx with attach_failures := (ctx.attach_failures + 1) % 256 }
      if ctx.attach_failures > 3 then
        ({ ctx with current_state := STATE_FAIL_SAFE },
         { output with new_state := STATE_FAIL_SAFE, log_security := true })
      else
        ({ ctx with current_state := STATE_5G_SCANNING },
         { output with new_state := STATE_5G_SCANNING })
    else
      (ctx, { output with new_state := STATE_5G_ATTACHING })
  else if ctx.current_state = STATE_5G_CONNECTED then
    if input.event = EVENT_5G_LOST then
      ({ ctx with current_state := STATE_PERMIT_REQUEST },
       { output with new_state := STATE_PERMIT_REQUEST, request_permit := true,
                     log_security := true })
    else if input.event = EVENT_SERVICE_REJECT then
      ({ ctx with current_state := STATE_PERMIT_REQUEST },
       { output with new_state := STATE_PERMIT_REQUEST, request_permit := true,
                     log_security := true })
    else
      (ctx, { output with new_state := STATE_5G_CONNECTED, allow_attach := true })
  else if ctx.current_state = STATE_PERMIT_REQUEST then
    if input.event = EVENT_PERMIT_RECEIVED then
      ({ ctx with cached_permit := input.payload.permit,
                  current_state := STATE_PERMIT_VALIDATION },
       { output with new_state := STATE_PERMIT_VALIDATION })
    else if input.event = EVENT_5G_FOUND then
      ({ ctx with current_state := STATE_5G_ATTACHING },
       { output with new_state := STATE_5G_ATTACHING, allow_attach := true })
    else if input.event = EVENT_TIMEOUT then
      ({ ctx with current_state := STATE_REJECT },
       { output with new_state := STATE_REJECT, log_security := true })
    else
      (ctx, { output with new_state := STATE_PERMIT_REQUEST, request_permit := true })
  else if ctx.current_state = STATE_PERMIT_VALIDATION then
    let sig_valid := verify_permit_signature ctx.cached_permit amf_public_key
    let time_valid := is_permit_valid ctx.cached_permit timestamp
    if sig_valid = true ∧ time_valid = true then
      ({ ctx with has_permit := true,
                  permit_expiry := ctx.cached_permit.valid_until,
                  current_state := STATE_LEGACY_ALLOWED,
                  permit_failures := 0 },
       { output with new_state := STATE_LEGACY_ALLOWED,
                     allowed_rats := ctx.cached_permit.allowed_rats,
                     allow_attach := true })
    else
      ({ ctx with permit_failures := (ctx.permit_failures + 1) % 256,
                  current_state := STATE_REJECT },
       { output with new_state := STATE_REJECT, log_security := true })
  else if ctx.current_state = STATE_LEGACY_ALLOWED then
    if input.event = EVENT_5G_FOUND then
      ({ ctx with current_state := STATE_5G_ATTACHING },
       { output with new_state := STATE_5G_ATTACHING, allow_attach := true, allowed_rats := 0x8 })
    else if input.event = EVENT_PERMIT_EXPIRED ∨
            is_permit_valid ctx.cached_permit timestamp = false then
      ({ ctx with has_permit := false, current_state := STATE_PERMIT_REQUEST },
       { output with new_state := STATE_PERMIT_REQUEST, request_permit := true })
    else
      ({ ctx with current_state := STATE_LEGACY_ATTACHING },
       { output with new_state := STATE_LEGACY_ATTACHING, allow_attach := true,
                     allowed_rats := ctx.cached_permit.allowed_rats })
  else if ctx.current_state = STATE_LEGACY_ATTACHING then
    if ctx.has_permit = false ∨ is_permit_valid ctx.cached_permit timestamp = false then
      ({ ctx with current_state := STATE_REJECT },
       { output with new_state := STATE_REJECT, log_security := true })
    else if input.event = EVENT_LEGACY_ATTACHED then
      ({ ctx with current_state := STATE_LEGACY_CONNECTED },
       { output with new_state := STATE_LEGACY_CONNECTED, allow_attach := true,
                     allowed_rats := ctx.cached_permit.allowed_rats })
    else if input.event = EVENT_LEGACY_FAILED then
      ({ ctx with attach_failures := (ctx.attach_failures + 1) % 256,
                  current_state := STATE_5G_SCANNING },
       { output with new_state := STATE_5G_SCANNING })
    else if input.event = EVENT_5G_FOUND then
      ({ ctx with current_state := STATE_5G_ATTACHING },
       { output with new_state := STATE_5G_ATTACHING, allow_attach := true, allowed_rats := 0x8 })
    else
      (ctx, { output with new_state := STATE_LEGACY_ATTACHING, allow_attach := true,
                          allowed_rats := ctx.cached_permit.allowed_rats })
  else if ctx.current_state = STATE_LEGACY_CONNECTED then
    if ctx.has_permit = false ∨ is_permit_valid ctx.cached_permit timestamp = false then
      ({ ctx with current_state := STATE_PERMIT_REQUEST },
       { output with new_state := STATE_PERMIT_REQUEST, request_permit := true,
                     allow_attach := false, log_security := true })
    else if input.event = EVENT_5G_FOUND then
      ({ ctx with current_state := STATE_5G_ATTACHING },
       { output with new_state := STATE_5G_ATTACHING, allow_attach := true, allowed_rats := 0x8 })
    else if input.event = EVENT_PERMIT_EXPIRED then
      ({ ctx with has_permit := false, current_state := STATE_PERMIT_REQUEST },
       { output with new_state := STATE_PERMIT_REQUEST, request_permit := true })
    else
      (ctx, { output with new_state := STATE_LEGACY_CONNECTED, allow_attach := true,
                          allowed_rats := ctx.cached_permit.allowed_rats })
  else if ctx.current_state = STATE_EMERGENCY_BYPASS then
    if input.event = EVENT_EMERGENCY_END then
      ({ ctx with in_emergency := false, current_state := STATE_5G_SCANNING },
       { output with new_state := STATE_5G_SCANNING, allowed_rats := 0x8 })
    else
      (ctx, { output with new_state := STATE_EMERGENCY_BYPASS, allow_attach := true,
                          allowed_rats := 0xF })
  else if ctx.current_state = STATE_REJECT then
    ({ ctx with current_state := STATE_5G_SCANNING },
     { output with new_state := STATE_5G_SCANNING, log_security := true })
  else if ctx.current_state = STATE_FAIL_SAFE then
    if input.event = EVENT_EMERGENCY_DIAL then
      ({ ctx with current_state := STATE_EMERGENCY_BYPASS },
       { output with new_state := STATE_EMERGENCY_BYPASS, allow_attach := true,
                     allowed_rats := 0xF })
    else
      (ctx, { output with new_state := STATE_FAIL_SAFE, allowed_rats := 0x0 })
  else
    -- default
    ({ ctx with current_state := STATE_FAIL_SAFE },
     { output with new_state := STATE_FAIL_SAFE, log_security := true })

/-- The transition accounting that follows the switch (dgate_fsm.cpp, lines 480-487):
the 8-bit `transition_count` is incremented and, above `MAX_TRANSITIONS`, the context is
forced to `FAIL_SAFE`. -/
def count_transition (r : fsm_context_t × fsm_output_t) : fsm_context_t × fsm_output_t :=
  let ctx : fsm_context_t :=
    { r.1 with transition_count := (r.1.transition_count + 1) % 256 }
  let output : fsm_output_t := r.2
  if ctx.transition_count > MAX_TRANSITIONS then
    ({ ctx with current_state := STATE_FAIL_SAFE },
     { output with new_state := STATE_FAIL_SAFE, log_security := true })
  else
    (ctx, output)

/-- Function `process_transition` (dgate_fsm.cpp, lines 113-493). The result is the
context after the call together with the returned action. The two early returns of the
emergency override come first; otherwise the switch runs, then the transition
accounting, then the state entry time is stamped. -/
def process_transition (amf_public_key : Nat) (ctx : fsm_context_t) (input : fsm_input_t)
    (timestamp : timestamp_t) : fsm_context_t × fsm_output_t :=
  -- Initialize output
  let output : fsm_output_t := initial_output ctx input
  -- Store previous state
  let ctx : fsm_context_t := { ctx with previous_state := ctx.current_state }
  -- EMERGENCY BYPASS
  if input.event = EVENT_EMERGENCY_DIAL ∧ is_emergency_number input.payload.dialed_num = true then
    ({ ctx with
        current_state := STATE_EMERGENCY_BYPASS
        in_emergency := true
        emergency_number := input.payload.dialed_num },
     { output with
        new_state := STATE_EMERGENCY_BYPASS
        allow_attach := true
        allowed_rats := 0xF
        log_security := true })
  -- Emergency call ended
  else if input.event = EVENT_EMERGENCY_END ∧ ctx.in_emergency = true then
    ({ ctx with in_emergency := false, current_state := STATE_5G_SCANNING },
     { output with new_state := STATE_5G_SCANNING, allowed_rats := 0x8 })
  else
    -- MAIN FSM LOGIC, then the transition count
    let r := count_transition (state_switch amf_public_key ctx output input timestamp)
    -- Update state entry time
    ({ r.1 with state_entry_time := timestamp }, r.2)

/-- Successive calls of `process_transition` on one context, one per (event record,
timestamp) pair, returning the context after the last call. -/
def run_transitions (amf_public_key : Nat) (ctx : fsm_context_t) :
    List (fsm_input_t × timestamp_t) → fsm_context_t
  | [] => ctx
  | step :: rest =>
      run_transitions amf_public_key (process_transition amf_public_key ctx step.1 step.2).1 rest

/-! ## Concrete records used to instantiate the theorems -/

/-- The permit built by `create_valid_permit(ue_id, now)` of the test bench
(dgate_fsm_tb.cpp, lines 72-88). -/
def create_valid_permit (ue_id : ue_id_t) (now : timestamp_t) : downgrade_permit_t :=
  { version := 0x01
    issued_to := ue_id
    issued_by := 0x310260
    allowed_rats := 0x6
    emergency_only := false
    reserved := 0
    valid_from := now
    valid_until := now + 3600000000
    has_geo_bounds := false
    latitude := 0
    longitude := 0
    radius_km := 0
    signature := 0xDEADBEEF12345678 }

/-- An all-zero permit, the content of a slot of the zero-initialised static storage. -/
def zero_permit : downgrade_permit_t :=
  { version := 0, issued_to := 0, issued_by := 0, allowed_rats := 0, emergency_only := false,
    reserved := 0, valid_from := 0, valid_until := 0, has_geo_bounds := false, latitude := 0,
    longitude := 0, radius_km := 0, signature := 0 }

/-- An all-zero context slot, as the static array `fsm_contexts` holds before first use. -/
def zero_context : fsm_context_t :=
  { current_state := STATE_INIT, ue_id := 0, cached_permit := zero_permit, has_permit := false,
    transition_count := 0, previous_state := STATE_INIT, state_entry_time := 0,
    permit_expiry := 0, in_emergency := false, emergency_number := 0, permit_failures := 0,
    attach_failures := 0 }

/-- An event record of kind `e` for subscriber `ue` at time `ts` that carries no payload
(the union members are zero). -/
def plain_event (e : dgate_event_t) (ue : ue_id_t) (ts : timestamp_t) : fsm_input_t :=
  { event := e, ue_id := ue, timestamp := ts,
    payload := { permit := zero_permit, dialed_num := 0, cause_code := 0 }, last := false }

/-- An `EMERGENCY_DIAL` event record carrying the dialled number `num`. -/
def dial_event (num : Nat) (ue : ue_id_t) (ts : timestamp_t) : fsm_input_t :=
  { event := EVENT_EMERGENCY_DIAL, ue_id := ue, timestamp := ts,
    payload := { permit := zero_permit, dialed_num := num, cause_code := 0 }, last := false }

/-- A `PERMIT_RECEIVED` event record carrying the permit `p`. -/
def permit_event (p : downgrade_permit_t) (ue : ue_id_t) (ts : timestamp_t) : fsm_input_t :=
  { event := EVENT_PERMIT_RECEIVED, ue_id := ue, timestamp := ts,
    payload := { permit := p, dialed_num := 0, cause_code := 0 }, last := false }

/-- The three legacy states `LEGACY_ALLOWED`, `LEGACY_ATTACHING`, `LEGACY_CONNECTED`. -/
def in_legacy (s : dgate_state_t) : Prop :=
  s = STATE_LEGACY_ALLOWED ∨ s = STATE_LEGACY_ATTACHING ∨ s = STATE_LEGACY_CONNECTED

/-- A run that takes a fresh context to `LEGACY_CONNECTED`: `5G_FOUND` (leaves `INIT`),
`TIMEOUT` (permit requested), `PERMIT_RECEIVED` with the test bench's valid permit, then
three `LEGACY_ATTACHED` events (validation, legacy allowed, legacy attach). -/
def authorised_downgrade_steps : List (fsm_input_t × timestamp_t) :=
  [ (plain_event EVENT_5G_FOUND 1 3000, 3000),
    (plain_event EVENT_TIMEOUT 1 3001, 3001),
    (permit_event (create_valid_permit 1 3003) 1 3002, 3002),
    (plain_event EVENT_LEGACY_ATTACHED 1 3003, 3003),
    (plain_event EVENT_LEGACY_ATTACHED 1 3004, 3004),
    (plain_event EVENT_LEGACY_ATTACHED 1 3005, 3005) ]

/-- The run of C7: `5G_FOUND` leaves `INIT`; four rounds of `5G_FOUND`, `TIMEOUT` fail the
5G attach four times and end in `FAIL_SAFE`; then "123" is dialled. -/
def failsafe_dial_steps : List (fsm_input_t × timestamp_t) :=
  [ (plain_event EVENT_5G_FOUND 1 100, 100),
    (plain_event EVENT_5G_FOUND 1 101, 101), (plain_event EVENT_TIMEOUT 1 102, 102),
    (plain_event EVENT_5G_FOUND 1 103, 103), (plain_event EVENT_TIMEOUT 1 104, 104),
    (plain_event EVENT_5G_FOUND 1 105, 105), (plain_event EVENT_TIMEOUT 1 106, 106),
    (plain_event EVENT_5G_FOUND 1 107, 107), (plain_event EVENT_TIMEOUT 1 108, 108),
    (dial_event 0x313233 1 109, 109) ]

/-- A run of 64 events that takes a fresh context to `PERMIT_VALIDATION` with the
transition counter at 64: `5G_FOUND` leaves `INIT`, 61 `5G_LOST` events are ignored while
scanning, `TIMEOUT` requests a permit and `PERMIT_RECEIVED` delivers a valid one. -/
def storm_then_permit_steps : List (fsm_input_t × timestamp_t) :=
  (plain_event EVENT_5G_FOUND 1 1000, 1000) ::
  (List.replicate 61 (plain_event EVENT_5G_LOST 1 1000, 1000) ++
   [ (plain_event EVENT_TIMEOUT 1 1001, 1001),
     (permit_event (create_valid_permit 1 1000) 1 1002, 1002) ])

/-- A run of 64 events that takes a fresh context to `LEGACY_CONNECTED` with the transition
counter at 64: the six events of `authorised_downgrade_steps`, then 58 further
`LEGACY_ATTACHED` events inside the permit's window, each of which stays connected. -/
def storm_in_legacy_connected_steps : List (fsm_input_t × timestamp_t) :=
  authorised_downgrade_steps ++
    List.replicate 58 (plain_event EVENT_LEGACY_ATTACHED 1 3006, 3006)

/-- A run of 64 events that takes a fresh context to `LEGACY_ATTACHING` with the transition
counter at 64: the first five events of `authorised_downgrade_steps`, then 59 `TIMEOUT`
events inside the permit's window, each of which stays in the legacy attach. -/
def storm_in_legacy_attaching_steps : List (fsm_input_t × timestamp_t) :=
  authorised_downgrade_steps.take 5 ++
    List.replicate 59 (plain_event EVENT_TIMEOUT 1 3005, 3005)

/-- A run of 64 events that takes a fresh context to `5G_CONNECTED` with the transition
counter at 64: `5G_FOUND` twice and `5G_ATTACHED` complete the attach, then 61 `5G_FOUND`
events are ignored while connected. -/
def storm_in_5g_connected_steps : List (fsm_input_t × timestamp_t) :=
  [ (plain_event EVENT_5G_FOUND 1 2000, 2000),
    (plain_event EVENT_5G_FOUND 1 2001, 2001),
    (plain_event EVENT_5G_ATTACHED 1 2002, 2002) ] ++
    List.replicate 61 (plain_event EVENT_5G_FOUND 1 2003, 2003)

/-- A run of 66 events that takes a fresh context to `FAIL_SAFE` with the in-emergency flag
still set: `5G_FOUND` leaves `INIT`, "911" is dialled (the override does not count), and
64 `5G_LOST` events during the emergency call drive the counter to 65. -/
def storm_in_emergency_steps : List (fsm_input_t × timestamp_t) :=
  (plain_event EVENT_5G_FOUND 1 6000, 6000) ::
  (dial_event EMERGENCY_911 1 6001, 6001) ::
    List.replicate 64 (plain_event EVENT_5G_LOST 1 6002, 6002)

/-- A run of 255 table-handled events: `5G_FOUND` leaves `INIT` and 254 `5G_LOST` events
follow (ignored while scanning, then in `FAIL_SAFE` once the counter passes the bound). -/
def counter_wrap_steps : List (fsm_input_t × timestamp_t) :=
  (plain_event EVENT_5G_FOUND 1 7000, 7000) ::
    List.replicate 254 (plain_event EVENT_5G_LOST 1 7001, 7001)

/-- The context a storm leaves behind in `FAIL_SAFE`: the fresh context of subscriber 1 on
a zero slot, moved to `FAIL_SAFE`, with transition counter `n` and entry time `ts`. -/
def failsafe_at (n : Nat) (ts : timestamp_t) : fsm_context_t :=
  { alloc_context zero_context 1 with
    current_state := STATE_FAIL_SAFE
    previous_state := STATE_FAIL_SAFE
    transition_count := n
    state_entry_time := ts }

/-! ## Context pool and top-level engine (dgate_fsm.cpp, lines 29-74 and 505-609) -/

abbrev MAX_CONCURRENT_UES : Nat := 8

/-- The file-scope storage of dgate_fsm.cpp (lines 31-36): the context array, the valid
bitmap and the provisioned key. The array and the bitmap are read and written one index at
a time, so both are functions of the index; only indices below `MAX_CONCURRENT_UES` are
ever used. Bit `i` of the `ap_uint<8>` bitmap is `context_valid_bitmap i`. -/
structure dgate_globals_t where
  fsm_contexts : Nat → fsm_context_t
  context_valid_bitmap : Nat → Bool
  amf_public_key : Nat

/-- Function `get_context_index` (dgate_fsm.cpp, lines 45-74). The result is the storage
after the call and the returned index, `none` standing for the source's `-1`. Each `for`
loop with an early `return` is the search for the first index that meets its test. -/
def get_context_index (g : dgate_globals_t) (ue_id : ue_id_t) : dgate_globals_t × Option Nat :=
  -- SEARCH_LOOP
  match (List.range MAX_CONCURRENT_UES).find?
      (fun i => g.context_valid_bitmap i && decide ((g.fsm_contexts i).ue_id = ue_id)) with
  | some i => (g, some i)
  | none =>
    -- ALLOC_LOOP
    match (List.range MAX_CONCURRENT_UES).find? (fun i => !g.context_valid_bitmap i) with
    | some i =>
      ({ g with
          context_valid_bitmap := Function.update g.context_valid_bitmap i true
          fsm_contexts :=
            (Function.update g.fsm_contexts i (alloc_context (g.fsm_contexts i) ue_id)) },
       some i)
    | none => (g, none)

/-- The action `dgate_fsm_engine` writes when no context is available (dgate_fsm.cpp,
lines 526-535). -/
def no_context_output (input : fsm_input_t) : fsm_output_t :=
  { ue_id := input.ue_id
    new_state := STATE_FAIL_SAFE
    prev_state := STATE_INIT
    trigger_event := input.event
    allow_attach := false
    request_permit := false
    log_security := true
    allowed_rats := 0
    last := input.last }

/-- Function `dgate_fsm_engine` (dgate_fsm.cpp, lines 505-550). The two streams are FIFO
lists: `read` takes the head of `event_in`, `write` appends to `action_out`. The result is
the storage and the two streams after the call. -/
def dgate_fsm_engine (g : dgate_globals_t) (event_in : List fsm_input_t)
    (action_out : List fsm_output_t) :
    dgate_globals_t × List fsm_input_t × List fsm_output_t :=
  match event_in with
  | [] => (g, [], action_out)
  | input :: rest =>
    match get_context_index g input.ue_id with
    | (g1, none) => (g1, rest, action_out ++ [no_context_output input])
    | (g1, some ctx_idx) =>
      let r :=
        process_transition g1.amf_public_key (g1.fsm_contexts ctx_idx) input input.timestamp
      ({ g1 with fsm_contexts := (Function.update g1.fsm_contexts ctx_idx r.1) },
       rest, action_out ++ [r.2])

/-- Function `dgate_init` (dgate_fsm.cpp, lines 559-571): the bitmap is zeroed and four
fields of each of the eight contexts are reset. -/
def dgate_init (g : dgate_globals_t) : dgate_globals_t :=
  { g with
    context_valid_bitmap := fun _ => false
    fsm_contexts := fun i =>
      if i < MAX_CONCURRENT_UES then
        { g.fsm_contexts i with
          current_state := STATE_INIT
          has_permit := false
          in_emergency := false
          transition_count := 0 }
      else g.fsm_contexts i }

/-- Function `dgate_release_context` (dgate_fsm.cpp, lines 600-609): the valid bit of the
first active slot that holds `ue_id` is cleared. -/
def dgate_release_context (g : dgate_globals_t) (ue_id : ue_id_t) : dgate_globals_t :=
  match (List.range MAX_CONCURRENT_UES).find?
      (fun i => g.context_valid_bitmap i && decide ((g.fsm_contexts i).ue_id = ue_id)) with
  | some i => { g with context_valid_bitmap := Function.update g.context_valid_bitmap i false }
  | none => g

/-- One call made on the pool from outside: an event written to the input stream followed
by one call of `dgate_fsm_engine`, or a call of `dgate_release_context`. -/
inductive pool_call where
  | event (input : fsm_input_t)
  | release (ue_id : ue_id_t)

/-- The storage after one call on the pool. -/
def apply_call (g : dgate_globals_t) : pool_call → dgate_globals_t
  | .event input => (dgate_fsm_engine g [input] []).1
  | .release ue_id => dgate_release_context g ue_id

/-- The storage after a sequence of calls on the pool. -/
def run_calls (g : dgate_globals_t) (calls : List pool_call) : dgate_globals_t :=
  calls.foldl apply_call g

/-- The zero-initialised static storage of dgate_fsm.cpp. -/
def zero_globals : dgate_globals_t :=
  { fsm_contexts := fun _ => zero_context
    context_valid_bitmap := fun _ => false
    amf_public_key := 0 }

/-- A pool whose eight slots are all active, slot `i` holding subscriber `i + 1`. -/
def full_globals : dgate_globals_t :=
  { fsm_contexts := fun i => { zero_context with ue_id := i + 1 }
    context_valid_bitmap := fun _ => true
    amf_public_key := 0 }

/-- No two active slots of the pool hold the same subscriber-id. -/
def unique_active (g : dgate_globals_t) : Prop :=
  ∀ i j, i < MAX_CONCURRENT_UES → j < MAX_CONCURRENT_UES →
    g.context_valid_bitmap i = true → g.context_valid_bitmap j = true →
    (g.fsm_contexts i).ue_id = (g.fsm_contexts j).ue_id → i = j

/-- A run of 64 events that takes a fresh context to `5G_ATTACHING` with the transition
counter at 64 and no attach failure: `5G_FOUND` leaves `INIT`, 62 `5G_LOST` events are
ignored while scanning, and `5G_FOUND` starts the attach. -/
def storm_then_attach_steps : List (fsm_input_t × timestamp_t) :=
  (plain_event EVENT_5G_FOUND 1 8000, 8000) ::
  (List.replicate 62 (plain_event EVENT_5G_LOST 1 8000, 8000) ++
   [ (plain_event EVENT_5G_FOUND 1 8001, 8001) ])

/-- Four failed 5G attaches on a fresh context: `5G_FOUND` leaves `INIT`, then four rounds
of `5G_FOUND` (attach starts) and `TIMEOUT` (attach fails). -/
def attach_retry_steps : List (fsm_input_t × timestamp_t) :=
  [ (plain_event EVENT_5G_FOUND 1 100, 100),
    (plain_event EVENT_5G_FOUND 1 101, 101), (plain_event EVENT_TIMEOUT 1 102, 102),
    (plain_event EVENT_5G_FOUND 1 103, 103), (plain_event EVENT_TIMEOUT 1 104, 104),
    (plain_event EVENT_5G_FOUND 1 105, 105), (plain_event EVENT_TIMEOUT 1 106, 106),
    (plain_event EVENT_5G_FOUND 1 107, 107), (plain_event EVENT_TIMEOUT 1 108, 108) ]

end DGate

/-!
# ARC-3 CSI correlator (Gate 1): shallow embedding of `silicon/arc3_csi_correlator.{h,cpp}`

Conventions of the embedding.

* A fixed-point value is its raw integer: a `csi_sample_t` (`ap_fixed<16,8,AP_RND,AP_SAT>`)
  with raw value `r` stands for `r / 2^8`, a `correlation_t`
  (`ap_fixed<32,16,AP_RND,AP_SAT>`) with raw value `r` for `r / 2^16`.
* The arithmetic operators of `ap_fixed` return the exact result in a wider type; the
  value is quantised (`AP_RND`: to nearest, ties upwards) and saturated (`AP_SAT`) when it
  is stored into a `correlation_t`. Division shifts the dividend left by the divisor's
  fractional bits and divides the raw integers, truncating towards zero.
* `ap_uint<w>` values are `Nat`; the only wrapping operation is the subtraction in
  `is_expired`, written modulo `2^32`.
* The registry array is a function of the index, the streams are FIFO lists.
-/

namespace Arc3

/-! ## Configuration (arc3_csi_correlator.h, lines 33-56) -/

abbrev N_ANTENNAS : Nat := 64
abbrev CORRELATION_THRESHOLD : Nat := 205
abbrev MAX_PLAB_ENTRIES : Nat := 10000
abbrev VALIDITY_CYCLES : Nat := 500000000

/-! ## Data types (arc3_csi_correlator.h, lines 62-135) -/

/-- Raw value of an `ap_fixed<16,8,AP_RND,AP_SAT>`: the sample is `raw / 2^8`. -/
abbrev csi_sample_t := Int

/-- Raw value of an `ap_fixed<32,16,AP_RND,AP_SAT>`: the value is `raw / 2^16`. -/
abbrev correlation_t := Int

abbrev csi_handle_t := Nat
abbrev ue_id_t := Nat
abbrev timestamp_t := Nat

/-- Record `csi_complex_t` (arc3_csi_correlator.h, lines 67-70). -/
structure csi_complex_t where
  real : csi_sample_t
  imag : csi_sample_t
  deriving DecidableEq, Repr

/-- Record `csi_vector_t` (arc3_csi_correlator.h, lines 73-75); the array is a function of
the antenna index, read at indices below `N_ANTENNAS`. -/
structure csi_vector_t where
  antenna : Nat → csi_complex_t

/-- Enumeration `admit_decision_t` (arc3_csi_correlator.h, lines 90-95). -/
inductive admit_decision_t where
  | ADMIT_ACCEPT
  | ADMIT_REJECT
  | ADMIT_UNKNOWN
  | ADMIT_EXPIRED
  deriving DecidableEq, Repr

/-- Record `plab_entry_t` (arc3_csi_correlator.h, lines 102-107). -/
structure plab_entry_t where
  ue_id : ue_id_t
  handle : csi_handle_t
  timestamp : timestamp_t
  valid : Bool
  deriving DecidableEq, Repr

/-- Record `csi_input_t` (arc3_csi_correlator.h, lines 114-119). -/
structure csi_input_t where
  csi : csi_vector_t
  ue_id : ue_id_t
  current_time : timestamp_t
  last : Bool

/-- Record `admit_output_t` (arc3_csi_correlator.h, lines 122-127). -/
structure admit_output_t where
  ue_id : ue_id_t
  decision : admit_decision_t
  score : correlation_t
  last : Bool
  deriving DecidableEq, Repr

/-- Record `registry_update_t` (arc3_csi_correlator.h, lines 130-135). -/
structure registry_update_t where
  ue_id : ue_id_t
  handle : csi_handle_t
  timestamp : timestamp_t
  is_update : Bool
  deriving DecidableEq, Repr

/-! ## Fixed-point storage into `correlation_t` -/

/-- Overflow mode `AP_SAT` of `correlation_t`: a raw value outside the 32-bit signed range
is clamped to the nearest bound. -/
def saturate_correlation (raw : Int) : correlation_t :=
  if raw > 2147483647 then 2147483647
  else if raw < -2147483648 then -2147483648
  else raw

/-- Storing an exact result that has 32 fractional bits (a product of two `correlation_t`
values, or a sum of such products) into a `correlation_t`: quantisation `AP_RND` drops 16
bits rounding to nearest with ties upwards, then `AP_SAT` clamps. -/
def round_correlation (raw32 : Int) : correlation_t :=
  saturate_correlation ((raw32 + 32768) / 65536)

/-- The quotient `a / b` of two `correlation_t` values stored into a `correlation_t`: the
raw dividend is shifted left by 16 and divided by the raw divisor, truncating towards
zero; the result has 16 fractional bits and is clamped by `AP_SAT`. -/
def div_correlation (a b : correlation_t) : correlation_t :=
  saturate_correlation (Int.tdiv (a * 65536) b)

/-! ## Helpers (arc3_csi_correlator.h, lines 234-238; arc3_csi_correlator.cpp, lines 46-65) -/

/-- Inline function `is_expired` (arc3_csi_correlator.h, lines 234-238): the difference is
taken in `ap_uint<32>`, that is modulo `2^32`. -/
def is_expired (entry_time current_time : timestamp_t) : Bool :=
  let delta : Nat := (current_time + 4294967296 - entry_time % 4294967296) % 4294967296
  decide (delta > VALIDITY_CYCLES)

/-- One pass of the `NEWTON_ITER` loop body of `approx_sqrt` (arc3_csi_correlator.cpp,
lines 59-61): the sum `guess + x / guess` is exact, `>> 1` shifts its raw value, and the
store into `guess` saturates. -/
def newton_step (x guess : correlation_t) : correlation_t :=
  if guess ≠ 0 then
    saturate_correlation ((guess + Int.tdiv (x * 65536) guess) >>> 1)
  else guess

/-- Function `approx_sqrt` (arc3_csi_correlator.cpp, lines 46-65): initial guess `x >> 1`,
zero guard, three unrolled iterations. -/
def approx_sqrt (x : correlation_t) : correlation_t :=
  let guess : correlation_t := x >>> 1
  if x = 0 then 0
  else newton_step x (newton_step x (newton_step x guess))

/-! ## Correlation (arc3_csi_correlator.cpp, lines 117-181) -/

/-- The dequantiser of `compute_correlation` (arc3_csi_correlator.cpp, lines 144-151):
codes 0, 1, 2, 3 become -0.75, -0.25, 0.25, 0.75, that is raw -192, -64, 64, 192. -/
def dequantize (q : Nat) : csi_sample_t :=
  if q = 0 then -192
  else if q = 1 then -64
  else if q = 2 then 64
  else 192

/-- The four accumulators of `compute_correlation`. -/
structure corr_acc_t where
  inner_real : correlation_t
  inner_imag : correlation_t
  norm_cur : correlation_t
  norm_stored : correlation_t
  deriving DecidableEq, Repr

/-- Body of the `CORR_LOOP` of `compute_correlation` for antenna `i`
(arc3_csi_correlator.cpp, lines 134-161). Products of two samples are exact with 16
fractional bits; each `+=` stores the exact sum into the accumulator, saturating. -/
def corr_loop_body (csi_current : csi_vector_t) (handle_stored : csi_handle_t)
    (acc : corr_acc_t) (i : Nat) : corr_acc_t :=
  let cur_real := (csi_current.antenna i).real
  let cur_imag := (csi_current.antenna i).imag
  let packed : Nat := (handle_stored >>> (i * 4)) % 16
  let real_q : Nat := packed >>> 2
  let imag_q : Nat := packed % 4
  let stored_real := dequantize real_q
  let stored_imag := dequantize imag_q
  { inner_real :=
      saturate_correlation (acc.inner_real + (cur_real * stored_real + cur_imag * stored_imag))
    inner_imag :=
      saturate_correlation (acc.inner_imag + (cur_imag * stored_real - cur_real * stored_imag))
    norm_cur :=
      saturate_correlation (acc.norm_cur + (cur_real * cur_real + cur_imag * cur_imag))
    norm_stored :=
      saturate_correlation
        (acc.norm_stored + (stored_real * stored_real + stored_imag * stored_imag)) }

/-- Function `compute_correlation` (arc3_csi_correlator.cpp, lines 117-181). The test
`norm_prod_sq < 0.0001` compares the value `raw / 2^16` with the literal. -/
def compute_correlation (csi_current : csi_vector_t) (handle_stored : csi_handle_t) :
    correlation_t :=
  let acc := (List.range N_ANTENNAS).foldl (corr_loop_body csi_current handle_stored)
    { inner_real := 0, inner_imag := 0, norm_cur := 0, norm_stored := 0 }
  let inner_mag_sq : correlation_t :=
    round_correlation (acc.inner_real * acc.inner_real + acc.inner_imag * acc.inner_imag)
  let norm_prod_sq : correlation_t := round_correlation (acc.norm_cur * acc.norm_stored)
  if norm_prod_sq * 10000 < 65536 then 0
  else
    let rho_sq : correlation_t := div_correlation inner_mag_sq norm_prod_sq
    approx_sqrt rho_sq

/-! ## Registry (arc3_csi_correlator.cpp, lines 189-250) -/

/-- Function `registry_lookup` (arc3_csi_correlator.cpp, lines 189-217): `some candidate`
when the function returns true with `entry = candidate`, `none` when it returns false.
The `LINEAR_PROBE` loop with its early `return` is the search for the first of the four
probes that matches. -/
def registry_lookup (plab_registry : Nat → plab_entry_t) (ue_id : ue_id_t) :
    Option plab_entry_t :=
  let index : Nat := ue_id % 16384
  let index : Nat := if index ≥ MAX_PLAB_ENTRIES then index % MAX_PLAB_ENTRIES else index
  (List.range 4).findSome? (fun probe =>
    let probe_idx := (index + probe) % MAX_PLAB_ENTRIES
    let candidate := plab_registry probe_idx
    if candidate.valid = true ∧ candidate.ue_id = ue_id then some candidate else none)

/-- Function `registry_update` (arc3_csi_correlator.cpp, lines 224-250): the registry after
the call and the returned flag. The `FIND_SLOT` loop writes the first of the four probed
slots that is empty or holds the subscriber. -/
def registry_update (plab_registry : Nat → plab_entry_t) (update : registry_update_t) :
    (Nat → plab_entry_t) × Bool :=
  let index : Nat := (update.ue_id % 16384) % MAX_PLAB_ENTRIES
  match (List.range 4).find? (fun probe =>
      let slot := plab_registry ((index + probe) % MAX_PLAB_ENTRIES)
      !slot.valid || decide (slot.ue_id = update.ue_id)) with
  | some probe =>
    (Function.update plab_registry ((index + probe) % MAX_PLAB_ENTRIES)
      { ue_id := update.ue_id
        handle := update.handle
        timestamp := update.timestamp
        valid := true },
     true)
  | none => (plab_registry, false)

/-! ## Top-level engine (arc3_csi_correlator.cpp, lines 274-347) -/

/-- The static registry together with the three streams of `arc3_csi_correlator`. -/
structure arc3_state_t where
  plab_registry : Nat → plab_entry_t
  csi_in : List csi_input_t
  admit_out : List admit_output_t
  reg_in : List registry_update_t

/-- The decision block of `arc3_csi_correlator` for one request after the lookup
(arc3_csi_correlator.cpp, lines 310-342). The cast `(ap_uint<16>)(rho * 256)` takes the
integer part of the exact product, truncated towards zero, modulo `2^16`. -/
def admit_decision (found : Option plab_entry_t) (input : csi_input_t) : admit_output_t :=
  match found with
  | none =>
    { ue_id := input.ue_id, last := input.last, decision := .ADMIT_UNKNOWN, score := 0 }
  | some entry =>
    if is_expired entry.timestamp input.current_time = true then
      { ue_id := input.ue_id, last := input.last, decision := .ADMIT_EXPIRED, score := 0 }
    else
      let rho : correlation_t := compute_correlation input.csi entry.handle
      let rho_int : Nat := (Int.tdiv (rho * 256) 65536 % 65536).toNat
      if rho_int > CORRELATION_THRESHOLD then
        { ue_id := input.ue_id, last := input.last, decision := .ADMIT_ACCEPT, score := rho }
      else
        { ue_id := input.ue_id, last := input.last, decision := .ADMIT_REJECT, score := rho }

/-- Function `arc3_csi_correlator` (arc3_csi_correlator.cpp, lines 274-347): at most one
registry update is taken from `reg_in`, then at most one request from `csi_in`, whose
decision is appended to `admit_out`. -/
def arc3_csi_correlator (s : arc3_state_t) : arc3_state_t :=
  -- Process registry updates (non-blocking)
  let s : arc3_state_t :=
    match s.reg_in with
    | [] => s
    | update :: rest =>
      { s with plab_registry := (registry_update s.plab_registry update).1, reg_in := rest }
  -- Process CSI admission requests
  match s.csi_in with
  | [] => s
  | input :: rest =>
    let found := registry_lookup s.plab_registry input.ue_id
    { s with csi_in := rest, admit_out := s.admit_out ++ [admit_decision found input] }

/-! ## Fingerprint codec (arc3_csi_correlator.cpp, lines 78-104) -/

/-- The quantiser of `compute_csi_handle` (arc3_csi_correlator.cpp, lines 95-96): the
boundaries -0.5, 0 and 0.5 are the raw values -128, 0 and 128. -/
def quantize (x : csi_sample_t) : Nat :=
  if x < -128 then 0
  else if x < 0 then 1
  else if x < 128 then 2
  else 3

/-- The assignment `handle.range(lo + 3, lo) = packed` on an `ap_uint<256>`: the four bits
at offset `lo` are replaced by `packed`, the bits below and above are kept. -/
def set_range4 (handle : csi_handle_t) (lo : Nat) (packed : Nat) : csi_handle_t :=
  handle % 2 ^ lo + (packed % 16) * 2 ^ lo + (handle >>> (lo + 4)) * 2 ^ (lo + 4)

/-- Body of the `QUANTIZE_LOOP` of `compute_csi_handle` for antenna `i`
(arc3_csi_correlator.cpp, lines 89-100); the concatenation `(real_q, imag_q)` has the
real code in the two high bits. -/
def quantize_loop_body (csi : csi_vector_t) (handle : csi_handle_t) (i : Nat) :
    csi_handle_t :=
  let real := (csi.antenna i).real
  let imag := (csi.antenna i).imag
  let real_q : Nat := quantize real
  let imag_q : Nat := quantize imag
  let packed : Nat := real_q * 4 + imag_q
  set_range4 handle (i * 4) packed

/-- Function `compute_csi_handle` (arc3_csi_correlator.cpp, lines 78-104). -/
def compute_csi_handle (csi : csi_vector_t) : csi_handle_t :=
  (List.range N_ANTENNAS).foldl (quantize_loop_body csi) 0

/-! ## Registry maintenance (arc3_csi_correlator.cpp, lines 358-412) -/

/-- Function `arc3_init_registry` (arc3_csi_correlator.cpp, lines 358-367): the loop
clears the valid flag of every entry. The bitmap `registry_valid_bitmap`, which the
function also zeroes, is never read by the source and is not part of the model. -/
def arc3_init_registry (plab_registry : Nat → plab_entry_t) : Nat → plab_entry_t :=
  (List.range MAX_PLAB_ENTRIES).foldl
    (fun reg i => Function.update reg i { reg i with valid := false }) plab_registry

/-- Function `arc3_expire_old` (arc3_csi_correlator.cpp, lines 400-412): the loop clears
the valid flag of every valid entry that `is_expired` reports. -/
def arc3_expire_old (plab_registry : Nat → plab_entry_t) (current_time : timestamp_t) :
    Nat → plab_entry_t :=
  (List.range MAX_PLAB_ENTRIES).foldl
    (fun reg i =>
      if (reg i).valid = true then
        if is_expired (reg i).timestamp current_time = true then
          Function.update reg i { reg i with valid := false }
        else reg
      else reg) plab_registry

/-! ## Concrete inputs used in evaluations -/

/-- An empty registry: every slot invalid, all fields zero. -/
def empty_registry : Nat → plab_entry_t :=
  fun _ => { ue_id := 0, handle := 0, timestamp := 0, valid := false }

/-- A channel vector with the sample 1.0 + 0i at antennas 0..40 and 0 at antennas 41..63. -/
def csi_41_of_64 : csi_vector_t :=
  { antenna := fun i => if i < 41 then { real := 256, imag := 0 } else { real := 0, imag := 0 } }

/-- The effect of one pass of the `EXPIRE_LOOP` on the entry it visits, used to state what
`arc3_expire_old` does slot by slot. -/
def expire_entry (current_time : timestamp_t) (e : plab_entry_t) : plab_entry_t :=
  if e.valid = true ∧ is_expired e.timestamp current_time = true then
    { e with valid := false }
  else e

/-! ## Sequences of registry calls -/

/-- A call that changes the registry: `registry_update(update)` or
`arc3_expire_old(current_time)`. -/
inductive registry_call_t where
  | update (update : registry_update_t)
  | expire (current_time : timestamp_t)

/-- The registry after one call. -/
def registry_call (plab_registry : Nat → plab_entry_t) :
    registry_call_t → (Nat → plab_entry_t)
  | .update update => (registry_update plab_registry update).1
  | .expire current_time => arc3_expire_old plab_registry current_time

/-- The registry after a sequence of calls, first call first. -/
def registry_calls (plab_registry : Nat → plab_entry_t) (calls : List registry_call_t) :
    Nat → plab_entry_t :=
  calls.foldl registry_call plab_registry

/-- The call sequence `registry_update(1, .., t = 0); registry_update(10001, .., t =
400000000); arc3_expire_old(600000000); registry_update(10001, .., t = 600000000)`. -/
def refresh_after_expire : List registry_call_t :=
  [ .update { ue_id := 1, handle := 17, timestamp := 0, is_update := false },
    .update { ue_id := 10001, handle := 34, timestamp := 400000000, is_update := false },
    .expire 600000000,
    .update { ue_id := 10001, handle := 51, timestamp := 600000000, is_update := true } ]

/-! ## The square root on non-negative raw values -/

/-- The computation of `newton_step` for a non-negative argument and guess, on natural
numbers: for such values the truncating division is the natural division, `>> 1` halves,
and the store saturates at the upper bound only. -/
def newton_step_nat (x guess : Nat) : Nat :=
  cond (Nat.beq guess 0) guess
    (cond (Nat.ble (Nat.div (Nat.add guess (Nat.div (Nat.mul x 65536) guess)) 2) 2147483647)
      (Nat.div (Nat.add guess (Nat.div (Nat.mul x 65536) guess)) 2) 2147483647)

/-- The computation of `approx_sqrt` for a non-negative argument, on natural numbers (a
zero argument gives a zero guess, which the three steps keep). -/
def approx_sqrt_nat (x : Nat) : Nat :=
  newton_step_nat x (newton_step_nat x (newton_step_nat x (Nat.div x 2)))

/-- Exhaustive test over the arguments `lo .. lo + 2^d - 1`: the square root is at most
65555, and it is at least 52736 when the argument is at least 42437. -/
def sqrt_range_check : Nat → Nat → Bool
  | 0, lo =>
    cond (Nat.ble (approx_sqrt_nat lo) 65555)
      (cond (Nat.ble 42437 lo) (Nat.ble 52736 (approx_sqrt_nat lo)) true) false
  | d + 1, lo =>
    cond (sqrt_range_check d lo) (sqrt_range_check d (Nat.add lo (Nat.pow 2 d))) false

/-! ## Quantities used to state properties of the correlation -/

/-- The accumulators after the `CORR_LOOP` of `compute_correlation`
(arc3_csi_correlator.cpp, lines 125-162). -/
def corr_accumulate (csi_current : csi_vector_t) (handle_stored : csi_handle_t) :
    corr_acc_t :=
  (List.range N_ANTENNAS).foldl (corr_loop_body csi_current handle_stored)
    { inner_real := 0, inner_imag := 0, norm_cur := 0, norm_stored := 0 }

/-- The dequantised real part that the `CORR_LOOP` reconstructs for antenna `i`
(arc3_csi_correlator.cpp, lines 140-147). -/
def stored_real (handle_stored : csi_handle_t) (i : Nat) : csi_sample_t :=
  dequantize (((handle_stored >>> (i * 4)) % 16) >>> 2)

/-- The dequantised imaginary part that the `CORR_LOOP` reconstructs for antenna `i`
(arc3_csi_correlator.cpp, lines 140-151). -/
def stored_imag (handle_stored : csi_handle_t) (i : Nat) : csi_sample_t :=
  dequantize (((handle_stored >>> (i * 4)) % 16) % 4)

/-- Every component of the vector is a `csi_sample_t`, an `ap_fixed<16,8>` value: its raw
value is a signed 16-bit integer. -/
def csi_in_range (v : csi_vector_t) : Prop :=
  ∀ i, i < N_ANTENNAS →
    (-32768 ≤ (v.antenna i).real ∧ (v.antenna i).real ≤ 32767) ∧
    (-32768 ≤ (v.antenna i).imag ∧ (v.antenna i).imag ≤ 32767)

/-- A component whose magnitude is between 43/256 (about 0.168) and 1.5: within a factor
between 2/3 and 2 of the midpoint of its quantisation interval. -/
def component_in_band (x : csi_sample_t) : Prop :=
  (43 ≤ x ∧ x ≤ 384) ∨ (-384 ≤ x ∧ x ≤ -43)

/-- Every real and imaginary component of the vector is in the band. -/
def csi_in_band (v : csi_vector_t) : Prop :=
  ∀ i, i < N_ANTENNAS →
    component_in_band (v.antenna i).real ∧ component_in_band (v.antenna i).imag

/-- The channel vector with the sample 0.25 + 0.25i (raw 64, 64) at every antenna. -/
def csi_all_quarter : csi_vector_t :=
  { antenna := fun _ => { real := 64, imag := 64 } }

/-- A channel vector with one strong antenna: 1.0 + 1.0i (raw 256, 256) at antenna 0 and
0.03125 + 0.03125i (raw 8, 8) at antennas 1..63. -/
def csi_one_strong : csi_vector_t :=
  { antenna := fun i => if i = 0 then { real := 256, imag := 256 } else { real := 8, imag := 8 } }

/-- The channel vector that the dequantiser of `compute_correlation` reconstructs from a
handle (arc3_csi_correlator.cpp, lines 140-151): antenna `i` holds the dequantised real
and imaginary codes of bits `[4i+3 : 4i]`. -/
def decode_handle (handle_stored : csi_handle_t) : csi_vector_t :=
  { antenna := fun i =>
      { real := stored_real handle_stored i, imag := stored_imag handle_stored i } }

end Arc3

namespace DGate

/-! ## Structural lemmas -/

theorem state_cases (s : Nat) :
    s = 0 ∨ s = 1 ∨ s = 2 ∨ s = 3 ∨ s = 4 ∨ s = 5 ∨ s = 6 ∨ s = 7 ∨ s = 8 ∨ s = 9 ∨
    s = 10 ∨ s = 11 ∨
    (s ≠ 0 ∧ s ≠ 1 ∧ s ≠ 2 ∧ s ≠ 3 ∧ s ≠ 4 ∧ s ≠ 5 ∧ s ≠ 6 ∧ s ≠ 7 ∧ s ≠ 8 ∧ s ≠ 9 ∧
      s ≠ 10 ∧ s ≠ 11) := by omega

/-- Every arm of the switch writes the same state to the action and to the context. -/
theorem state_switch_new_state (k : Nat) (ctx : fsm_context_t) (out : fsm_output_t)
    (input : fsm_input_t) (ts : timestamp_t) :
    (state_switch k ctx out input ts).2.new_state
      = (state_switch k ctx out input ts).1.current_state := by
  rcases state_cases ctx.current_state with h | h | h | h | h | h | h | h | h | h | h | h | h
  all_goals (simp only [state_switch, h]; simp; try (split_ifs <;> simp [h]))

/-- Every arm of the switch, the default arm included, leaves a declared state. -/
theorem state_switch_declared (k : Nat) (ctx : fsm_context_t) (out : fsm_output_t)
    (input : fsm_input_t) (ts : timestamp_t) :
    is_declared_state (state_switch k ctx out input ts).1.current_state := by
  unfold is_declared_state
  rcases state_cases ctx.current_state with h | h | h | h | h | h | h | h | h | h | h | h | h
  all_goals (simp only [state_switch, h]; simp; try (split_ifs <;> simp [h] <;> decide))

theorem count_transition_new_state (r : fsm_context_t × fsm_output_t)
    (h : r.2.new_state = r.1.current_state) :
    (count_transition r).2.new_state = (count_transition r).1.current_state := by
  unfold count_transition
  simp only []
  split_ifs <;> simp [h]

theorem count_transition_declared (r : fsm_context_t × fsm_output_t)
    (h : is_declared_state r.1.current_state) :
    is_declared_state (count_transition r).1.current_state := by
  unfold count_transition is_declared_state at *
  simp only []
  split_ifs <;> simp [h]

/-- The state after the transition accounting is the switch's state or `FAIL_SAFE`. -/
theorem count_transition_state (r : fsm_context_t × fsm_output_t) :
    (count_transition r).1.current_state = r.1.current_state ∨
    (count_transition r).1.current_state = STATE_FAIL_SAFE := by
  unfold count_transition
  simp only []
  split_ifs <;> simp

/-- Unfolding of `process_transition` on the first early return. -/
theorem process_transition_dial (k : Nat) (ctx : fsm_context_t) (input : fsm_input_t)
    (ts : timestamp_t) (he : input.event = EVENT_EMERGENCY_DIAL)
    (hn : is_emergency_number input.payload.dialed_num = true) :
    process_transition k ctx input ts =
      ({ ctx with
          previous_state := ctx.current_state
          current_state := STATE_EMERGENCY_BYPASS
          in_emergency := true
          emergency_number := input.payload.dialed_num },
       { initial_output ctx input with
          new_state := STATE_EMERGENCY_BYPASS
          allow_attach := true
          allowed_rats := 0xF
          log_security := true }) := by
  simp [process_transition, he, hn]

/-- Unfolding of `process_transition` on the second early return. -/
theorem process_transition_end (k : Nat) (ctx : fsm_context_t) (input : fsm_input_t)
    (ts : timestamp_t) (he : input.event = EVENT_EMERGENCY_END)
    (hf : ctx.in_emergency = true) :
    process_transition k ctx input ts =
      ({ ctx with
          previous_state := ctx.current_state
          in_emergency := false
          current_state := STATE_5G_SCANNING },
       { initial_output ctx input with new_state := STATE_5G_SCANNING, allowed_rats := 0x8 }) := by
  simp [process_transition, he, hf]

/-- Unfolding of `process_transition` when neither early return is taken. -/
theorem process_transition_table (k : Nat) (ctx : fsm_context_t) (input : fsm_input_t)
    (ts : timestamp_t)
    (h1 : ¬ (input.event = EVENT_EMERGENCY_DIAL ∧
              is_emergency_number input.payload.dialed_num = true))
    (h2 : ¬ (input.event = EVENT_EMERGENCY_END ∧ ctx.in_emergency = true)) :
    process_transition k ctx input ts =
      ({ (count_transition (state_switch k { ctx with previous_state := ctx.current_state }
            (initial_output ctx input) input ts)).1 with state_entry_time := ts },
       (count_transition (state_switch k { ctx with previous_state := ctx.current_state }
            (initial_output ctx input) input ts)).2) := by
  unfold process_transition
  simp only []
  rw [if_neg h1, if_neg h2]

/-- After any call the context is in a declared state and the action reports it. -/
theorem process_transition_declared (k : Nat) (ctx : fsm_context_t) (input : fsm_input_t)
    (ts : timestamp_t) :
    is_declared_state (process_transition k ctx input ts).1.current_state ∧
    (process_transition k ctx input ts).2.new_state
      = (process_transition k ctx input ts).1.current_state := by
  by_cases h1 : input.event = EVENT_EMERGENCY_DIAL ∧
      is_emergency_number input.payload.dialed_num = true
  · rw [process_transition_dial k ctx input ts h1.1 h1.2]
    simp [is_declared_state]; decide
  · by_cases h2 : input.event = EVENT_EMERGENCY_END ∧ ctx.in_emergency = true
    · rw [process_transition_end k ctx input ts h2.1 h2.2]
      simp [is_declared_state]
    · rw [process_transition_table k ctx input ts h1 h2]
      exact ⟨count_transition_declared _ (state_switch_declared _ _ _ _ _),
        count_transition_new_state _ (state_switch_new_state _ _ _ _ _)⟩

/-! ## C1: totality -/

/-- C1: for every context whose current state is one of the 12 declared states, every one
of the 14 events, every payload and every timestamp, `process_transition` returns exactly
one action, and both the action's new state and the context's resulting current state are
among the 12 declared states. -/
theorem C1_transition_total (k : Nat) (ctx : fsm_context_t) (input : fsm_input_t)
    (ts : timestamp_t) (_hs : is_declared_state ctx.current_state)
    (_he : is_declared_event input.event) :
    ∃! act : fsm_output_t, act = (process_transition k ctx input ts).2 ∧
      is_declared_state act.new_state ∧
      is_declared_state (process_transition k ctx input ts).1.current_state := by
  have hd := process_transition_declared k ctx input ts
  refine ⟨(process_transition k ctx input ts).2, ⟨rfl, ?_, hd.1⟩, fun act hact => hact.1⟩
  rw [hd.2]
  exact hd.1

/-- Instance of C1 at an all-zero slot in `INIT` receiving `5G_FOUND`. -/
theorem C1_transition_total_witness :
    is_declared_state zero_context.current_state ∧
    is_declared_event (plain_event EVENT_5G_FOUND 1 1000).event ∧
    ∃! act : fsm_output_t,
      act = (process_transition 0 zero_context (plain_event EVENT_5G_FOUND 1 1000) 1000).2 ∧
      is_declared_state act.new_state ∧
      is_declared_state
        (process_transition 0 zero_context (plain_event EVENT_5G_FOUND 1 1000) 1000).1.current_state :=
  ⟨by decide, by decide,
    C1_transition_total 0 zero_context (plain_event EVENT_5G_FOUND 1 1000) 1000
      (by decide) (by decide)⟩

/-! ## C3: NO_UNSAFE_ATTACH -/

/-- From a state outside the permit and legacy groups the switch never produces one of the
three legacy states. -/
theorem state_switch_no_unsafe (k : Nat) (ctx : fsm_context_t) (out : fsm_output_t)
    (input : fsm_input_t) (ts : timestamp_t)
    (hs : ctx.current_state = STATE_INIT ∨ ctx.current_state = STATE_5G_SCANNING ∨
          ctx.current_state = STATE_5G_ATTACHING ∨ ctx.current_state = STATE_5G_CONNECTED ∨
          ctx.current_state = STATE_REJECT) :
    (state_switch k ctx out input ts).1.current_state ≠ STATE_LEGACY_ALLOWED ∧
    (state_switch k ctx out input ts).1.current_state ≠ STATE_LEGACY_ATTACHING ∧
    (state_switch k ctx out input ts).1.current_state ≠ STATE_LEGACY_CONNECTED := by
  rcases hs with h | h | h | h | h
  all_goals (simp only [state_switch, h]; simp; try (split_ifs <;> simp [h]))

/-- C3 (NO_UNSAFE_ATTACH): for every context whose current state is INIT, SCAN_5G,
ATTACH_5G, CONN_5G or REJECT and every event other than PERMIT_VALID, with any payload
and timestamp, the state after `process_transition` (in the context and in the action) is
none of LEGACY_OK, ATTACH_LEGACY, CONN_LEGACY. -/
theorem C3_no_unsafe_attach (k : Nat) (ctx : fsm_context_t) (input : fsm_input_t)
    (ts : timestamp_t)
    (hs : ctx.current_state = STATE_INIT ∨ ctx.current_state = STATE_5G_SCANNING ∨
          ctx.current_state = STATE_5G_ATTACHING ∨ ctx.current_state = STATE_5G_CONNECTED ∨
          ctx.current_state = STATE_REJECT)
    (_he : input.event ≠ EVENT_PERMIT_VALID) :
    ((process_transition k ctx input ts).1.current_state ≠ STATE_LEGACY_ALLOWED ∧
     (process_transition k ctx input ts).1.current_state ≠ STATE_LEGACY_ATTACHING ∧
     (process_transition k ctx input ts).1.current_state ≠ STATE_LEGACY_CONNECTED) ∧
    ((process_transition k ctx input ts).2.new_state ≠ STATE_LEGACY_ALLOWED ∧
     (process_transition k ctx input ts).2.new_state ≠ STATE_LEGACY_ATTACHING ∧
     (process_transition k ctx input ts).2.new_state ≠ STATE_LEGACY_CONNECTED) := by
  rw [(process_transition_declared k ctx input ts).2, and_self]
  by_cases h1 : input.event = EVENT_EMERGENCY_DIAL ∧
      is_emergency_number input.payload.dialed_num = true
  · rw [process_transition_dial k ctx input ts h1.1 h1.2]
    simp
  · by_cases h2 : input.event = EVENT_EMERGENCY_END ∧ ctx.in_emergency = true
    · rw [process_transition_end k ctx input ts h2.1 h2.2]
      simp
    · rw [process_transition_table k ctx input ts h1 h2]
      have hsw := state_switch_no_unsafe k { ctx with previous_state := ctx.current_state }
        (initial_output ctx input) input ts hs
      rcases count_transition_state (state_switch k
        { ctx with previous_state := ctx.current_state } (initial_output ctx input) input ts)
        with hc | hc
      · simp only [hc]
        exact hsw
      · simp only [hc]
        decide

/-- Instance of C3 at a context in `CONN_5G` receiving `SERVICE_REJECT`. -/
theorem C3_no_unsafe_attach_witness :
    ({ zero_context with current_state := STATE_5G_CONNECTED }.current_state = STATE_INIT ∨
      { zero_context with current_state := STATE_5G_CONNECTED }.current_state
        = STATE_5G_SCANNING ∨
      { zero_context with current_state := STATE_5G_CONNECTED }.current_state
        = STATE_5G_ATTACHING ∨
      { zero_context with current_state := STATE_5G_CONNECTED }.current_state
        = STATE_5G_CONNECTED ∨
      { zero_context with current_state := STATE_5G_CONNECTED }.current_state = STATE_REJECT) ∧
    (plain_event EVENT_SERVICE_REJECT 1 2002).event ≠ EVENT_PERMIT_VALID ∧
    (((process_transition 0 { zero_context with current_state := STATE_5G_CONNECTED }
        (plain_event EVENT_SERVICE_REJECT 1 2002) 2002).1.current_state ≠ STATE_LEGACY_ALLOWED ∧
      (process_transition 0 { zero_context with current_state := STATE_5G_CONNECTED }
        (plain_event EVENT_SERVICE_REJECT 1 2002) 2002).1.current_state
          ≠ STATE_LEGACY_ATTACHING ∧
      (process_transition 0 { zero_context with current_state := STATE_5G_CONNECTED }
        (plain_event EVENT_SERVICE_REJECT 1 2002) 2002).1.current_state
          ≠ STATE_LEGACY_CONNECTED) ∧
     ((process_transition 0 { zero_context with current_state := STATE_5G_CONNECTED }
        (plain_event EVENT_SERVICE_REJECT 1 2002) 2002).2.new_state ≠ STATE_LEGACY_ALLOWED ∧
      (process_transition 0 { zero_context with current_state := STATE_5G_CONNECTED }
        (plain_event EVENT_SERVICE_REJECT 1 2002) 2002).2.new_state ≠ STATE_LEGACY_ATTACHING ∧
      (process_transition 0 { zero_context with current_state := STATE_5G_CONNECTED }
        (plain_event EVENT_SERVICE_REJECT 1 2002) 2002).2.new_state
          ≠ STATE_LEGACY_CONNECTED)) :=
  ⟨by decide, by decide,
    C3_no_unsafe_attach 0 { zero_context with current_state := STATE_5G_CONNECTED }
      (plain_event EVENT_SERVICE_REJECT 1 2002) 2002 (by decide) (by decide)⟩

/-! ## C4, C5, C6: the emergency override -/

/-- C4 (emergency override): for every context, in any of the 12 states and with any
counters and flags, and every EMERGENCY_DIAL event whose dialled number is recognised by
`is_emergency_number`, `process_transition` moves the context to EMERGENCY in that single
step, sets the in-emergency flag, and emits allow-attach = 1, allowed-RATs = 0xF and
log-security = 1 (with new-state EMERGENCY). -/
theorem C4_emergency_override (k : Nat) (ctx : fsm_context_t) (input : fsm_input_t)
    (ts : timestamp_t) (he : input.event = EVENT_EMERGENCY_DIAL)
    (hn : is_emergency_number input.payload.dialed_num = true) :
    (process_transition k ctx input ts).1.current_state = STATE_EMERGENCY_BYPASS ∧
    (process_transition k ctx input ts).1.in_emergency = true ∧
    (process_transition k ctx input ts).2.new_state = STATE_EMERGENCY_BYPASS ∧
    (process_transition k ctx input ts).2.allow_attach = true ∧
    (process_transition k ctx input ts).2.allowed_rats = 0xF ∧
    (process_transition k ctx input ts).2.log_security = true := by
  rw [process_transition_dial k ctx input ts he hn]
  simp

/-- Instance of C4 at a context in `FAIL_SAFE` whose transition counter is past the bound,
dialling "911". -/
theorem C4_emergency_override_witness :
    (dial_event EMERGENCY_911 1 6001).event = EVENT_EMERGENCY_DIAL ∧
    is_emergency_number (dial_event EMERGENCY_911 1 6001).payload.dialed_num = true ∧
    (process_transition 0
        { zero_context with current_state := STATE_FAIL_SAFE, transition_count := 200 }
        (dial_event EMERGENCY_911 1 6001) 6001).1.current_state = STATE_EMERGENCY_BYPASS ∧
    (process_transition 0
        { zero_context with current_state := STATE_FAIL_SAFE, transition_count := 200 }
        (dial_event EMERGENCY_911 1 6001) 6001).1.in_emergency = true ∧
    (process_transition 0
        { zero_context with current_state := STATE_FAIL_SAFE, transition_count := 200 }
        (dial_event EMERGENCY_911 1 6001) 6001).2.new_state = STATE_EMERGENCY_BYPASS ∧
    (process_transition 0
        { zero_context with current_state := STATE_FAIL_SAFE, transition_count := 200 }
        (dial_event EMERGENCY_911 1 6001) 6001).2.allow_attach = true ∧
    (process_transition 0
        { zero_context with current_state := STATE_FAIL_SAFE, transition_count := 200 }
        (dial_event EMERGENCY_911 1 6001) 6001).2.allowed_rats = 0xF ∧
    (process_transition 0
        { zero_context with current_state := STATE_FAIL_SAFE, transition_count := 200 }
        (dial_event EMERGENCY_911 1 6001) 6001).2.log_security = true :=
  ⟨by decide, by decide,
    C4_emergency_override 0
      { zero_context with current_state := STATE_FAIL_SAFE, transition_count := 200 }
      (dial_event EMERGENCY_911 1 6001) 6001 (by decide) (by decide)⟩

/-- C5: for every context with the in-emergency flag set, whatever its current state, an
EMERGENCY_END event clears the flag, moves the context to SCAN_5G and emits
allowed-RATs = 0x8; consequently, from any context, EMERGENCY_DIAL with "911" followed by
EMERGENCY_END ends in SCAN_5G with allowed-RATs = 0x8 on the second action. -/
theorem C5_emergency_end (k : Nat) (ctx : fsm_context_t) (input : fsm_input_t)
    (ts : timestamp_t) (hf : ctx.in_emergency = true)
    (he : input.event = EVENT_EMERGENCY_END) :
    ((process_transition k ctx input ts).1.in_emergency = false ∧
     (process_transition k ctx input ts).1.current_state = STATE_5G_SCANNING ∧
     (process_transition k ctx input ts).2.new_state = STATE_5G_SCANNING ∧
     (process_transition k ctx input ts).2.allowed_rats = 0x8) ∧
    (∀ (ctx0 : fsm_context_t) (dial : fsm_input_t) (t0 : timestamp_t),
      dial.event = EVENT_EMERGENCY_DIAL → dial.payload.dialed_num = EMERGENCY_911 →
      (process_transition k (process_transition k ctx0 dial t0).1 input ts).1.current_state
        = STATE_5G_SCANNING ∧
      (process_transition k (process_transition k ctx0 dial t0).1 input ts).1.in_emergency
        = false ∧
      (process_transition k (process_transition k ctx0 dial t0).1 input ts).2.new_state
        = STATE_5G_SCANNING ∧
      (process_transition k (process_transition k ctx0 dial t0).1 input ts).2.allowed_rats
        = 0x8) := by
  constructor
  · rw [process_transition_end k ctx input ts he hf]
    simp
  · intro ctx0 dial t0 hd hnum
    have hrec : is_emergency_number dial.payload.dialed_num = true := by
      rw [hnum]; decide
    have hflag : (process_transition k ctx0 dial t0).1.in_emergency = true := by
      rw [process_transition_dial k ctx0 dial t0 hd hrec]
    rw [process_transition_end k _ input ts he hflag]
    simp

/-- Instance of C5: a context in `CONN_LEGACY` with the flag set receives `EMERGENCY_END`;
the two-event part is taken at a context in `CONN_5G` dialling "911". -/
theorem C5_emergency_end_witness :
    { zero_context with current_state := STATE_LEGACY_CONNECTED,
                        in_emergency := true }.in_emergency = true ∧
    (plain_event EVENT_EMERGENCY_END 1 6002).event = EVENT_EMERGENCY_END ∧
    (process_transition 0
      (process_transition 0 { zero_context with current_state := STATE_5G_CONNECTED }
        (dial_event EMERGENCY_911 1 6001) 6001).1
      (plain_event EVENT_EMERGENCY_END 1 6002) 6002).1.current_state = STATE_5G_SCANNING ∧
    (process_transition 0
      (process_transition 0 { zero_context with current_state := STATE_5G_CONNECTED }
        (dial_event EMERGENCY_911 1 6001) 6001).1
      (plain_event EVENT_EMERGENCY_END 1 6002) 6002).2.allowed_rats = 0x8 :=
  ⟨by decide, by decide,
    ((C5_emergency_end 0
        { zero_context with current_state := STATE_LEGACY_CONNECTED, in_emergency := true }
        (plain_event EVENT_EMERGENCY_END 1 6002) 6002 (by decide) (by decide)).2
      { zero_context with current_state := STATE_5G_CONNECTED }
      (dial_event EMERGENCY_911 1 6001) 6001 (by decide) (by decide)).1,
    ((C5_emergency_end 0
        { zero_context with current_state := STATE_LEGACY_CONNECTED, in_emergency := true }
        (plain_event EVENT_EMERGENCY_END 1 6002) 6002 (by decide) (by decide)).2
      { zero_context with current_state := STATE_5G_CONNECTED }
      (dial_event EMERGENCY_911 1 6001) 6001 (by decide) (by decide)).2.2.2⟩

/-- C6: a transition taken through the emergency override (a recognised EMERGENCY_DIAL,
or EMERGENCY_END while in-emergency) leaves `cached_permit`, `has_permit` and
`permit_expiry` of the context exactly as they were before the call. -/
theorem C6_emergency_keeps_permit (k : Nat) (ctx : fsm_context_t) (input : fsm_input_t)
    (ts : timestamp_t)
    (h : (input.event = EVENT_EMERGENCY_DIAL ∧
            is_emergency_number input.payload.dialed_num = true) ∨
         (input.event = EVENT_EMERGENCY_END ∧ ctx.in_emergency = true)) :
    (process_transition k ctx input ts).1.cached_permit = ctx.cached_permit ∧
    (process_transition k ctx input ts).1.has_permit = ctx.has_permit ∧
    (process_transition k ctx input ts).1.permit_expiry = ctx.permit_expiry := by
  rcases h with ⟨he, hn⟩ | ⟨he, hf⟩
  · rw [process_transition_dial k ctx input ts he hn]
    simp
  · rw [process_transition_end k ctx input ts he hf]
    simp

/-- Instance of C6: a context in `CONN_LEGACY` holding the test bench's valid permit dials
"112". -/
theorem C6_emergency_keeps_permit_witness :
    ((dial_event EMERGENCY_112 1 3010).event = EVENT_EMERGENCY_DIAL ∧
       is_emergency_number (dial_event EMERGENCY_112 1 3010).payload.dialed_num = true) ∧
    (process_transition 0
        { zero_context with current_state := STATE_LEGACY_CONNECTED,
                            cached_permit := create_valid_permit 1 3004,
                            has_permit := true, permit_expiry := 3600003004 }
        (dial_event EMERGENCY_112 1 3010) 3010).1.cached_permit = create_valid_permit 1 3004 ∧
    (process_transition 0
        { zero_context with current_state := STATE_LEGACY_CONNECTED,
                            cached_permit := create_valid_permit 1 3004,
                            has_permit := true, permit_expiry := 3600003004 }
        (dial_event EMERGENCY_112 1 3010) 3010).1.has_permit = true ∧
    (process_transition 0
        { zero_context with current_state := STATE_LEGACY_CONNECTED,
                            cached_permit := create_valid_permit 1 3004,
                            has_permit := true, permit_expiry := 3600003004 }
        (dial_event EMERGENCY_112 1 3010) 3010).1.permit_expiry = 3600003004 :=
  ⟨by decide,
    C6_emergency_keeps_permit 0
      { zero_context with current_state := STATE_LEGACY_CONNECTED,
                          cached_permit := create_valid_permit 1 3004,
                          has_permit := true, permit_expiry := 3600003004 }
      (dial_event EMERGENCY_112 1 3010) 3010 (Or.inl (by decide))⟩

/-! ## C2: no legacy connection without a validated permit -/

/-- The switch produces a legacy state only from a legacy state, or from
`PERMIT_VALIDATION` on the branch where the signature verifies and the window covers the
timestamp. -/
theorem state_switch_legacy (k : Nat) (ctx : fsm_context_t) (out : fsm_output_t)
    (input : fsm_input_t) (ts : timestamp_t)
    (h : in_legacy (state_switch k ctx out input ts).1.current_state) :
    in_legacy ctx.current_state ∨
    (ctx.current_state = STATE_PERMIT_VALIDATION ∧
      verify_permit_signature ctx.cached_permit k = true ∧
      is_permit_valid ctx.cached_permit ts = true ∧
      (state_switch k ctx out input ts).1.current_state = STATE_LEGACY_ALLOWED) := by
  unfold in_legacy at *
  rcases state_cases ctx.current_state with h0 | h0 | h0 | h0 | h0 | h0 | h0 | h0 | h0 | h0 |
    h0 | h0 | h0
  all_goals (simp only [state_switch, h0] at h ⊢; simp at h ⊢; try (split_ifs at h ⊢ <;> simp_all))

/-- One call of `process_transition` ends in a legacy state only when it started in one,
or when it was the validating step out of `PERMIT_VALIDATION`. -/
theorem process_transition_legacy (k : Nat) (ctx : fsm_context_t) (input : fsm_input_t)
    (ts : timestamp_t)
    (h : in_legacy (process_transition k ctx input ts).1.current_state) :
    in_legacy ctx.current_state ∨
    (ctx.current_state = STATE_PERMIT_VALIDATION ∧
      verify_permit_signature ctx.cached_permit k = true ∧
      is_permit_valid ctx.cached_permit ts = true ∧
      (process_transition k ctx input ts).1.current_state = STATE_LEGACY_ALLOWED) := by
  by_cases h1 : input.event = EVENT_EMERGENCY_DIAL ∧
      is_emergency_number input.payload.dialed_num = true
  · rw [process_transition_dial k ctx input ts h1.1 h1.2] at h
    simp [in_legacy] at h
  · by_cases h2 : input.event = EVENT_EMERGENCY_END ∧ ctx.in_emergency = true
    · rw [process_transition_end k ctx input ts h2.1 h2.2] at h
      simp [in_legacy] at h
    · rw [process_transition_table k ctx input ts h1 h2] at h ⊢
      rcases count_transition_state (state_switch k
        { ctx with previous_state := ctx.current_state } (initial_output ctx input) input ts)
        with hc | hc
      · simp only [hc] at h ⊢
        exact state_switch_legacy k { ctx with previous_state := ctx.current_state }
          (initial_output ctx input) input ts h
      · simp only [hc] at h
        simp [in_legacy] at h

theorem run_transitions_append (k : Nat) (ctx : fsm_context_t)
    (l₁ l₂ : List (fsm_input_t × timestamp_t)) :
    run_transitions k ctx (l₁ ++ l₂) = run_transitions k (run_transitions k ctx l₁) l₂ := by
  induction l₁ generalizing ctx with
  | nil => rfl
  | cons a l ih => simp [run_transitions, ih]

/-- Along any run that starts outside the legacy states, being in a legacy state at the
end means that some step of the run was the validating step out of `PERMIT_VALIDATION`. -/
theorem legacy_needs_validation (k : Nat) (ctx0 : fsm_context_t)
    (steps : List (fsm_input_t × timestamp_t)) (h0 : ¬ in_legacy ctx0.current_state)
    (h : in_legacy (run_transitions k ctx0 steps).current_state) :
    ∃ pre step post, steps = pre ++ step :: post ∧
      (run_transitions k ctx0 pre).current_state = STATE_PERMIT_VALIDATION ∧
      verify_permit_signature (run_transitions k ctx0 pre).cached_permit k = true ∧
      is_permit_valid (run_transitions k ctx0 pre).cached_permit step.2 = true ∧
      (process_transition k (run_transitions k ctx0 pre) step.1 step.2).1.current_state
        = STATE_LEGACY_ALLOWED := by
  induction steps using List.reverseRecOn with
  | nil => exact absurd h h0
  | append_singleton l a ih =>
    rw [run_transitions_append] at h
    simp only [run_transitions] at h
    rcases process_transition_legacy k _ a.1 a.2 h with hl | ⟨hs, hsig, htime, hnext⟩
    · obtain ⟨pre, step, post, hsplit, hrest⟩ := ih hl
      exact ⟨pre, step, post ++ [a], by simp [hsplit], hrest⟩
    · exact ⟨l, a, [], rfl, hs, hsig, htime, hnext⟩

/-- C2: for every finite sequence of events applied by `process_transition` to a freshly
allocated context (state INIT, has_permit = 0, counters 0), if the context is in
CONN_LEGACY after the sequence, then some earlier step of the sequence was taken in
PERMIT_VAL and found both a verifying signature and a validity window covering that
step's timestamp, and that step moved the context from PERMIT_VAL to LEGACY_OK. -/
theorem C2_legacy_connected_needs_valid_permit (k : Nat) (slot : fsm_context_t)
    (ue_id : ue_id_t) (steps : List (fsm_input_t × timestamp_t))
    (h : (run_transitions k (alloc_context slot ue_id) steps).current_state
          = STATE_LEGACY_CONNECTED) :
    ∃ pre step post, steps = pre ++ step :: post ∧
      (run_transitions k (alloc_context slot ue_id) pre).current_state
        = STATE_PERMIT_VALIDATION ∧
      verify_permit_signature (run_transitions k (alloc_context slot ue_id) pre).cached_permit k
        = true ∧
      is_permit_valid (run_transitions k (alloc_context slot ue_id) pre).cached_permit step.2
        = true ∧
      (process_transition k (run_transitions k (alloc_context slot ue_id) pre)
          step.1 step.2).1.current_state = STATE_LEGACY_ALLOWED := by
  apply legacy_needs_validation k (alloc_context slot ue_id) steps
  · simp [in_legacy, alloc_context]
  · exact Or.inr (Or.inr h)

/-- Instance of C2: the six-event run of `authorised_downgrade_steps` takes a fresh context to
`CONN_LEGACY`. -/
theorem C2_legacy_connected_needs_valid_permit_witness :
    (run_transitions 0 (alloc_context zero_context 1) authorised_downgrade_steps).current_state
      = STATE_LEGACY_CONNECTED ∧
    ∃ pre step post, authorised_downgrade_steps = pre ++ step :: post ∧
      (run_transitions 0 (alloc_context zero_context 1) pre).current_state
        = STATE_PERMIT_VALIDATION ∧
      verify_permit_signature (run_transitions 0 (alloc_context zero_context 1) pre).cached_permit 0
        = true ∧
      is_permit_valid (run_transitions 0 (alloc_context zero_context 1) pre).cached_permit step.2
        = true ∧
      (process_transition 0 (run_transitions 0 (alloc_context zero_context 1) pre)
          step.1 step.2).1.current_state = STATE_LEGACY_ALLOWED :=
  ⟨by decide,
    C2_legacy_connected_needs_valid_permit 0 zero_context 1 authorised_downgrade_steps
      (by decide)⟩

/-! ## C7: entering EMERGENCY from FAIL_SAFE -/

/-- C7 (evaluation at the failing input): on a fresh context the ten-event run
`failsafe_dial_steps` ends in EMERGENCY although no event of the run is an EMERGENCY_DIAL
with a recognised number: after nine events the context is in FAIL_SAFE, and dialling
"123" there enters EMERGENCY through the `FAIL_SAFE` arm of the switch, which does not
consult `is_emergency_number` and leaves the in-emergency flag clear. -/
theorem C7_unrecognised_dial_enters_emergency :
    (run_transitions 0 (alloc_context zero_context 1) failsafe_dial_steps).current_state
      = STATE_EMERGENCY_BYPASS ∧
    (run_transitions 0 (alloc_context zero_context 1) failsafe_dial_steps).in_emergency
      = false ∧
    (run_transitions 0 (alloc_context zero_context 1) failsafe_dial_steps.dropLast).current_state
      = STATE_FAIL_SAFE ∧
    is_emergency_number 0x313233 = false ∧
    (∀ s ∈ failsafe_dial_steps, ¬ (s.1.event = EVENT_EMERGENCY_DIAL ∧
        is_emergency_number s.1.payload.dialed_num = true)) := by
  decide

/-! ## C8: permit validation -/

/-- The validity test of the `PERMIT_VALIDATION` arm, spelled out on the permit's fields. -/
theorem permit_judged_valid_iff (k : Nat) (p : downgrade_permit_t) (ts : timestamp_t) :
    (verify_permit_signature p k = true ∧ is_permit_valid p ts = true) ↔
    (p.signature ≠ 0 ∧ p.valid_from ≤ ts ∧ ts ≤ p.valid_until) := by
  simp [verify_permit_signature, is_permit_valid]

set_option maxRecDepth 20000 in
/-- C8 fails as stated: the 64-event run `storm_then_permit_steps` leaves a fresh context
in PERMIT_VAL holding a permit whose signature verifies and whose window covers timestamp
1003; the next event, PERMIT_VALID at 1003, is not an override event, yet the context does
not move to LEGACY_OK: the transition counter reaches 65 and the context is forced to
FAIL_SAFE. -/
theorem C8_counterexample :
    (run_transitions 0 (alloc_context zero_context 1) storm_then_permit_steps).current_state
      = STATE_PERMIT_VALIDATION ∧
    (plain_event EVENT_PERMIT_VALID 1 1003).event ≠ EVENT_EMERGENCY_DIAL ∧
    (plain_event EVENT_PERMIT_VALID 1 1003).event ≠ EVENT_EMERGENCY_END ∧
    verify_permit_signature
      (run_transitions 0 (alloc_context zero_context 1) storm_then_permit_steps).cached_permit 0
      = true ∧
    is_permit_valid
      (run_transitions 0 (alloc_context zero_context 1) storm_then_permit_steps).cached_permit
      1003 = true ∧
    (process_transition 0
      (run_transitions 0 (alloc_context zero_context 1) storm_then_permit_steps)
      (plain_event EVENT_PERMIT_VALID 1 1003) 1003).1.current_state = STATE_FAIL_SAFE ∧
    (process_transition 0
      (run_transitions 0 (alloc_context zero_context 1) storm_then_permit_steps)
      (plain_event EVENT_PERMIT_VALID 1 1003) 1003).1.current_state ≠ STATE_LEGACY_ALLOWED := by
  decide

/-- C8 (amended): in PERMIT_VAL, for every non-override event whose transition leaves the
8-bit transition counter at or below MAX_TRANSITIONS: the cached permit is judged valid
iff its signature is non-zero and valid_from <= timestamp <= valid_until. If valid, the
context moves to LEGACY_OK with has_permit set, permit_expiry = the permit's valid_until
and permit-failures cleared, and the action has allow-attach = 1 and allowed-RATs equal
to the permit's bitmap; if invalid, permit-failures is incremented (as an 8-bit counter),
the context moves to REJECT and the action has log-security = 1 and allow-attach = 0.
The outcome does not depend on the event kind: any other non-override event record gives
the same context and the same action up to the echoed trigger-event and stream-last. -/
theorem C8_permit_validation (k : Nat) (ctx : fsm_context_t) (input : fsm_input_t)
    (ts : timestamp_t) (hs : ctx.current_state = STATE_PERMIT_VALIDATION)
    (h1 : ¬ (input.event = EVENT_EMERGENCY_DIAL ∧
              is_emergency_number input.payload.dialed_num = true))
    (h2 : ¬ (input.event = EVENT_EMERGENCY_END ∧ ctx.in_emergency = true))
    (hc : (ctx.transition_count + 1) % 256 ≤ MAX_TRANSITIONS) :
    ((ctx.cached_permit.signature ≠ 0 ∧ ctx.cached_permit.valid_from ≤ ts ∧
        ts ≤ ctx.cached_permit.valid_until) →
      (process_transition k ctx input ts).1.current_state = STATE_LEGACY_ALLOWED ∧
      (process_transition k ctx input ts).1.has_permit = true ∧
      (process_transition k ctx input ts).1.permit_expiry = ctx.cached_permit.valid_until ∧
      (process_transition k ctx input ts).1.permit_failures = 0 ∧
      (process_transition k ctx input ts).2.new_state = STATE_LEGACY_ALLOWED ∧
      (process_transition k ctx input ts).2.allow_attach = true ∧
      (process_transition k ctx input ts).2.allowed_rats = ctx.cached_permit.allowed_rats) ∧
    (¬ (ctx.cached_permit.signature ≠ 0 ∧ ctx.cached_permit.valid_from ≤ ts ∧
        ts ≤ ctx.cached_permit.valid_until) →
      (process_transition k ctx input ts).1.permit_failures
        = (ctx.permit_failures + 1) % 256 ∧
      (process_transition k ctx input ts).1.current_state = STATE_REJECT ∧
      (process_transition k ctx input ts).2.new_state = STATE_REJECT ∧
      (process_transition k ctx input ts).2.log_security = true ∧
      (process_transition k ctx input ts).2.allow_attach = false) ∧
    (∀ other : fsm_input_t,
      ¬ (other.event = EVENT_EMERGENCY_DIAL ∧
          is_emergency_number other.payload.dialed_num = true) →
      ¬ (other.event = EVENT_EMERGENCY_END ∧ ctx.in_emergency = true) →
      (process_transition k ctx other ts).1 = (process_transition k ctx input ts).1 ∧
      (process_transition k ctx other ts).2 =
        { (process_transition k ctx input ts).2 with
          trigger_event := other.event, last := other.last }) := by
  have hc' : ¬ ((ctx.transition_count + 1) % 256 > MAX_TRANSITIONS) := Nat.not_lt.mpr hc
  refine ⟨?_, ?_, ?_⟩
  · intro hv
    have hv' := (permit_judged_valid_iff k ctx.cached_permit ts).mpr hv
    rw [process_transition_table k ctx input ts h1 h2]
    simp only [state_switch, count_transition, hs]
    simp [hv'.1, hv'.2, hc']
  · intro hv
    have hv' : ¬ (verify_permit_signature ctx.cached_permit k = true ∧
        is_permit_valid ctx.cached_permit ts = true) :=
      fun h => hv ((permit_judged_valid_iff k ctx.cached_permit ts).mp h)
    rw [process_transition_table k ctx input ts h1 h2]
    simp only [state_switch, count_transition, hs]
    simp [hv', hc', initial_output]
  · intro other g1 g2
    rw [process_transition_table k ctx input ts h1 h2,
      process_transition_table k ctx other ts g1 g2]
    simp only [state_switch, count_transition, hs]
    simp [hc', initial_output]
    split_ifs <;> simp

/-- Instance of C8 (amended) at a context in `PERMIT_VALIDATION` that holds the test
bench's valid permit and receives `PERMIT_VALID` inside the window. -/
theorem C8_permit_validation_witness :
    { zero_context with current_state := STATE_PERMIT_VALIDATION,
                        cached_permit := create_valid_permit 1 1000 }.current_state
      = STATE_PERMIT_VALIDATION ∧
    (({ zero_context with current_state := STATE_PERMIT_VALIDATION,
                          cached_permit := create_valid_permit 1 1000 }.transition_count + 1)
      % 256 ≤ MAX_TRANSITIONS) ∧
    (process_transition 0
      { zero_context with current_state := STATE_PERMIT_VALIDATION,
                          cached_permit := create_valid_permit 1 1000 }
      (plain_event EVENT_PERMIT_VALID 1 1003) 1003).1.current_state = STATE_LEGACY_ALLOWED ∧
    (process_transition 0
      { zero_context with current_state := STATE_PERMIT_VALIDATION,
                          cached_permit := create_valid_permit 1 1000 }
      (plain_event EVENT_PERMIT_VALID 1 1003) 1003).1.has_permit = true :=
  ⟨by decide, by decide,
    ((C8_permit_validation 0
        { zero_context with current_state := STATE_PERMIT_VALIDATION,
                            cached_permit := create_valid_permit 1 1000 }
        (plain_event EVENT_PERMIT_VALID 1 1003) 1003 (by decide) (by decide) (by decide)
        (by decide)).1 (by decide)).1,
    ((C8_permit_validation 0
        { zero_context with current_state := STATE_PERMIT_VALIDATION,
                            cached_permit := create_valid_permit 1 1000 }
        (plain_event EVENT_PERMIT_VALID 1 1003) 1003 (by decide) (by decide) (by decide)
        (by decide)).1 (by decide)).2.1⟩

/-! ## C9: the normal 5G attach scenario -/

/-- C9 (evaluation at the scenario's input): on every freshly allocated context, feeding
5G_FOUND and then 5G_ATTACHED leaves the context in SCAN_5G, not in CONN_5G: the `INIT`
arm spends the first event on the move to SCAN_5G, and 5G_ATTACHED is ignored while
scanning. The second action has new-state = SCAN_5G and allow-attach = 0. -/
theorem C9_found_attached_ends_scanning (k : Nat) (slot : fsm_context_t) (ue_id : ue_id_t)
    (found attached : fsm_input_t) (t1 t2 : timestamp_t)
    (h1 : found.event = EVENT_5G_FOUND) (h2 : attached.event = EVENT_5G_ATTACHED) :
    (process_transition k (alloc_context slot ue_id) found t1).1.current_state
      = STATE_5G_SCANNING ∧
    (process_transition k (process_transition k (alloc_context slot ue_id) found t1).1
      attached t2).1.current_state = STATE_5G_SCANNING ∧
    (process_transition k (process_transition k (alloc_context slot ue_id) found t1).1
      attached t2).2.new_state = STATE_5G_SCANNING ∧
    (process_transition k (process_transition k (alloc_context slot ue_id) found t1).1
      attached t2).2.allow_attach = false ∧
    (process_transition k (process_transition k (alloc_context slot ue_id) found t1).1
      attached t2).2.allowed_rats = 0x8 := by
  simp [process_transition, state_switch, count_transition, initial_output, alloc_context,
    MAX_TRANSITIONS, h1, h2]

/-- Instance of C9 at the input of `test_normal_5g_attach`: subscriber 0x12345678 on a
zero-initialised slot, 5G_FOUND at 1000 and 5G_ATTACHED (stream-last set) at 1001. -/
theorem C9_found_attached_ends_scanning_witness :
    (plain_event EVENT_5G_FOUND 0x12345678 1000).event = EVENT_5G_FOUND ∧
    ({ plain_event EVENT_5G_ATTACHED 0x12345678 1001 with last := true }).event
      = EVENT_5G_ATTACHED ∧
    (process_transition 0
      (process_transition 0 (alloc_context zero_context 0x12345678)
        (plain_event EVENT_5G_FOUND 0x12345678 1000) 1000).1
      { plain_event EVENT_5G_ATTACHED 0x12345678 1001 with last := true } 1001).1.current_state
      = STATE_5G_SCANNING ∧
    (process_transition 0
      (process_transition 0 (alloc_context zero_context 0x12345678)
        (plain_event EVENT_5G_FOUND 0x12345678 1000) 1000).1
      { plain_event EVENT_5G_ATTACHED 0x12345678 1001 with last := true } 1001).2.allow_attach
      = false :=
  ⟨by decide, by decide,
    (C9_found_attached_ends_scanning 0 zero_context 0x12345678
      (plain_event EVENT_5G_FOUND 0x12345678 1000)
      { plain_event EVENT_5G_ATTACHED 0x12345678 1001 with last := true } 1000 1001
      (by decide) (by decide)).2.1,
    (C9_found_attached_ends_scanning 0 zero_context 0x12345678
      (plain_event EVENT_5G_FOUND 0x12345678 1000)
      { plain_event EVENT_5G_ATTACHED 0x12345678 1001 with last := true } 1000 1001
      (by decide) (by decide)).2.2.2.1⟩

/-! ## C10: the authorised downgrade scenario -/

/-- C10 fails as stated: a context in CONN_5G with transition counter 0 is fed
SERVICE_REJECT, then PERMIT_RECEIVED with the test bench's valid permit (non-zero
signature, window covering the three timestamps), then LEGACY_ATTACHED; it ends in
LEGACY_OK, not in CONN_LEGACY. -/
theorem C10_counterexample :
    { zero_context with current_state := STATE_5G_CONNECTED }.current_state
      = STATE_5G_CONNECTED ∧
    { zero_context with current_state := STATE_5G_CONNECTED }.transition_count = 0 ∧
    verify_permit_signature (create_valid_permit 1 3000) 0 = true ∧
    is_permit_valid (create_valid_permit 1 3000) 3002 = true ∧
    is_permit_valid (create_valid_permit 1 3000) 3003 = true ∧
    is_permit_valid (create_valid_permit 1 3000) 3004 = true ∧
    (run_transitions 0 { zero_context with current_state := STATE_5G_CONNECTED }
      [ (plain_event EVENT_SERVICE_REJECT 1 3002, 3002),
        (permit_event (create_valid_permit 1 3000) 1 3003, 3003),
        (plain_event EVENT_LEGACY_ATTACHED 1 3004, 3004) ]).current_state
      = STATE_LEGACY_ALLOWED ∧
    (run_transitions 0 { zero_context with current_state := STATE_5G_CONNECTED }
      [ (plain_event EVENT_SERVICE_REJECT 1 3002, 3002),
        (permit_event (create_valid_permit 1 3000) 1 3003, 3003),
        (plain_event EVENT_LEGACY_ATTACHED 1 3004, 3004) ]).current_state
      ≠ STATE_LEGACY_CONNECTED := by
  decide

/-- C10 (amended): for every context in CONN_5G whose transition counter leaves room for
the events fed, feeding SERVICE_REJECT, then PERMIT_RECEIVED carrying a permit whose
signature verifies and whose validity window covers all event timestamps, then
LEGACY_ATTACHED, leaves the context in LEGACY_OK (the third event is spent on the
validation), and the last action has allow-attach = 1 and allowed-RATs equal to the
permit's RAT bitmap; two further LEGACY_ATTACHED events inside the window then leave the
context in CONN_LEGACY, the last action again carrying the permit's RAT bitmap. -/
theorem C10_authorised_downgrade (k : Nat) (ctx : fsm_context_t)
    (rej rcv att : fsm_input_t) (t1 t2 t3 : timestamp_t)
    (hs : ctx.current_state = STATE_5G_CONNECTED)
    (hc : ctx.transition_count + 3 ≤ MAX_TRANSITIONS)
    (h1 : rej.event = EVENT_SERVICE_REJECT) (h2 : rcv.event = EVENT_PERMIT_RECEIVED)
    (h3 : att.event = EVENT_LEGACY_ATTACHED)
    (hsig : verify_permit_signature rcv.payload.permit k = true)
    (_hw1 : is_permit_valid rcv.payload.permit t1 = true)
    (_hw2 : is_permit_valid rcv.payload.permit t2 = true)
    (hw3 : is_permit_valid rcv.payload.permit t3 = true) :
    (run_transitions k ctx [(rej, t1), (rcv, t2), (att, t3)]).current_state
      = STATE_LEGACY_ALLOWED ∧
    (process_transition k (run_transitions k ctx [(rej, t1), (rcv, t2)]) att t3).2.new_state
      = STATE_LEGACY_ALLOWED ∧
    (process_transition k (run_transitions k ctx [(rej, t1), (rcv, t2)]) att t3).2.allow_attach
      = true ∧
    (process_transition k (run_transitions k ctx [(rej, t1), (rcv, t2)]) att t3).2.allowed_rats
      = rcv.payload.permit.allowed_rats ∧
    (∀ (att4 att5 : fsm_input_t) (t4 t5 : timestamp_t),
      ctx.transition_count + 5 ≤ MAX_TRANSITIONS →
      att4.event = EVENT_LEGACY_ATTACHED → att5.event = EVENT_LEGACY_ATTACHED →
      is_permit_valid rcv.payload.permit t4 = true →
      is_permit_valid rcv.payload.permit t5 = true →
      (run_transitions k ctx
        [(rej, t1), (rcv, t2), (att, t3), (att4, t4), (att5, t5)]).current_state
        = STATE_LEGACY_CONNECTED ∧
      (process_transition k
        (run_transitions k ctx [(rej, t1), (rcv, t2), (att, t3), (att4, t4)])
        att5 t5).2.allowed_rats = rcv.payload.permit.allowed_rats) := by
  have hc3 : ctx.transition_count + 3 ≤ 64 := hc
  have m1 : (ctx.transition_count + 1) % 256 = ctx.transition_count + 1 := by omega
  have m2 : (ctx.transition_count + 1 + 1) % 256 = ctx.transition_count + 2 := by omega
  have m3 : (ctx.transition_count + 2 + 1) % 256 = ctx.transition_count + 3 := by omega
  have b1 : ¬ 64 < ctx.transition_count + 1 := by omega
  have b2 : ¬ 64 < ctx.transition_count + 2 := by omega
  have b3 : ¬ 64 < ctx.transition_count + 3 := by omega
  refine ⟨?_, ?_, ?_, ?_, ?_⟩
  · simp [run_transitions, process_transition, state_switch, count_transition, initial_output,
      MAX_TRANSITIONS, hs, h1, h2, h3, hsig, hw3, m1, m2, m3, b1, b2, b3]
  · simp [run_transitions, process_transition, state_switch, count_transition, initial_output,
      MAX_TRANSITIONS, hs, h1, h2, h3, hsig, hw3, m1, m2, m3, b1, b2, b3]
  · simp [run_transitions, process_transition, state_switch, count_transition, initial_output,
      MAX_TRANSITIONS, hs, h1, h2, h3, hsig, hw3, m1, m2, m3, b1, b2, b3]
  · simp [run_transitions, process_transition, state_switch, count_transition, initial_output,
      MAX_TRANSITIONS, hs, h1, h2, h3, hsig, hw3, m1, m2, m3, b1, b2, b3]
  · intro att4 att5 t4 t5 hc5 h4 h5 hw4 hw5
    have hc5' : ctx.transition_count + 5 ≤ 64 := hc5
    have m4 : (ctx.transition_count + 3 + 1) % 256 = ctx.transition_count + 4 := by omega
    have m5 : (ctx.transition_count + 4 + 1) % 256 = ctx.transition_count + 5 := by omega
    have b4 : ¬ 64 < ctx.transition_count + 4 := by omega
    have b5 : ¬ 64 < ctx.transition_count + 5 := by omega
    simp [run_transitions, process_transition, state_switch, count_transition, initial_output,
      MAX_TRANSITIONS, hs, h1, h2, h3, h4, h5, hsig, hw3, hw4, hw5, m1, m2, m3, m4, m5,
      b1, b2, b3, b4, b5]

/-- Instance of C10 (amended) at a context in `CONN_5G` with counter 0 and the test
bench's valid permit: three events end in `LEGACY_ALLOWED`, five in `LEGACY_CONNECTED`. -/
theorem C10_authorised_downgrade_witness :
    { zero_context with current_state := STATE_5G_CONNECTED }.current_state
      = STATE_5G_CONNECTED ∧
    { zero_context with current_state := STATE_5G_CONNECTED }.transition_count + 5
      ≤ MAX_TRANSITIONS ∧
    verify_permit_signature
      (permit_event (create_valid_permit 1 3000) 1 3003).payload.permit 0 = true ∧
    (run_transitions 0 { zero_context with current_state := STATE_5G_CONNECTED }
      [ (plain_event EVENT_SERVICE_REJECT 1 3002, 3002),
        (permit_event (create_valid_permit 1 3000) 1 3003, 3003),
        (plain_event EVENT_LEGACY_ATTACHED 1 3004, 3004) ]).current_state
      = STATE_LEGACY_ALLOWED ∧
    (run_transitions 0 { zero_context with current_state := STATE_5G_CONNECTED }
      [ (plain_event EVENT_SERVICE_REJECT 1 3002, 3002),
        (permit_event (create_valid_permit 1 3000) 1 3003, 3003),
        (plain_event EVENT_LEGACY_ATTACHED 1 3004, 3004),
        (plain_event EVENT_LEGACY_ATTACHED 1 3005, 3005),
        (plain_event EVENT_LEGACY_ATTACHED 1 3006, 3006) ]).current_state
      = STATE_LEGACY_CONNECTED :=
  ⟨by decide, by decide, by decide,
    (C10_authorised_downgrade 0 { zero_context with current_state := STATE_5G_CONNECTED }
      (plain_event EVENT_SERVICE_REJECT 1 3002)
      (permit_event (create_valid_permit 1 3000) 1 3003)
      (plain_event EVENT_LEGACY_ATTACHED 1 3004) 3002 3003 3004
      (by decide) (by decide) (by decide) (by decide) (by decide) (by decide) (by decide)
      (by decide) (by decide)).1,
    ((C10_authorised_downgrade 0 { zero_context with current_state := STATE_5G_CONNECTED }
      (plain_event EVENT_SERVICE_REJECT 1 3002)
      (permit_event (create_valid_permit 1 3000) 1 3003)
      (plain_event EVENT_LEGACY_ATTACHED 1 3004) 3002 3003 3004
      (by decide) (by decide) (by decide) (by decide) (by decide) (by decide) (by decide)
      (by decide) (by decide)).2.2.2.2
      (plain_event EVENT_LEGACY_ATTACHED 1 3005) (plain_event EVENT_LEGACY_ATTACHED 1 3006)
      3005 3006 (by decide) (by decide) (by decide) (by decide) (by decide)).1⟩

/-! ## The switch under the transition bound -/

/-- No arm of the switch writes the transition counter. -/
theorem state_switch_transition_count (k : Nat) (ctx : fsm_context_t) (out : fsm_output_t)
    (input : fsm_input_t) (ts : timestamp_t) :
    (state_switch k ctx out input ts).1.transition_count = ctx.transition_count := by
  rcases state_cases ctx.current_state with h | h | h | h | h | h | h | h | h | h | h | h | h
  all_goals (simp only [state_switch, h]; simp; try (split_ifs <;> simp [h]))

/-- Unfolding of `process_transition` when neither early return is taken and the
incremented counter stays within `MAX_TRANSITIONS`: the switch decides the state and the
action. -/
theorem process_transition_within_bound (k : Nat) (ctx : fsm_context_t)
    (input : fsm_input_t) (ts : timestamp_t)
    (h1 : ¬ (input.event = EVENT_EMERGENCY_DIAL ∧
              is_emergency_number input.payload.dialed_num = true))
    (h2 : ¬ (input.event = EVENT_EMERGENCY_END ∧ ctx.in_emergency = true))
    (hc : (ctx.transition_count + 1) % 256 ≤ MAX_TRANSITIONS) :
    process_transition k ctx input ts =
      ({ (state_switch k { ctx with previous_state := ctx.current_state }
            (initial_output ctx input) input ts).1 with
          transition_count := (ctx.transition_count + 1) % 256
          state_entry_time := ts },
       (state_switch k { ctx with previous_state := ctx.current_state }
            (initial_output ctx input) input ts).2) := by
  rw [process_transition_table k ctx input ts h1 h2]
  have htc := state_switch_transition_count k { ctx with previous_state := ctx.current_state }
    (initial_output ctx input) input ts
  simp only [] at htc
  have hc' : ¬ ((ctx.transition_count + 1) % 256 > MAX_TRANSITIONS) := Nat.not_lt.mpr hc
  simp only [count_transition, htc, if_neg hc']

/-- Unfolding of `process_transition` when neither early return is taken and the
incremented counter exceeds `MAX_TRANSITIONS`. -/
theorem process_transition_over_bound (k : Nat) (ctx : fsm_context_t)
    (input : fsm_input_t) (ts : timestamp_t)
    (h1 : ¬ (input.event = EVENT_EMERGENCY_DIAL ∧
              is_emergency_number input.payload.dialed_num = true))
    (h2 : ¬ (input.event = EVENT_EMERGENCY_END ∧ ctx.in_emergency = true))
    (hc : (ctx.transition_count + 1) % 256 > MAX_TRANSITIONS) :
    process_transition k ctx input ts =
      ({ (state_switch k { ctx with previous_state := ctx.current_state }
            (initial_output ctx input) input ts).1 with
          transition_count := (ctx.transition_count + 1) % 256
          current_state := STATE_FAIL_SAFE
          state_entry_time := ts },
       { (state_switch k { ctx with previous_state := ctx.current_state }
            (initial_output ctx input) input ts).2 with
          new_state := STATE_FAIL_SAFE
          log_security := true }) := by
  rw [process_transition_table k ctx input ts h1 h2]
  have htc := state_switch_transition_count k { ctx with previous_state := ctx.current_state }
    (initial_output ctx input) input ts
  simp only [] at htc
  simp only [count_transition, htc, if_pos hc]

/-! ## C11: the forged permit scenario -/

/-- C11 (evaluation at the scenario's input): for every context in CONN_5G whose counter
leaves room for the events, feeding SERVICE_REJECT and then PERMIT_RECEIVED carrying a
permit with signature 0 leaves the context in PERMIT_VAL, neither in REJECT nor in
SCAN_5G: the `PERMIT_REQUEST` arm only caches the permit. The action emitted for
PERMIT_RECEIVED has new-state = PERMIT_VAL, log-security = 0 and allow-attach = 0. The
rejection (REJECT, log-security = 1) is produced by the next non-override event, if one
arrives. -/
theorem C11_forged_permit_enters_validation (k : Nat) (ctx : fsm_context_t)
    (rej rcv : fsm_input_t) (t1 t2 : timestamp_t)
    (hs : ctx.current_state = STATE_5G_CONNECTED)
    (hc : ctx.transition_count + 3 ≤ MAX_TRANSITIONS)
    (h1 : rej.event = EVENT_SERVICE_REJECT) (h2 : rcv.event = EVENT_PERMIT_RECEIVED)
    (hsig : rcv.payload.permit.signature = 0) :
    (run_transitions k ctx [(rej, t1), (rcv, t2)]).current_state = STATE_PERMIT_VALIDATION ∧
    (run_transitions k ctx [(rej, t1), (rcv, t2)]).cached_permit = rcv.payload.permit ∧
    (process_transition k (run_transitions k ctx [(rej, t1)]) rcv t2).2.new_state
      = STATE_PERMIT_VALIDATION ∧
    (process_transition k (run_transitions k ctx [(rej, t1)]) rcv t2).2.log_security = false ∧
    (process_transition k (run_transitions k ctx [(rej, t1)]) rcv t2).2.allow_attach = false ∧
    (∀ (next : fsm_input_t) (t3 : timestamp_t),
      next.event ≠ EVENT_EMERGENCY_DIAL → next.event ≠ EVENT_EMERGENCY_END →
      (run_transitions k ctx [(rej, t1), (rcv, t2), (next, t3)]).current_state
        = STATE_REJECT ∧
      (process_transition k (run_transitions k ctx [(rej, t1), (rcv, t2)]) next t3).2.log_security
        = true ∧
      (process_transition k (run_transitions k ctx [(rej, t1), (rcv, t2)]) next t3).2.allow_attach
        = false) := by
  have hc3 : ctx.transition_count + 3 ≤ 64 := hc
  have m1 : (ctx.transition_count + 1) % 256 = ctx.transition_count + 1 := by omega
  have m2 : (ctx.transition_count + 1 + 1) % 256 = ctx.transition_count + 2 := by omega
  have m3 : (ctx.transition_count + 2 + 1) % 256 = ctx.transition_count + 3 := by omega
  have b1 : ¬ 64 < ctx.transition_count + 1 := by omega
  have b2 : ¬ 64 < ctx.transition_count + 2 := by omega
  have b3 : ¬ 64 < ctx.transition_count + 3 := by omega
  refine ⟨?_, ?_, ?_, ?_, ?_, ?_⟩
  · simp [run_transitions, process_transition, state_switch, count_transition, initial_output,
      MAX_TRANSITIONS, hs, h1, h2, m1, m2, b1, b2]
  · simp [run_transitions, process_transition, state_switch, count_transition, initial_output,
      MAX_TRANSITIONS, hs, h1, h2, m1, m2, b1, b2]
  · simp [run_transitions, process_transition, state_switch, count_transition, initial_output,
      MAX_TRANSITIONS, hs, h1, h2, m1, m2, b1, b2]
  · simp [run_transitions, process_transition, state_switch, count_transition, initial_output,
      MAX_TRANSITIONS, hs, h1, h2, m1, m2, b1, b2]
  · simp [run_transitions, process_transition, state_switch, count_transition, initial_output,
      MAX_TRANSITIONS, hs, h1, h2, m1, m2, b1, b2]
  · intro next t3 hd he
    simp [run_transitions, process_transition, state_switch, count_transition, initial_output,
      MAX_TRANSITIONS, verify_permit_signature, hs, h1, h2, hd, he, hsig, m1, m2, m3,
      b1, b2, b3]

/-- Instance of C11 at the forged permit of the test bench (`create_invalid_permit`: the
valid permit with its signature zeroed) on a context in `CONN_5G` with counter 0. -/
theorem C11_forged_permit_enters_validation_witness :
    { zero_context with current_state := STATE_5G_CONNECTED }.current_state
      = STATE_5G_CONNECTED ∧
    (permit_event { create_valid_permit 1 4003 with signature := 0 } 1 4002).payload.permit.signature
      = 0 ∧
    (run_transitions 0 { zero_context with current_state := STATE_5G_CONNECTED }
      [ (plain_event EVENT_SERVICE_REJECT 1 4001, 4001),
        (permit_event { create_valid_permit 1 4003 with signature := 0 } 1 4002, 4002)
      ]).current_state = STATE_PERMIT_VALIDATION ∧
    (process_transition 0
      (run_transitions 0 { zero_context with current_state := STATE_5G_CONNECTED }
        [ (plain_event EVENT_SERVICE_REJECT 1 4001, 4001) ])
      (permit_event { create_valid_permit 1 4003 with signature := 0 } 1 4002)
      4002).2.log_security = false :=
  ⟨by decide, by decide,
    (C11_forged_permit_enters_validation 0
      { zero_context with current_state := STATE_5G_CONNECTED }
      (plain_event EVENT_SERVICE_REJECT 1 4001)
      (permit_event { create_valid_permit 1 4003 with signature := 0 } 1 4002) 4001 4002
      (by decide) (by decide) (by decide) (by decide) (by decide)).1,
    (C11_forged_permit_enters_validation 0
      { zero_context with current_state := STATE_5G_CONNECTED }
      (plain_event EVENT_SERVICE_REJECT 1 4001)
      (permit_event { create_valid_permit 1 4003 with signature := 0 } 1 4002) 4001 4002
      (by decide) (by decide) (by decide) (by decide) (by decide)).2.2.2.1⟩

/-! ## C12, C13, C14: arms that re-check the permit, and the stingray block -/

set_option maxRecDepth 20000 in
/-- C12 fails as stated: the 64-event run `storm_in_legacy_connected_steps` leaves a fresh
context in CONN_LEGACY with has_permit set; TIMEOUT then arrives at a timestamp past the
cached permit's valid_until. It is not an override event and the permit is not valid, yet
the context does not move to PERMIT_REQ: the counter reaches 65 and the context is forced
to FAIL_SAFE. -/
theorem C12_counterexample :
    (run_transitions 0 (alloc_context zero_context 1)
      storm_in_legacy_connected_steps).current_state = STATE_LEGACY_CONNECTED ∧
    (plain_event EVENT_TIMEOUT 1 3700000000).event ≠ EVENT_EMERGENCY_DIAL ∧
    (plain_event EVENT_TIMEOUT 1 3700000000).event ≠ EVENT_EMERGENCY_END ∧
    is_permit_valid
      (run_transitions 0 (alloc_context zero_context 1)
        storm_in_legacy_connected_steps).cached_permit 3700000000 = false ∧
    (process_transition 0
      (run_transitions 0 (alloc_context zero_context 1) storm_in_legacy_connected_steps)
      (plain_event EVENT_TIMEOUT 1 3700000000) 3700000000).1.current_state
      = STATE_FAIL_SAFE ∧
    (process_transition 0
      (run_transitions 0 (alloc_context zero_context 1) storm_in_legacy_connected_steps)
      (plain_event EVENT_TIMEOUT 1 3700000000) 3700000000).1.current_state
      ≠ STATE_PERMIT_REQUEST := by
  decide

/-- C12 (amended, forced disconnect): for every context in CONN_LEGACY and every
non-override event whose transition leaves the 8-bit transition counter at or below
MAX_TRANSITIONS: if the cached permit is not valid at the event's timestamp (timestamp
outside [valid_from, valid_until], or has_permit clear), the context moves to PERMIT_REQ
and the action has allow-attach = 0, request-permit = 1, log-security = 1; if the permit
is valid and the event is neither 5G_FOUND nor PERMIT_EXPIRED, the context stays in
CONN_LEGACY with allow-attach = 1 and allowed-RATs equal to the cached permit's bitmap. -/
theorem C12_forced_disconnect (k : Nat) (ctx : fsm_context_t) (input : fsm_input_t)
    (ts : timestamp_t) (hs : ctx.current_state = STATE_LEGACY_CONNECTED)
    (h1 : ¬ (input.event = EVENT_EMERGENCY_DIAL ∧
              is_emergency_number input.payload.dialed_num = true))
    (h2 : ¬ (input.event = EVENT_EMERGENCY_END ∧ ctx.in_emergency = true))
    (hc : (ctx.transition_count + 1) % 256 ≤ MAX_TRANSITIONS) :
    ((ctx.has_permit = false ∨
        ¬ (ctx.cached_permit.valid_from ≤ ts ∧ ts ≤ ctx.cached_permit.valid_until)) →
      (process_transition k ctx input ts).1.current_state = STATE_PERMIT_REQUEST ∧
      (process_transition k ctx input ts).2.new_state = STATE_PERMIT_REQUEST ∧
      (process_transition k ctx input ts).2.allow_attach = false ∧
      (process_transition k ctx input ts).2.request_permit = true ∧
      (process_transition k ctx input ts).2.log_security = true) ∧
    ((ctx.has_permit = true ∧ ctx.cached_permit.valid_from ≤ ts ∧
        ts ≤ ctx.cached_permit.valid_until) →
      input.event ≠ EVENT_5G_FOUND → input.event ≠ EVENT_PERMIT_EXPIRED →
      (process_transition k ctx input ts).1.current_state = STATE_LEGACY_CONNECTED ∧
      (process_transition k ctx input ts).2.new_state = STATE_LEGACY_CONNECTED ∧
      (process_transition k ctx input ts).2.allow_attach = true ∧
      (process_transition k ctx input ts).2.allowed_rats = ctx.cached_permit.allowed_rats) := by
  rw [process_transition_within_bound k ctx input ts h1 h2 hc]
  constructor
  · intro hv
    have hv' : ctx.has_permit = false ∨ is_permit_valid ctx.cached_permit ts = false := by
      rcases hv with h | h
      · exact Or.inl h
      · right
        simp only [is_permit_valid, ge_iff_le, Bool.and_eq_false_imp, decide_eq_true_eq,
          decide_eq_false_iff_not]
        intro hf hu
        exact h ⟨hf, hu⟩
    simp only [state_switch, hs]
    simp [hv', initial_output]
  · intro hv hf he
    have hw : is_permit_valid ctx.cached_permit ts = true := by
      simp [is_permit_valid, hv.2.1, hv.2.2]
    simp only [state_switch, hs]
    simp [hv.1, hw, hf, he]

/-- Instance of C12 (amended): a context in `CONN_LEGACY` holding the test bench's valid
permit receives `TIMEOUT` after the permit expired. -/
theorem C12_forced_disconnect_witness :
    { zero_context with current_state := STATE_LEGACY_CONNECTED,
                        cached_permit := create_valid_permit 1 3000,
                        has_permit := true }.current_state = STATE_LEGACY_CONNECTED ∧
    ({ zero_context with current_state := STATE_LEGACY_CONNECTED,
                         cached_permit := create_valid_permit 1 3000,
                         has_permit := true }.transition_count + 1) % 256
      ≤ MAX_TRANSITIONS ∧
    (process_transition 0
      { zero_context with current_state := STATE_LEGACY_CONNECTED,
                          cached_permit := create_valid_permit 1 3000,
                          has_permit := true }
      (plain_event EVENT_TIMEOUT 1 3700000000) 3700000000).1.current_state
      = STATE_PERMIT_REQUEST ∧
    (process_transition 0
      { zero_context with current_state := STATE_LEGACY_CONNECTED,
                          cached_permit := create_valid_permit 1 3000,
                          has_permit := true }
      (plain_event EVENT_TIMEOUT 1 3700000000) 3700000000).2.new_state
      = STATE_PERMIT_REQUEST :=
  ⟨by decide, by decide,
    ((C12_forced_disconnect 0
      { zero_context with current_state := STATE_LEGACY_CONNECTED,
                          cached_permit := create_valid_permit 1 3000,
                          has_permit := true }
      (plain_event EVENT_TIMEOUT 1 3700000000) 3700000000
      (by decide) (by decide) (by decide) (by decide)).1 (Or.inr (by decide))).1,
    ((C12_forced_disconnect 0
      { zero_context with current_state := STATE_LEGACY_CONNECTED,
                          cached_permit := create_valid_permit 1 3000,
                          has_permit := true }
      (plain_event EVENT_TIMEOUT 1 3700000000) 3700000000
      (by decide) (by decide) (by decide) (by decide)).1 (Or.inr (by decide))).2.1⟩

set_option maxRecDepth 20000 in
/-- C13 fails as stated: the 64-event run `storm_in_legacy_attaching_steps` leaves a fresh
context in ATTACH_LEGACY; LEGACY_ATTACHED then arrives at a timestamp past the cached
permit's valid_until. It is not an override event and the permit is not valid, yet the
context does not move to REJECT: the counter reaches 65 and the context is forced to
FAIL_SAFE. -/
theorem C13_counterexample :
    (run_transitions 0 (alloc_context zero_context 1)
      storm_in_legacy_attaching_steps).current_state = STATE_LEGACY_ATTACHING ∧
    (plain_event EVENT_LEGACY_ATTACHED 1 3700000000).event ≠ EVENT_EMERGENCY_DIAL ∧
    (plain_event EVENT_LEGACY_ATTACHED 1 3700000000).event ≠ EVENT_EMERGENCY_END ∧
    is_permit_valid
      (run_transitions 0 (alloc_context zero_context 1)
        storm_in_legacy_attaching_steps).cached_permit 3700000000 = false ∧
    (process_transition 0
      (run_transitions 0 (alloc_context zero_context 1) storm_in_legacy_attaching_steps)
      (plain_event EVENT_LEGACY_ATTACHED 1 3700000000) 3700000000).1.current_state
      = STATE_FAIL_SAFE ∧
    (process_transition 0
      (run_transitions 0 (alloc_context zero_context 1) storm_in_legacy_attaching_steps)
      (plain_event EVENT_LEGACY_ATTACHED 1 3700000000) 3700000000).1.current_state
      ≠ STATE_REJECT := by
  decide

/-- C13 (amended): for every context in ATTACH_LEGACY and every non-override event
(LEGACY_ATTACHED included), if the cached permit is not valid at the event's timestamp
(timestamp outside [valid_from, valid_until], or has_permit clear) and the transition
leaves the 8-bit transition counter at or below MAX_TRANSITIONS, the context moves to
REJECT with log-security = 1 and allow-attach = 0; and, whatever the counter, a
transition out of ATTACH_LEGACY ends in CONN_LEGACY only when the event is
LEGACY_ATTACHED, has_permit is set and the cached permit's window covers the event's
timestamp. -/
theorem C13_attach_legacy_recheck (k : Nat) (ctx : fsm_context_t) (input : fsm_input_t)
    (ts : timestamp_t) (hs : ctx.current_state = STATE_LEGACY_ATTACHING)
    (h1 : ¬ (input.event = EVENT_EMERGENCY_DIAL ∧
              is_emergency_number input.payload.dialed_num = true))
    (h2 : ¬ (input.event = EVENT_EMERGENCY_END ∧ ctx.in_emergency = true)) :
    ((ctx.transition_count + 1) % 256 ≤ MAX_TRANSITIONS →
      (ctx.has_permit = false ∨
        ¬ (ctx.cached_permit.valid_from ≤ ts ∧ ts ≤ ctx.cached_permit.valid_until)) →
      (process_transition k ctx input ts).1.current_state = STATE_REJECT ∧
      (process_transition k ctx input ts).2.new_state = STATE_REJECT ∧
      (process_transition k ctx input ts).2.log_security = true ∧
      (process_transition k ctx input ts).2.allow_attach = false) ∧
    ((process_transition k ctx input ts).1.current_state = STATE_LEGACY_CONNECTED →
      input.event = EVENT_LEGACY_ATTACHED ∧ ctx.has_permit = true ∧
      ctx.cached_permit.valid_from ≤ ts ∧ ts ≤ ctx.cached_permit.valid_until) := by
  constructor
  · intro hc hv
    rw [process_transition_within_bound k ctx input ts h1 h2 hc]
    have hv' : ctx.has_permit = false ∨ is_permit_valid ctx.cached_permit ts = false := by
      rcases hv with h | h
      · exact Or.inl h
      · right
        simp only [is_permit_valid, ge_iff_le, Bool.and_eq_false_imp, decide_eq_true_eq,
          decide_eq_false_iff_not]
        intro hf hu
        exact h ⟨hf, hu⟩
    simp only [state_switch, hs]
    simp [hv', initial_output]
  · intro hfin
    rw [process_transition_table k ctx input ts h1 h2] at hfin
    rcases count_transition_state (state_switch k
      { ctx with previous_state := ctx.current_state } (initial_output ctx input) input ts)
      with hcs | hcs
    · rw [hcs] at hfin
      simp only [state_switch, hs] at hfin
      simp at hfin
      split_ifs at hfin with hp he hf hg <;> simp at hfin
      refine ⟨he, ?_, ?_⟩
      · cases hb : ctx.has_permit
        · exact absurd (Or.inl hb) hp
        · rfl
      · have hw : is_permit_valid ctx.cached_permit ts = true := by
          cases hb : is_permit_valid ctx.cached_permit ts
          · exact absurd (Or.inr hb) hp
          · rfl
        simpa [is_permit_valid] using hw
    · rw [hcs] at hfin
      exact absurd hfin (by decide)

/-- Instance of C13 (amended): a context in `ATTACH_LEGACY` holding the test bench's valid
permit receives `LEGACY_ATTACHED` after the permit expired. -/
theorem C13_attach_legacy_recheck_witness :
    { zero_context with current_state := STATE_LEGACY_ATTACHING,
                        cached_permit := create_valid_permit 1 3000,
                        has_permit := true }.current_state = STATE_LEGACY_ATTACHING ∧
    ({ zero_context with current_state := STATE_LEGACY_ATTACHING,
                         cached_permit := create_valid_permit 1 3000,
                         has_permit := true }.transition_count + 1) % 256
      ≤ MAX_TRANSITIONS ∧
    (process_transition 0
      { zero_context with current_state := STATE_LEGACY_ATTACHING,
                          cached_permit := create_valid_permit 1 3000,
                          has_permit := true }
      (plain_event EVENT_LEGACY_ATTACHED 1 3700000000) 3700000000).1.current_state
      = STATE_REJECT ∧
    (process_transition 0
      { zero_context with current_state := STATE_LEGACY_ATTACHING,
                          cached_permit := create_valid_permit 1 3000,
                          has_permit := true }
      (plain_event EVENT_LEGACY_ATTACHED 1 3700000000) 3700000000).2.log_security = true :=
  ⟨by decide, by decide,
    ((C13_attach_legacy_recheck 0
      { zero_context with current_state := STATE_LEGACY_ATTACHING,
                          cached_permit := create_valid_permit 1 3000,
                          has_permit := true }
      (plain_event EVENT_LEGACY_ATTACHED 1 3700000000) 3700000000
      (by decide) (by decide) (by decide)).1 (by decide) (Or.inr (by decide))).1,
    ((C13_attach_legacy_recheck 0
      { zero_context with current_state := STATE_LEGACY_ATTACHING,
                          cached_permit := create_valid_permit 1 3000,
                          has_permit := true }
      (plain_event EVENT_LEGACY_ATTACHED 1 3700000000) 3700000000
      (by decide) (by decide) (by decide)).1 (by decide) (Or.inr (by decide))).2.2.1⟩

set_option maxRecDepth 20000 in
/-- C14 fails as stated: the 64-event run `storm_in_5g_connected_steps` leaves a fresh
context in CONN_5G; SERVICE_REJECT (cause 15) then does not move the context to
PERMIT_REQ: the counter reaches 65 and the context is forced to FAIL_SAFE. -/
theorem C14_counterexample :
    (run_transitions 0 (alloc_context zero_context 1)
      storm_in_5g_connected_steps).current_state = STATE_5G_CONNECTED ∧
    ({ plain_event EVENT_SERVICE_REJECT 1 2004 with
        payload := { permit := zero_permit, dialed_num := 0, cause_code := 15 } }).event
      = EVENT_SERVICE_REJECT ∧
    (process_transition 0
      (run_transitions 0 (alloc_context zero_context 1) storm_in_5g_connected_steps)
      { plain_event EVENT_SERVICE_REJECT 1 2004 with
        payload := { permit := zero_permit, dialed_num := 0, cause_code := 15 } }
      2004).1.current_state = STATE_FAIL_SAFE ∧
    (process_transition 0
      (run_transitions 0 (alloc_context zero_context 1) storm_in_5g_connected_steps)
      { plain_event EVENT_SERVICE_REJECT 1 2004 with
        payload := { permit := zero_permit, dialed_num := 0, cause_code := 15 } }
      2004).1.current_state ≠ STATE_PERMIT_REQUEST := by
  decide

/-- C14 (amended, stingray block): for every context in CONN_5G and every event whose
transition leaves the 8-bit transition counter at or below MAX_TRANSITIONS: a 5G_LOST or
SERVICE_REJECT event (any cause code) moves the context to PERMIT_REQ and emits
request-permit = 1, log-security = 1, allow-attach = 0 and an allowed-RAT bitmap with no
legacy bit set (allowed_rats & 0x7 = 0); every other event that does not take the
emergency override leaves the context in CONN_5G with allow-attach = 1. -/
theorem C14_stingray_block (k : Nat) (ctx : fsm_context_t) (input : fsm_input_t)
    (ts : timestamp_t) (hs : ctx.current_state = STATE_5G_CONNECTED)
    (hc : (ctx.transition_count + 1) % 256 ≤ MAX_TRANSITIONS) :
    ((input.event = EVENT_5G_LOST ∨ input.event = EVENT_SERVICE_REJECT) →
      (process_transition k ctx input ts).1.current_state = STATE_PERMIT_REQUEST ∧
      (process_transition k ctx input ts).2.new_state = STATE_PERMIT_REQUEST ∧
      (process_transition k ctx input ts).2.request_permit = true ∧
      (process_transition k ctx input ts).2.log_security = true ∧
      (process_transition k ctx input ts).2.allow_attach = false ∧
      (process_transition k ctx input ts).2.allowed_rats &&& 0x7 = 0) ∧
    (input.event ≠ EVENT_5G_LOST → input.event ≠ EVENT_SERVICE_REJECT →
      ¬ (input.event = EVENT_EMERGENCY_DIAL ∧
          is_emergency_number input.payload.dialed_num = true) →
      ¬ (input.event = EVENT_EMERGENCY_END ∧ ctx.in_emergency = true) →
      (process_transition k ctx input ts).1.current_state = STATE_5G_CONNECTED ∧
      (process_transition k ctx input ts).2.new_state = STATE_5G_CONNECTED ∧
      (process_transition k ctx input ts).2.allow_attach = true) := by
  constructor
  · intro he
    have h1 : ¬ (input.event = EVENT_EMERGENCY_DIAL ∧
        is_emergency_number input.payload.dialed_num = true) := by
      rcases he with h | h <;> simp [h]
    have h2 : ¬ (input.event = EVENT_EMERGENCY_END ∧ ctx.in_emergency = true) := by
      rcases he with h | h <;> simp [h]
    rw [process_transition_within_bound k ctx input ts h1 h2 hc]
    simp only [state_switch, hs]
    rcases he with h | h <;> simp [h, initial_output] <;> decide
  · intro hl hr h1 h2
    rw [process_transition_within_bound k ctx input ts h1 h2 hc]
    simp only [state_switch, hs]
    simp [hl, hr]

/-- Instance of C14 (amended) at the attack of `test_stingray_attack`: a context in
`CONN_5G` receives `SERVICE_REJECT` with cause 15. -/
theorem C14_stingray_block_witness :
    { zero_context with current_state := STATE_5G_CONNECTED }.current_state
      = STATE_5G_CONNECTED ∧
    ({ zero_context with current_state := STATE_5G_CONNECTED }.transition_count + 1) % 256
      ≤ MAX_TRANSITIONS ∧
    (process_transition 0 { zero_context with current_state := STATE_5G_CONNECTED }
      { plain_event EVENT_SERVICE_REJECT 0x87654321 2002 with
        payload := { permit := zero_permit, dialed_num := 0, cause_code := 15 } }
      2002).1.current_state = STATE_PERMIT_REQUEST ∧
    (process_transition 0 { zero_context with current_state := STATE_5G_CONNECTED }
      { plain_event EVENT_SERVICE_REJECT 0x87654321 2002 with
        payload := { permit := zero_permit, dialed_num := 0, cause_code := 15 } }
      2002).2.allowed_rats &&& 0x7 = 0 :=
  ⟨by decide, by decide,
    ((C14_stingray_block 0 { zero_context with current_state := STATE_5G_CONNECTED }
      { plain_event EVENT_SERVICE_REJECT 0x87654321 2002 with
        payload := { permit := zero_permit, dialed_num := 0, cause_code := 15 } }
      2002 (by decide) (by decide)).1 (Or.inr (by decide))).1,
    ((C14_stingray_block 0 { zero_context with current_state := STATE_5G_CONNECTED }
      { plain_event EVENT_SERVICE_REJECT 0x87654321 2002 with
        payload := { permit := zero_permit, dialed_num := 0, cause_code := 15 } }
      2002 (by decide) (by decide)).1 (Or.inr (by decide))).2.2.2.2.2⟩

/-! ## C15, C16: transition accounting -/

/-- C15 (event-storm bound): for every context and every event handled by the
state-indexed table (neither early return taken), if the per-context transition counter
after this transition exceeds MAX_TRANSITIONS (64), the context's state after the call
is FAIL_SAFE and the action has new-state = FAIL_SAFE and log-security = 1, whatever the
table chose. -/
theorem C15_event_storm_bound (k : Nat) (ctx : fsm_context_t) (input : fsm_input_t)
    (ts : timestamp_t)
    (h1 : ¬ (input.event = EVENT_EMERGENCY_DIAL ∧
              is_emergency_number input.payload.dialed_num = true))
    (h2 : ¬ (input.event = EVENT_EMERGENCY_END ∧ ctx.in_emergency = true))
    (hc : (process_transition k ctx input ts).1.transition_count > MAX_TRANSITIONS) :
    (process_transition k ctx input ts).1.current_state = STATE_FAIL_SAFE ∧
    (process_transition k ctx input ts).2.new_state = STATE_FAIL_SAFE ∧
    (process_transition k ctx input ts).2.log_security = true := by
  by_cases hb : (ctx.transition_count + 1) % 256 > MAX_TRANSITIONS
  · rw [process_transition_over_bound k ctx input ts h1 h2 hb]
    simp
  · rw [process_transition_within_bound k ctx input ts h1 h2 (Nat.not_lt.mp hb)] at hc
    exact absurd hc hb

/-- Instance of C15: a context in `CONN_5G` with counter 64 receives `5G_FOUND`, which the
table would ignore. -/
theorem C15_event_storm_bound_witness :
    (process_transition 0
      { zero_context with current_state := STATE_5G_CONNECTED, transition_count := 64 }
      (plain_event EVENT_5G_FOUND 1 2004) 2004).1.transition_count > MAX_TRANSITIONS ∧
    (process_transition 0
      { zero_context with current_state := STATE_5G_CONNECTED, transition_count := 64 }
      (plain_event EVENT_5G_FOUND 1 2004) 2004).1.current_state = STATE_FAIL_SAFE ∧
    (process_transition 0
      { zero_context with current_state := STATE_5G_CONNECTED, transition_count := 64 }
      (plain_event EVENT_5G_FOUND 1 2004) 2004).2.new_state = STATE_FAIL_SAFE ∧
    (process_transition 0
      { zero_context with current_state := STATE_5G_CONNECTED, transition_count := 64 }
      (plain_event EVENT_5G_FOUND 1 2004) 2004).2.log_security = true :=
  ⟨by decide,
    C15_event_storm_bound 0
      { zero_context with current_state := STATE_5G_CONNECTED, transition_count := 64 }
      (plain_event EVENT_5G_FOUND 1 2004) 2004 (by decide) (by decide) (by decide)⟩

set_option maxRecDepth 20000 in
theorem counter_wrap_run_66 :
    run_transitions 0 (alloc_context zero_context 1)
      ((plain_event EVENT_5G_FOUND 1 7000, 7000) ::
        List.replicate 65 (plain_event EVENT_5G_LOST 1 7001, 7001)) = failsafe_at 66 7001 := by
  decide

set_option maxRecDepth 20000 in
theorem counter_wrap_run_129 :
    run_transitions 0 (failsafe_at 66 7001)
      (List.replicate 63 (plain_event EVENT_5G_LOST 1 7001, 7001)) = failsafe_at 129 7001 := by
  decide

set_option maxRecDepth 20000 in
theorem counter_wrap_run_192 :
    run_transitions 0 (failsafe_at 129 7001)
      (List.replicate 63 (plain_event EVENT_5G_LOST 1 7001, 7001)) = failsafe_at 192 7001 := by
  decide

set_option maxRecDepth 20000 in
theorem counter_wrap_run_255 :
    run_transitions 0 (failsafe_at 192 7001)
      (List.replicate 63 (plain_event EVENT_5G_LOST 1 7001, 7001)) = failsafe_at 255 7001 := by
  decide

/-- The 255 events of `counter_wrap_steps` leave a fresh context in `FAIL_SAFE` with the
transition counter at 255. -/
theorem counter_wrap_run :
    run_transitions 0 (alloc_context zero_context 1) counter_wrap_steps
      = failsafe_at 255 7001 := by
  have hsplit : counter_wrap_steps =
      ((plain_event EVENT_5G_FOUND 1 7000, 7000) ::
        List.replicate 65 (plain_event EVENT_5G_LOST 1 7001, 7001)) ++
      (List.replicate 63 (plain_event EVENT_5G_LOST 1 7001, 7001) ++
        (List.replicate 63 (plain_event EVENT_5G_LOST 1 7001, 7001) ++
          List.replicate 63 (plain_event EVENT_5G_LOST 1 7001, 7001))) := by
    simp only [counter_wrap_steps, List.cons_append, ← List.replicate_add]
  rw [hsplit, run_transitions_append, counter_wrap_run_66, run_transitions_append,
    counter_wrap_run_129, run_transitions_append, counter_wrap_run_192, counter_wrap_run_255]

/-- C16 (evaluation at the failing inputs): the transition counter is not incremented on
every transition and is not monotonic. On a fresh context that has processed 5G_FOUND
(counter 1), a recognised EMERGENCY_DIAL moves the context to EMERGENCY and the following
EMERGENCY_END moves it to SCAN_5G, and the counter is still 1 after each: both early
returns leave before the increment. After the 255 table-handled events of
`counter_wrap_steps` the counter is 255, and one more event takes the 8-bit counter
to 0. -/
theorem C16_counter_skipped_and_wraps :
    (run_transitions 0 (alloc_context zero_context 1)
      [(plain_event EVENT_5G_FOUND 1 7000, 7000)]).transition_count = 1 ∧
    (run_transitions 0 (alloc_context zero_context 1)
      [ (plain_event EVENT_5G_FOUND 1 7000, 7000),
        (dial_event EMERGENCY_911 1 7001, 7001) ]).current_state = STATE_EMERGENCY_BYPASS ∧
    (run_transitions 0 (alloc_context zero_context 1)
      [ (plain_event EVENT_5G_FOUND 1 7000, 7000),
        (dial_event EMERGENCY_911 1 7001, 7001) ]).transition_count = 1 ∧
    (run_transitions 0 (alloc_context zero_context 1)
      [ (plain_event EVENT_5G_FOUND 1 7000, 7000),
        (dial_event EMERGENCY_911 1 7001, 7001),
        (plain_event EVENT_EMERGENCY_END 1 7002, 7002) ]).current_state
      = STATE_5G_SCANNING ∧
    (run_transitions 0 (alloc_context zero_context 1)
      [ (plain_event EVENT_5G_FOUND 1 7000, 7000),
        (dial_event EMERGENCY_911 1 7001, 7001),
        (plain_event EVENT_EMERGENCY_END 1 7002, 7002) ]).transition_count = 1 ∧
    (run_transitions 0 (alloc_context zero_context 1) counter_wrap_steps).transition_count
      = 255 ∧
    (process_transition 0 (run_transitions 0 (alloc_context zero_context 1) counter_wrap_steps)
      (plain_event EVENT_5G_LOST 1 7002) 7002).1.transition_count = 0 := by
  rw [counter_wrap_run]
  decide

/-! ## C17: staying in FAIL_SAFE -/

set_option maxRecDepth 20000 in
/-- C17 fails as stated: the 66-event run `storm_in_emergency_steps` (an event storm during
an emergency call) leaves a fresh context in FAIL_SAFE with the in-emergency flag still
set; EMERGENCY_END, an event other than EMERGENCY_DIAL, then takes the second early
return and moves the context to SCAN_5G with allowed-RATs = 0x8. -/
theorem C17_counterexample :
    (run_transitions 0 (alloc_context zero_context 1) storm_in_emergency_steps).current_state
      = STATE_FAIL_SAFE ∧
    (run_transitions 0 (alloc_context zero_context 1) storm_in_emergency_steps).in_emergency
      = true ∧
    (plain_event EVENT_EMERGENCY_END 1 6003).event ≠ EVENT_EMERGENCY_DIAL ∧
    (process_transition 0
      (run_transitions 0 (alloc_context zero_context 1) storm_in_emergency_steps)
      (plain_event EVENT_EMERGENCY_END 1 6003) 6003).1.current_state = STATE_5G_SCANNING ∧
    (process_transition 0
      (run_transitions 0 (alloc_context zero_context 1) storm_in_emergency_steps)
      (plain_event EVENT_EMERGENCY_END 1 6003) 6003).1.current_state ≠ STATE_FAIL_SAFE ∧
    (process_transition 0
      (run_transitions 0 (alloc_context zero_context 1) storm_in_emergency_steps)
      (plain_event EVENT_EMERGENCY_END 1 6003) 6003).2.allowed_rats = 0x8 := by
  decide

/-- C17 (amended): for every context in FAIL_SAFE and every event other than
EMERGENCY_DIAL, and other than EMERGENCY_END arriving while the in-emergency flag is set,
the context remains in FAIL_SAFE and the action has new-state = FAIL_SAFE,
allow-attach = 0 and allowed-RATs = 0x0. -/
theorem C17_failsafe_stays (k : Nat) (ctx : fsm_context_t) (input : fsm_input_t)
    (ts : timestamp_t) (hs : ctx.current_state = STATE_FAIL_SAFE)
    (he : input.event ≠ EVENT_EMERGENCY_DIAL)
    (h2 : ¬ (input.event = EVENT_EMERGENCY_END ∧ ctx.in_emergency = true)) :
    (process_transition k ctx input ts).1.current_state = STATE_FAIL_SAFE ∧
    (process_transition k ctx input ts).2.new_state = STATE_FAIL_SAFE ∧
    (process_transition k ctx input ts).2.allow_attach = false ∧
    (process_transition k ctx input ts).2.allowed_rats = 0x0 := by
  have h1 : ¬ (input.event = EVENT_EMERGENCY_DIAL ∧
      is_emergency_number input.payload.dialed_num = true) := fun h => he h.1
  by_cases hb : (ctx.transition_count + 1) % 256 > MAX_TRANSITIONS
  · rw [process_transition_over_bound k ctx input ts h1 h2 hb]
    simp only [state_switch, hs]
    simp [he, initial_output]
  · rw [process_transition_within_bound k ctx input ts h1 h2 (Nat.not_lt.mp hb)]
    simp only [state_switch, hs]
    simp [he, initial_output]

/-- Instance of C17 (amended): a context in `FAIL_SAFE` with the flag clear receives
`EMERGENCY_END`. -/
theorem C17_failsafe_stays_witness :
    (failsafe_at 65 6002).current_state = STATE_FAIL_SAFE ∧
    (plain_event EVENT_EMERGENCY_END 1 6003).event ≠ EVENT_EMERGENCY_DIAL ∧
    ¬ ((plain_event EVENT_EMERGENCY_END 1 6003).event = EVENT_EMERGENCY_END ∧
        (failsafe_at 65 6002).in_emergency = true) ∧
    (process_transition 0 (failsafe_at 65 6002)
      (plain_event EVENT_EMERGENCY_END 1 6003) 6003).1.current_state = STATE_FAIL_SAFE ∧
    (process_transition 0 (failsafe_at 65 6002)
      (plain_event EVENT_EMERGENCY_END 1 6003) 6003).2.new_state = STATE_FAIL_SAFE ∧
    (process_transition 0 (failsafe_at 65 6002)
      (plain_event EVENT_EMERGENCY_END 1 6003) 6003).2.allow_attach = false ∧
    (process_transition 0 (failsafe_at 65 6002)
      (plain_event EVENT_EMERGENCY_END 1 6003) 6003).2.allowed_rats = 0x0 :=
  ⟨by decide, by decide, by decide,
    C17_failsafe_stays 0 (failsafe_at 65 6002) (plain_event EVENT_EMERGENCY_END 1 6003) 6003
      (by decide) (by decide) (by decide)⟩

/-! ## C18, C19: the context pool -/

/-- A successful search over the first `n` indices returns an index below `n` at which
the test holds. -/
theorem find_range_some {n i : Nat} {p : Nat → Bool}
    (h : (List.range n).find? p = some i) : i < n ∧ p i = true :=
  ⟨List.mem_range.mp (List.mem_of_find?_eq_some h), List.find?_some h⟩

/-- A failed search over the first `n` indices means that the test fails at each of them. -/
theorem find_range_none {n : Nat} {p : Nat → Bool}
    (h : (List.range n).find? p = none) : ∀ i, i < n → p i = false := by
  intro i hi
  have := (List.find?_eq_none.mp h) i (List.mem_range.mpr hi)
  simpa using this

/-- No arm of the switch writes the subscriber-id. -/
theorem state_switch_ue_id (k : Nat) (ctx : fsm_context_t) (out : fsm_output_t)
    (input : fsm_input_t) (ts : timestamp_t) :
    (state_switch k ctx out input ts).1.ue_id = ctx.ue_id := by
  rcases state_cases ctx.current_state with h | h | h | h | h | h | h | h | h | h | h | h | h
  all_goals (simp only [state_switch, h]; simp; try (split_ifs <;> simp [h]))

theorem count_transition_ue_id (r : fsm_context_t × fsm_output_t) :
    (count_transition r).1.ue_id = r.1.ue_id := by
  unfold count_transition
  simp only []
  split_ifs <;> simp

/-- Function `process_transition` never changes the context's subscriber-id. -/
theorem process_transition_ue_id (k : Nat) (ctx : fsm_context_t) (input : fsm_input_t)
    (ts : timestamp_t) : (process_transition k ctx input ts).1.ue_id = ctx.ue_id := by
  by_cases h1 : input.event = EVENT_EMERGENCY_DIAL ∧
      is_emergency_number input.payload.dialed_num = true
  · rw [process_transition_dial k ctx input ts h1.1 h1.2]
  · by_cases h2 : input.event = EVENT_EMERGENCY_END ∧ ctx.in_emergency = true
    · rw [process_transition_end k ctx input ts h2.1 h2.2]
    · rw [process_transition_table k ctx input ts h1 h2]
      simp only [count_transition_ue_id, state_switch_ue_id]

/-- C18 (out of context slots): when all 8 context slots are active and an event arrives
for a subscriber-id that no slot holds, the engine consumes the event and emits exactly
one action, with new-state = FAIL_SAFE, allow-attach = 0, request-permit = 0,
log-security = 1 (it echoes the subscriber-id, the event and stream-last), and the context
pool (valid bitmap and every slot) is left unchanged. -/
theorem C18_out_of_context_slots (g : dgate_globals_t) (input : fsm_input_t)
    (rest : List fsm_input_t) (action_out : List fsm_output_t)
    (hfull : ∀ i, i < MAX_CONCURRENT_UES → g.context_valid_bitmap i = true)
    (hnone : ∀ i, i < MAX_CONCURRENT_UES → (g.fsm_contexts i).ue_id ≠ input.ue_id) :
    ∃ act : fsm_output_t,
      dgate_fsm_engine g (input :: rest) action_out = (g, rest, action_out ++ [act]) ∧
      act.new_state = STATE_FAIL_SAFE ∧ act.allow_attach = false ∧
      act.request_permit = false ∧ act.log_security = true ∧
      act.ue_id = input.ue_id ∧ act.trigger_event = input.event ∧ act.last = input.last := by
  have hsearch : (List.range MAX_CONCURRENT_UES).find?
      (fun i => g.context_valid_bitmap i && decide ((g.fsm_contexts i).ue_id = input.ue_id))
      = none := by
    rw [List.find?_eq_none]
    intro i hi
    have := hnone i (List.mem_range.mp hi)
    simp [this]
  have halloc : (List.range MAX_CONCURRENT_UES).find? (fun i => !g.context_valid_bitmap i)
      = none := by
    rw [List.find?_eq_none]
    intro i hi
    simp [hfull i (List.mem_range.mp hi)]
  refine ⟨no_context_output input, ?_, rfl, rfl, rfl, rfl, rfl, rfl, rfl⟩
  simp only [dgate_fsm_engine, get_context_index, hsearch, halloc]

/-- Instance of C18: the pool `full_globals` (subscribers 1 to 8 active) receives an event
for subscriber 100. -/
theorem C18_out_of_context_slots_witness :
    (∀ i, i < MAX_CONCURRENT_UES → full_globals.context_valid_bitmap i = true) ∧
    (∀ i, i < MAX_CONCURRENT_UES →
      (full_globals.fsm_contexts i).ue_id ≠ (plain_event EVENT_5G_FOUND 100 9000).ue_id) ∧
    ∃ act : fsm_output_t,
      dgate_fsm_engine full_globals [plain_event EVENT_5G_FOUND 100 9000] []
        = (full_globals, [], [] ++ [act]) ∧
      act.new_state = STATE_FAIL_SAFE ∧ act.allow_attach = false ∧
      act.request_permit = false ∧ act.log_security = true ∧
      act.ue_id = (plain_event EVENT_5G_FOUND 100 9000).ue_id ∧
      act.trigger_event = (plain_event EVENT_5G_FOUND 100 9000).event ∧
      act.last = (plain_event EVENT_5G_FOUND 100 9000).last :=
  ⟨by decide, by decide,
    C18_out_of_context_slots full_globals (plain_event EVENT_5G_FOUND 100 9000) [] []
      (by decide) (by decide)⟩

/-- The engine on a single event whose subscriber is found by the search loop. -/
theorem engine_hit (g : dgate_globals_t) (input : fsm_input_t) (i : Nat)
    (h : (List.range MAX_CONCURRENT_UES).find?
      (fun i => g.context_valid_bitmap i && decide ((g.fsm_contexts i).ue_id = input.ue_id))
      = some i) :
    dgate_fsm_engine g [input] [] =
      ({ g with fsm_contexts := (Function.update g.fsm_contexts i
          (process_transition g.amf_public_key (g.fsm_contexts i) input input.timestamp).1) },
       [],
       [(process_transition g.amf_public_key (g.fsm_contexts i) input input.timestamp).2]) := by
  simp only [dgate_fsm_engine, get_context_index, h, List.nil_append]

/-- The engine on a single event whose subscriber is not found while slot `i` is the first
free one. -/
theorem engine_alloc (g : dgate_globals_t) (input : fsm_input_t) (i : Nat)
    (hs : (List.range MAX_CONCURRENT_UES).find?
      (fun i => g.context_valid_bitmap i && decide ((g.fsm_contexts i).ue_id = input.ue_id))
      = none)
    (ha : (List.range MAX_CONCURRENT_UES).find? (fun i => !g.context_valid_bitmap i)
      = some i) :
    dgate_fsm_engine g [input] [] =
      ({ g with
          context_valid_bitmap := Function.update g.context_valid_bitmap i true
          fsm_contexts := (Function.update g.fsm_contexts i
            (process_transition g.amf_public_key
              (alloc_context (g.fsm_contexts i) input.ue_id) input input.timestamp).1) },
       [],
       [(process_transition g.amf_public_key
          (alloc_context (g.fsm_contexts i) input.ue_id) input input.timestamp).2]) := by
  simp only [dgate_fsm_engine, get_context_index, hs, ha, List.nil_append,
    Function.update_same, Function.update_idem]

/-- The engine on a single event when neither loop finds a slot. -/
theorem engine_full (g : dgate_globals_t) (input : fsm_input_t)
    (hs : (List.range MAX_CONCURRENT_UES).find?
      (fun i => g.context_valid_bitmap i && decide ((g.fsm_contexts i).ue_id = input.ue_id))
      = none)
    (ha : (List.range MAX_CONCURRENT_UES).find? (fun i => !g.context_valid_bitmap i)
      = none) :
    dgate_fsm_engine g [input] [] = (g, [], [no_context_output input]) := by
  simp only [dgate_fsm_engine, get_context_index, hs, ha, List.nil_append]

/-- With unique active subscriber-ids, the search loop returns the active slot that holds
the subscriber. -/
theorem search_finds_slot (g : dgate_globals_t) (ue_id : ue_id_t) (i : Nat)
    (hu : unique_active g) (hi : i < MAX_CONCURRENT_UES)
    (hv : g.context_valid_bitmap i = true) (hid : (g.fsm_contexts i).ue_id = ue_id) :
    (List.range MAX_CONCURRENT_UES).find?
      (fun i => g.context_valid_bitmap i && decide ((g.fsm_contexts i).ue_id = ue_id))
      = some i := by
  cases hf : (List.range MAX_CONCURRENT_UES).find?
      (fun i => g.context_valid_bitmap i && decide ((g.fsm_contexts i).ue_id = ue_id)) with
  | none =>
    have := find_range_none hf i hi
    simp [hv, hid] at this
  | some j =>
    have hj := find_range_some hf
    simp only [Bool.and_eq_true, decide_eq_true_eq] at hj
    rw [hu j i hj.1 hi hj.2.1 hv (hj.2.2.trans hid.symm)]

/-- Each call on the pool keeps the active subscriber-ids unique. -/
theorem unique_active_step (g : dgate_globals_t) (call : pool_call) (hu : unique_active g) :
    unique_active (apply_call g call) := by
  cases call with
  | release ue_id =>
    simp only [apply_call, dgate_release_context]
    cases hf : (List.range MAX_CONCURRENT_UES).find?
        (fun i => g.context_valid_bitmap i && decide ((g.fsm_contexts i).ue_id = ue_id)) with
    | none => exact hu
    | some i0 =>
      intro i j hi hj hvi hvj hid
      simp only [Function.update_apply] at hvi hvj
      split_ifs at hvi hvj
      exact hu i j hi hj hvi hvj hid
  | event input =>
    simp only [apply_call]
    cases hs : (List.range MAX_CONCURRENT_UES).find?
        (fun i => g.context_valid_bitmap i && decide ((g.fsm_contexts i).ue_id = input.ue_id)) with
    | some i0 =>
      rw [engine_hit g input i0 hs]
      have hkeep : ∀ x, (Function.update g.fsm_contexts i0
          (process_transition g.amf_public_key (g.fsm_contexts i0) input
            input.timestamp).1 x).ue_id = (g.fsm_contexts x).ue_id := by
        intro x
        by_cases hx : x = i0
        · subst hx
          rw [Function.update_same, process_transition_ue_id]
        · rw [Function.update_noteq hx]
      intro i j hi hj hvi hvj hid
      have hid' : (g.fsm_contexts i).ue_id = (g.fsm_contexts j).ue_id := by
        rw [← hkeep i, ← hkeep j]
        exact hid
      exact hu i j hi hj hvi hvj hid'
    | none =>
      have hsn := find_range_none hs
      cases ha : (List.range MAX_CONCURRENT_UES).find?
          (fun i => !g.context_valid_bitmap i) with
      | none =>
        rw [engine_full g input hs ha]
        exact hu
      | some i0 =>
        rw [engine_alloc g input i0 hs ha]
        have hother : ∀ x, x < MAX_CONCURRENT_UES → x ≠ i0 →
            g.context_valid_bitmap x = true → (g.fsm_contexts x).ue_id ≠ input.ue_id := by
          intro x hx _ hvx hidx
          have := hsn x hx
          simp [hvx, hidx] at this
        intro i j hi hj hvi hvj hid
        simp only [Function.update_apply] at hvi hvj hid
        by_cases hii : i = i0 <;> by_cases hjj : j = i0
        · rw [hii, hjj]
        · simp only [hii, hjj, if_true, if_false, process_transition_ue_id, alloc_context]
            at hvj hid
          exact absurd hid.symm (hother j hj hjj hvj)
        · simp only [hii, hjj, if_true, if_false, process_transition_ue_id, alloc_context]
            at hvi hid
          exact absurd hid (hother i hi hii hvi)
        · simp only [hii, hjj, if_false] at hvi hvj hid
          exact hu i j hi hj hvi hvj hid

/-- After `dgate_init` and any sequence of calls the active subscriber-ids are unique. -/
theorem unique_active_run (g : dgate_globals_t) (calls : List pool_call)
    (hu : unique_active g) : unique_active (run_calls g calls) := by
  induction calls generalizing g with
  | nil => exact hu
  | cons c cs ih => exact ih (apply_call g c) (unique_active_step g c hu)

theorem unique_active_init (g0 : dgate_globals_t) : unique_active (dgate_init g0) := by
  intro i j _ _ hvi
  simp [dgate_init] at hvi

/-- C19 (context pool invariant): let `g` be the pool reached from `dgate_init` by any
sequence of engine events and `dgate_release_context` calls. Then (a) no two active slots
of `g` hold the same subscriber-id; (b) an event for a subscriber with an active slot is
processed by `process_transition` on that slot's retained context, and neither the bitmap
nor any other slot changes; (c) a slot that an event turns from inactive to active is
allocated in state INIT for the event's subscriber, and only when no active slot held that
subscriber; (d) when no active slot holds the subscriber and some slot is free, the event
does allocate one; (e) a slot becomes inactive only through `dgate_release_context` called
with the subscriber-id it holds. -/
theorem C19_context_pool_invariant (g0 : dgate_globals_t) (calls : List pool_call)
    (g : dgate_globals_t) (hg : g = run_calls (dgate_init g0) calls) :
    (∀ i j, i < MAX_CONCURRENT_UES → j < MAX_CONCURRENT_UES →
      g.context_valid_bitmap i = true → g.context_valid_bitmap j = true →
      (g.fsm_contexts i).ue_id = (g.fsm_contexts j).ue_id → i = j) ∧
    (∀ (input : fsm_input_t) (i : Nat), i < MAX_CONCURRENT_UES →
      g.context_valid_bitmap i = true → (g.fsm_contexts i).ue_id = input.ue_id →
      dgate_fsm_engine g [input] [] =
        ({ g with fsm_contexts := (Function.update g.fsm_contexts i
            (process_transition g.amf_public_key (g.fsm_contexts i) input
              input.timestamp).1) },
         [],
         [(process_transition g.amf_public_key (g.fsm_contexts i) input
            input.timestamp).2])) ∧
    (∀ (input : fsm_input_t) (i : Nat), i < MAX_CONCURRENT_UES →
      g.context_valid_bitmap i = false →
      (apply_call g (pool_call.event input)).context_valid_bitmap i = true →
      (∀ j, j < MAX_CONCURRENT_UES → g.context_valid_bitmap j = true →
        (g.fsm_contexts j).ue_id ≠ input.ue_id) ∧
      (alloc_context (g.fsm_contexts i) input.ue_id).current_state = STATE_INIT ∧
      (apply_call g (pool_call.event input)).fsm_contexts i =
        (process_transition g.amf_public_key (alloc_context (g.fsm_contexts i) input.ue_id)
          input input.timestamp).1) ∧
    (∀ (input : fsm_input_t),
      (∀ j, j < MAX_CONCURRENT_UES → g.context_valid_bitmap j = true →
        (g.fsm_contexts j).ue_id ≠ input.ue_id) →
      (∃ j, j < MAX_CONCURRENT_UES ∧ g.context_valid_bitmap j = false) →
      ∃ i, i < MAX_CONCURRENT_UES ∧ g.context_valid_bitmap i = false ∧
        (apply_call g (pool_call.event input)).context_valid_bitmap i = true ∧
        ((apply_call g (pool_call.event input)).fsm_contexts i).ue_id = input.ue_id) ∧
    (∀ (call : pool_call) (i : Nat), i < MAX_CONCURRENT_UES →
      g.context_valid_bitmap i = true →
      (apply_call g call).context_valid_bitmap i = false →
      call = pool_call.release (g.fsm_contexts i).ue_id) := by
  have hu : unique_active g := by
    rw [hg]
    exact unique_active_run _ calls (unique_active_init g0)
  refine ⟨hu, ?_, ?_, ?_, ?_⟩
  · intro input i hi hv hid
    exact engine_hit g input i (search_finds_slot g input.ue_id i hu hi hv hid)
  · intro input i hi hv hv'
    simp only [apply_call] at hv' ⊢
    cases hs : (List.range MAX_CONCURRENT_UES).find?
        (fun i => g.context_valid_bitmap i && decide ((g.fsm_contexts i).ue_id = input.ue_id)) with
    | some i0 =>
      rw [engine_hit g input i0 hs] at hv'
      rw [hv] at hv'
      exact absurd hv' (by decide)
    | none =>
      have hsn := find_range_none hs
      cases ha : (List.range MAX_CONCURRENT_UES).find?
          (fun i => !g.context_valid_bitmap i) with
      | none =>
        rw [engine_full g input hs ha] at hv'
        rw [hv] at hv'
        exact absurd hv' (by decide)
      | some i0 =>
        rw [engine_alloc g input i0 hs ha] at hv' ⊢
        simp only [Function.update_apply] at hv' ⊢
        by_cases hii : i = i0
        · subst hii
          refine ⟨?_, rfl, by simp⟩
          intro j hj hvj hidj
          have := hsn j hj
          simp [hvj, hidj] at this
        · rw [if_neg hii, hv] at hv'
          exact absurd hv' (by decide)
  · intro input hnone hfree
    obtain ⟨j, hj, hvj⟩ := hfree
    have hs : (List.range MAX_CONCURRENT_UES).find?
        (fun i => g.context_valid_bitmap i && decide ((g.fsm_contexts i).ue_id = input.ue_id))
        = none := by
      rw [List.find?_eq_none]
      intro x hx
      cases hvx : g.context_valid_bitmap x
      · simp
      · simp [hnone x (List.mem_range.mp hx) hvx]
    cases ha : (List.range MAX_CONCURRENT_UES).find?
        (fun i => !g.context_valid_bitmap i) with
    | none =>
      have := find_range_none ha j hj
      simp [hvj] at this
    | some i0 =>
      have hi0 := find_range_some ha
      refine ⟨i0, hi0.1, by simpa using hi0.2, ?_, ?_⟩
      · simp only [apply_call]
        rw [engine_alloc g input i0 hs ha]
        simp
      · simp only [apply_call]
        rw [engine_alloc g input i0 hs ha]
        simp [process_transition_ue_id, alloc_context]
  · intro call i hi hv hv'
    cases call with
    | event input =>
      exfalso
      simp only [apply_call] at hv'
      cases hs : (List.range MAX_CONCURRENT_UES).find?
          (fun i => g.context_valid_bitmap i && decide ((g.fsm_contexts i).ue_id = input.ue_id)) with
      | some i0 =>
        rw [engine_hit g input i0 hs, hv] at hv'
        exact absurd hv' (by decide)
      | none =>
        cases ha : (List.range MAX_CONCURRENT_UES).find?
            (fun i => !g.context_valid_bitmap i) with
        | none =>
          rw [engine_full g input hs ha, hv] at hv'
          exact absurd hv' (by decide)
        | some i0 =>
          rw [engine_alloc g input i0 hs ha] at hv'
          simp only [Function.update_apply] at hv'
          split_ifs at hv'
          rw [hv] at hv'
          exact absurd hv' (by decide)
    | release ue_id =>
      simp only [apply_call, dgate_release_context] at hv'
      cases hf : (List.range MAX_CONCURRENT_UES).find?
          (fun i => g.context_valid_bitmap i && decide ((g.fsm_contexts i).ue_id = ue_id)) with
      | none =>
        rw [hf] at hv'
        rw [hv] at hv'
        exact absurd hv' (by decide)
      | some i0 =>
        rw [hf] at hv'
        simp only [Function.update_apply] at hv'
        have hi0 := find_range_some hf
        simp only [Bool.and_eq_true, decide_eq_true_eq] at hi0
        by_cases hii : i = i0
        · rw [hii, hi0.2.2]
        · rw [if_neg hii, hv] at hv'
          exact absurd hv' (by decide)

/-- Instance of C19: from the zero-initialised storage, `dgate_init`, events for
subscribers 5 and 6, a release of 5 and an event for subscriber 7. -/
theorem C19_context_pool_invariant_witness :
    ((run_calls (dgate_init zero_globals)
        [ pool_call.event (plain_event EVENT_5G_FOUND 5 1),
          pool_call.event (plain_event EVENT_5G_FOUND 6 2),
          pool_call.release 5,
          pool_call.event (plain_event EVENT_5G_FOUND 7 3) ]).fsm_contexts 0).ue_id = 7 ∧
    ∀ i j, i < MAX_CONCURRENT_UES → j < MAX_CONCURRENT_UES →
      (run_calls (dgate_init zero_globals)
        [ pool_call.event (plain_event EVENT_5G_FOUND 5 1),
          pool_call.event (plain_event EVENT_5G_FOUND 6 2),
          pool_call.release 5,
          pool_call.event (plain_event EVENT_5G_FOUND 7 3) ]).context_valid_bitmap i = true →
      (run_calls (dgate_init zero_globals)
        [ pool_call.event (plain_event EVENT_5G_FOUND 5 1),
          pool_call.event (plain_event EVENT_5G_FOUND 6 2),
          pool_call.release 5,
          pool_call.event (plain_event EVENT_5G_FOUND 7 3) ]).context_valid_bitmap j = true →
      ((run_calls (dgate_init zero_globals)
        [ pool_call.event (plain_event EVENT_5G_FOUND 5 1),
          pool_call.event (plain_event EVENT_5G_FOUND 6 2),
          pool_call.release 5,
          pool_call.event (plain_event EVENT_5G_FOUND 7 3) ]).fsm_contexts i).ue_id =
      ((run_calls (dgate_init zero_globals)
        [ pool_call.event (plain_event EVENT_5G_FOUND 5 1),
          pool_call.event (plain_event EVENT_5G_FOUND 6 2),
          pool_call.release 5,
          pool_call.event (plain_event EVENT_5G_FOUND 7 3) ]).fsm_contexts j).ue_id → i = j :=
  ⟨by decide,
    (C19_context_pool_invariant zero_globals
      [ pool_call.event (plain_event EVENT_5G_FOUND 5 1),
        pool_call.event (plain_event EVENT_5G_FOUND 6 2),
        pool_call.release 5,
        pool_call.event (plain_event EVENT_5G_FOUND 7 3) ] _ rfl).1⟩

/-! ## C32: recognised emergency numbers -/

/-- C32 fails as stated: the value 0x39313141, the bytes "911" followed by the byte 0x41
(the letter A, not an ASCII digit), is recognised, and so is "112" followed by a zero
byte; neither is one of the two literals. -/
theorem C32_counterexample :
    is_emergency_number 0x39313141 = true ∧
    0x39313141 / 256 = 0x393131 ∧ 0x39313141 % 256 = 0x41 ∧
    ¬ (0x30 ≤ 0x41 ∧ 0x41 ≤ 0x39) ∧
    0x39313141 ≠ EMERGENCY_911 ∧ 0x39313141 ≠ EMERGENCY_112 ∧
    is_emergency_number 0x31313200 = true ∧
    0x31313200 % 256 = 0 ∧ ¬ (0x30 ≤ 0 ∧ 0 ≤ 0x39) := by
  decide

/-- C32 (amended): `is_emergency_number(n)` holds exactly when `n` is the three-byte
ASCII literal "911" (0x393131) or "112" (0x313132), or one of those literals followed by
one trailing byte of any value, that is `n >> 8` is one of the two literals. -/
theorem C32_emergency_numbers (n : Nat) :
    is_emergency_number n = true ↔
      n = 0x393131 ∨ n = 0x313132 ∨
      (∃ b, b < 256 ∧ n = 0x393131 * 256 + b) ∨ (∃ b, b < 256 ∧ n = 0x313132 * 256 + b) := by
  unfold is_emergency_number
  simp only [Bool.or_eq_true, beq_iff_eq, Nat.shiftRight_eq_div_pow, EMERGENCY_911,
    EMERGENCY_112]
  constructor
  · rintro (((h | h) | h) | h)
    · exact Or.inl h
    · exact Or.inr (Or.inl h)
    · exact Or.inr (Or.inr (Or.inl ⟨n % 256, by omega, by omega⟩))
    · exact Or.inr (Or.inr (Or.inr ⟨n % 256, by omega, by omega⟩))
  · rintro (h | h | ⟨b, hb, h⟩ | ⟨b, hb, h⟩)
    · exact Or.inl (Or.inl (Or.inl h))
    · exact Or.inl (Or.inl (Or.inr h))
    · exact Or.inl (Or.inr (by omega))
    · exact Or.inr (by omega)

/-! ## C36: what the action echoes -/

/-- No arm of the switch writes the subscriber-id, previous-state, trigger-event or
stream-last field of the action, nor the previous-state of the context. -/
theorem state_switch_frame (k : Nat) (ctx : fsm_context_t) (out : fsm_output_t)
    (input : fsm_input_t) (ts : timestamp_t) :
    (state_switch k ctx out input ts).2.ue_id = out.ue_id ∧
    (state_switch k ctx out input ts).2.prev_state = out.prev_state ∧
    (state_switch k ctx out input ts).2.trigger_event = out.trigger_event ∧
    (state_switch k ctx out input ts).2.last = out.last ∧
    (state_switch k ctx out input ts).1.previous_state = ctx.previous_state := by
  rcases state_cases ctx.current_state with h | h | h | h | h | h | h | h | h | h | h | h | h
  all_goals (simp only [state_switch, h]; simp; try (split_ifs <;> simp [h]))

theorem count_transition_frame (r : fsm_context_t × fsm_output_t) :
    (count_transition r).2.ue_id = r.2.ue_id ∧
    (count_transition r).2.prev_state = r.2.prev_state ∧
    (count_transition r).2.trigger_event = r.2.trigger_event ∧
    (count_transition r).2.last = r.2.last ∧
    (count_transition r).1.previous_state = r.1.previous_state := by
  unfold count_transition
  simp only []
  split_ifs <;> simp

/-- C36 (action/context consistency): for every context, event and timestamp, the action
returned by `process_transition` carries the context's subscriber-id, the event as
trigger-event, the input's stream-last flag, previous-state equal to the context's state
before the call (which is also stored in the context's `previous_state`), and new-state
equal to the context's current state after the call; the context's subscriber-id is
unchanged. -/
theorem C36_action_context_consistency (k : Nat) (ctx : fsm_context_t) (input : fsm_input_t)
    (ts : timestamp_t) :
    (process_transition k ctx input ts).2.ue_id = ctx.ue_id ∧
    (process_transition k ctx input ts).2.trigger_event = input.event ∧
    (process_transition k ctx input ts).2.last = input.last ∧
    (process_transition k ctx input ts).2.prev_state = ctx.current_state ∧
    (process_transition k ctx input ts).1.previous_state = ctx.current_state ∧
    (process_transition k ctx input ts).2.new_state
      = (process_transition k ctx input ts).1.current_state ∧
    (process_transition k ctx input ts).1.ue_id = ctx.ue_id := by
  have key : (process_transition k ctx input ts).2.ue_id = ctx.ue_id ∧
      (process_transition k ctx input ts).2.prev_state = ctx.current_state ∧
      (process_transition k ctx input ts).2.trigger_event = input.event ∧
      (process_transition k ctx input ts).2.last = input.last ∧
      (process_transition k ctx input ts).1.previous_state = ctx.current_state := by
    by_cases h1 : input.event = EVENT_EMERGENCY_DIAL ∧
        is_emergency_number input.payload.dialed_num = true
    · rw [process_transition_dial k ctx input ts h1.1 h1.2]
      exact ⟨rfl, rfl, rfl, rfl, rfl⟩
    · by_cases h2 : input.event = EVENT_EMERGENCY_END ∧ ctx.in_emergency = true
      · rw [process_transition_end k ctx input ts h2.1 h2.2]
        exact ⟨rfl, rfl, rfl, rfl, rfl⟩
      · rw [process_transition_table k ctx input ts h1 h2]
        have hc := count_transition_frame (state_switch k
          { ctx with previous_state := ctx.current_state } (initial_output ctx input) input ts)
        have hs := state_switch_frame k { ctx with previous_state := ctx.current_state }
          (initial_output ctx input) input ts
        exact ⟨hc.1.trans hs.1, hc.2.1.trans hs.2.1, hc.2.2.1.trans hs.2.2.1,
          hc.2.2.2.1.trans hs.2.2.2.1, hc.2.2.2.2.trans hs.2.2.2.2⟩
  exact ⟨key.1, key.2.2.1, key.2.2.2.1, key.2.1, key.2.2.2.2,
    (process_transition_declared k ctx input ts).2, process_transition_ue_id k ctx input ts⟩

/-! ## C40: a legacy state carries the validated permit -/

/-- The switch keeps the link between the legacy states and the validated permit: if the
context it leaves is in a legacy state, then `has_permit` is set, the cached permit's
signature verifies and `permit_expiry` is the cached permit's `valid_until`, provided
this held for the context it was given. -/
theorem state_switch_legacy_permit (k : Nat) (ctx : fsm_context_t) (out : fsm_output_t)
    (input : fsm_input_t) (ts : timestamp_t)
    (hinv : in_legacy ctx.current_state →
      ctx.has_permit = true ∧ verify_permit_signature ctx.cached_permit k = true ∧
      ctx.permit_expiry = ctx.cached_permit.valid_until)
    (h : in_legacy (state_switch k ctx out input ts).1.current_state) :
    (state_switch k ctx out input ts).1.has_permit = true ∧
    verify_permit_signature (state_switch k ctx out input ts).1.cached_permit k = true ∧
    (state_switch k ctx out input ts).1.permit_expiry
      = (state_switch k ctx out input ts).1.cached_permit.valid_until := by
  unfold in_legacy at *
  rcases state_cases ctx.current_state with h0 | h0 | h0 | h0 | h0 | h0 | h0 | h0 | h0 | h0 |
    h0 | h0 | h0
  all_goals (simp only [state_switch, h0] at h ⊢; simp at h ⊢; try (split_ifs at h ⊢ <;> simp_all))

/-- The transition accounting changes the counter only, or forces `FAIL_SAFE`. -/
theorem count_transition_legacy_permit (k : Nat) (r : fsm_context_t × fsm_output_t)
    (hinv : in_legacy r.1.current_state →
      r.1.has_permit = true ∧ verify_permit_signature r.1.cached_permit k = true ∧
      r.1.permit_expiry = r.1.cached_permit.valid_until)
    (h : in_legacy (count_transition r).1.current_state) :
    (count_transition r).1.has_permit = true ∧
    verify_permit_signature (count_transition r).1.cached_permit k = true ∧
    (count_transition r).1.permit_expiry = (count_transition r).1.cached_permit.valid_until := by
  unfold count_transition at h ⊢
  simp only [] at h ⊢
  split_ifs at h ⊢
  · simp [in_legacy] at h
  · exact hinv h

/-- One call of `process_transition` keeps the link between the legacy states and the
validated permit. -/
theorem process_transition_legacy_permit (k : Nat) (ctx : fsm_context_t)
    (input : fsm_input_t) (ts : timestamp_t)
    (hinv : in_legacy ctx.current_state →
      ctx.has_permit = true ∧ verify_permit_signature ctx.cached_permit k = true ∧
      ctx.permit_expiry = ctx.cached_permit.valid_until)
    (h : in_legacy (process_transition k ctx input ts).1.current_state) :
    (process_transition k ctx input ts).1.has_permit = true ∧
    verify_permit_signature (process_transition k ctx input ts).1.cached_permit k = true ∧
    (process_transition k ctx input ts).1.permit_expiry
      = (process_transition k ctx input ts).1.cached_permit.valid_until := by
  by_cases h1 : input.event = EVENT_EMERGENCY_DIAL ∧
      is_emergency_number input.payload.dialed_num = true
  · rw [process_transition_dial k ctx input ts h1.1 h1.2] at h
    simp [in_legacy] at h
  · by_cases h2 : input.event = EVENT_EMERGENCY_END ∧ ctx.in_emergency = true
    · rw [process_transition_end k ctx input ts h2.1 h2.2] at h
      simp [in_legacy] at h
    · rw [process_transition_table k ctx input ts h1 h2] at h ⊢
      exact count_transition_legacy_permit k _
        (state_switch_legacy_permit k { ctx with previous_state := ctx.current_state }
          (initial_output ctx input) input ts hinv) h

/-- Along every run that starts from a context where the link holds, it holds at the end. -/
theorem run_legacy_permit (k : Nat) (ctx0 : fsm_context_t)
    (steps : List (fsm_input_t × timestamp_t))
    (hinv : in_legacy ctx0.current_state →
      ctx0.has_permit = true ∧ verify_permit_signature ctx0.cached_permit k = true ∧
      ctx0.permit_expiry = ctx0.cached_permit.valid_until)
    (h : in_legacy (run_transitions k ctx0 steps).current_state) :
    (run_transitions k ctx0 steps).has_permit = true ∧
    verify_permit_signature (run_transitions k ctx0 steps).cached_permit k = true ∧
    (run_transitions k ctx0 steps).permit_expiry
      = (run_transitions k ctx0 steps).cached_permit.valid_until := by
  induction steps generalizing ctx0 with
  | nil => exact hinv h
  | cons a l ih =>
    simp only [run_transitions] at h ⊢
    exact ih _ (process_transition_legacy_permit k ctx0 a.1 a.2 hinv) h

/-- C40 (legacy states carry a verified permit): for every event sequence applied to a
freshly allocated context, if the context is in LEGACY_OK, ATTACH_LEGACY or CONN_LEGACY
after the sequence, then its `has_permit` flag is set, the signature of its cached permit
verifies (it is non-zero under the source's stub) and its `permit_expiry` equals the
cached permit's `valid_until`. -/
theorem C40_legacy_carries_permit (k : Nat) (slot : fsm_context_t) (ue_id : ue_id_t)
    (steps : List (fsm_input_t × timestamp_t))
    (h : in_legacy (run_transitions k (alloc_context slot ue_id) steps).current_state) :
    (run_transitions k (alloc_context slot ue_id) steps).has_permit = true ∧
    verify_permit_signature
      (run_transitions k (alloc_context slot ue_id) steps).cached_permit k = true ∧
    (run_transitions k (alloc_context slot ue_id) steps).cached_permit.signature ≠ 0 ∧
    (run_transitions k (alloc_context slot ue_id) steps).permit_expiry
      = (run_transitions k (alloc_context slot ue_id) steps).cached_permit.valid_until := by
  have key := run_legacy_permit k (alloc_context slot ue_id) steps
    (fun h0 => by simp [in_legacy, alloc_context] at h0) h
  refine ⟨key.1, key.2.1, ?_, key.2.2⟩
  have := key.2.1
  simpa [verify_permit_signature] using this

/-- Witness for C40: the six-event run `authorised_downgrade_steps` on a fresh context
ends in CONN_LEGACY. -/
theorem C40_legacy_carries_permit_witness :
    in_legacy
      (run_transitions 0 (alloc_context zero_context 1) authorised_downgrade_steps).current_state ∧
    ((run_transitions 0 (alloc_context zero_context 1) authorised_downgrade_steps).has_permit
        = true ∧
      verify_permit_signature
        (run_transitions 0 (alloc_context zero_context 1)
          authorised_downgrade_steps).cached_permit 0 = true ∧
      (run_transitions 0 (alloc_context zero_context 1)
        authorised_downgrade_steps).cached_permit.signature ≠ 0 ∧
      (run_transitions 0 (alloc_context zero_context 1) authorised_downgrade_steps).permit_expiry
        = (run_transitions 0 (alloc_context zero_context 1)
            authorised_downgrade_steps).cached_permit.valid_until) :=
  ⟨Or.inr (Or.inr (by decide)),
   C40_legacy_carries_permit 0 zero_context 1 authorised_downgrade_steps
     (Or.inr (Or.inr (by decide)))⟩

/-! ## C33: attach retries -/

set_option maxRecDepth 20000 in
/-- C33 fails as stated: the 64-event run `storm_then_attach_steps` leaves a fresh context
in ATTACH_5G with no attach failure recorded; TIMEOUT then increments attach-failures to
1, which does not exceed 3, yet the context moves to FAILSAFE with log-security = 1 and
not to SCAN_5G: the transition counter reaches 65. -/
theorem C33_counterexample :
    (run_transitions 0 (alloc_context zero_context 1)
      storm_then_attach_steps).current_state = STATE_5G_ATTACHING ∧
    (run_transitions 0 (alloc_context zero_context 1)
      storm_then_attach_steps).attach_failures = 0 ∧
    (process_transition 0
      (run_transitions 0 (alloc_context zero_context 1) storm_then_attach_steps)
      (plain_event EVENT_TIMEOUT 1 8002) 8002).1.attach_failures = 1 ∧
    (process_transition 0
      (run_transitions 0 (alloc_context zero_context 1) storm_then_attach_steps)
      (plain_event EVENT_TIMEOUT 1 8002) 8002).1.current_state = STATE_FAIL_SAFE ∧
    (process_transition 0
      (run_transitions 0 (alloc_context zero_context 1) storm_then_attach_steps)
      (plain_event EVENT_TIMEOUT 1 8002) 8002).2.log_security = true ∧
    (process_transition 0
      (run_transitions 0 (alloc_context zero_context 1) storm_then_attach_steps)
      (plain_event EVENT_TIMEOUT 1 8002) 8002).1.current_state ≠ STATE_5G_SCANNING := by
  decide

/-- C33 (amended, attach retries): for every context in ATTACH_5G and every TIMEOUT or
ERROR event whose transition leaves the 8-bit transition counter at or below
MAX_TRANSITIONS, attach-failures is incremented (8-bit counter, modulo 256) and the
context moves to FAILSAFE if and only if the incremented count exceeds 3, in which case
the action has new-state = FAILSAFE and log-security = 1; otherwise the context moves to
SCAN_5G and the action has new-state = SCAN_5G and log-security = 0. On every freshly
allocated context fed 5G_FOUND and then rounds of 5G_FOUND, TIMEOUT, the first three
failures return to SCAN_5G and the fourth enters FAILSAFE. -/
theorem C33_attach_retries (k : Nat) (ctx : fsm_context_t) (input : fsm_input_t)
    (ts : timestamp_t) (hs : ctx.current_state = STATE_5G_ATTACHING)
    (he : input.event = EVENT_TIMEOUT ∨ input.event = EVENT_ERROR)
    (hc : (ctx.transition_count + 1) % 256 ≤ MAX_TRANSITIONS) :
    (process_transition k ctx input ts).1.attach_failures = (ctx.attach_failures + 1) % 256 ∧
    ((process_transition k ctx input ts).1.current_state = STATE_FAIL_SAFE ↔
      (ctx.attach_failures + 1) % 256 > 3) ∧
    ((ctx.attach_failures + 1) % 256 > 3 →
      (process_transition k ctx input ts).2.new_state = STATE_FAIL_SAFE ∧
      (process_transition k ctx input ts).2.log_security = true) ∧
    (¬ (ctx.attach_failures + 1) % 256 > 3 →
      (process_transition k ctx input ts).1.current_state = STATE_5G_SCANNING ∧
      (process_transition k ctx input ts).2.new_state = STATE_5G_SCANNING ∧
      (process_transition k ctx input ts).2.log_security = false) ∧
    (∀ (slot : fsm_context_t) (ue_id : ue_id_t),
      (run_transitions k (alloc_context slot ue_id) (attach_retry_steps.take 3)).current_state
        = STATE_5G_SCANNING ∧
      (run_transitions k (alloc_context slot ue_id) (attach_retry_steps.take 5)).current_state
        = STATE_5G_SCANNING ∧
      (run_transitions k (alloc_context slot ue_id) (attach_retry_steps.take 7)).current_state
        = STATE_5G_SCANNING ∧
      (run_transitions k (alloc_context slot ue_id) (attach_retry_steps.take 8)).current_state
        = STATE_5G_ATTACHING ∧
      (run_transitions k (alloc_context slot ue_id) attach_retry_steps).current_state
        = STATE_FAIL_SAFE ∧
      (run_transitions k (alloc_context slot ue_id) attach_retry_steps).attach_failures = 4) := by
  have h1 : ¬ (input.event = EVENT_EMERGENCY_DIAL ∧
      is_emergency_number input.payload.dialed_num = true) := by
    rcases he with he | he <;> simp [he]
  have h2 : ¬ (input.event = EVENT_EMERGENCY_END ∧ ctx.in_emergency = true) := by
    rcases he with he | he <;> simp [he]
  have hne1 : input.event ≠ EVENT_5G_ATTACHED := by rcases he with he | he <;> simp [he]
  have hne2 : input.event ≠ EVENT_SERVICE_REJECT := by rcases he with he | he <;> simp [he]
  rw [process_transition_within_bound k ctx input ts h1 h2 hc]
  refine ⟨?_, ?_, ?_, ?_, ?_⟩
  · simp only [state_switch, hs]
    simp [hne1, hne2, he]
    split_ifs <;> rfl
  · simp only [state_switch, hs]
    simp [hne1, hne2, he]
    split_ifs with h3 <;> simp [h3]
  · intro h3
    simp only [state_switch, hs]
    simp [hne1, hne2, he, h3]
  · intro h3
    simp only [state_switch, hs]
    simp [hne1, hne2, he, h3, initial_output]
  · intro slot ue_id
    simp [attach_retry_steps, run_transitions, process_transition, state_switch,
      count_transition, initial_output, alloc_context, plain_event, MAX_TRANSITIONS,
      is_emergency_number]

/-- Witness for C33: a context in ATTACH_5G with three recorded failures receives
TIMEOUT. -/
theorem C33_attach_retries_witness :
    ({ zero_context with current_state := STATE_5G_ATTACHING, attach_failures := 3 }.current_state
        = STATE_5G_ATTACHING ∧
      ((plain_event EVENT_TIMEOUT 1 200).event = EVENT_TIMEOUT ∨
        (plain_event EVENT_TIMEOUT 1 200).event = EVENT_ERROR) ∧
      ({ zero_context with current_state := STATE_5G_ATTACHING,
                           attach_failures := 3 }.transition_count + 1) % 256
        ≤ MAX_TRANSITIONS) ∧
    (process_transition 0
      { zero_context with current_state := STATE_5G_ATTACHING, attach_failures := 3 }
      (plain_event EVENT_TIMEOUT 1 200) 200).1.attach_failures = (3 + 1) % 256 :=
  ⟨by decide,
   (C33_attach_retries 0
      { zero_context with current_state := STATE_5G_ATTACHING, attach_failures := 3 }
      (plain_event EVENT_TIMEOUT 1 200) 200 (by decide) (Or.inl (by decide)) (by decide)).1⟩

/-! ## C37: the action that reports FAIL_SAFE -/

set_option maxRecDepth 20000 in
/-- C37 (evaluation of the code): the 64-event run `storm_in_legacy_connected_steps` leaves
a fresh context in CONN_LEGACY with a valid permit and the transition counter at 64.
The next LEGACY_ATTACHED event, inside the permit's window, takes the stay arm, which
sets allow-attach = 1 and allowed-RATs to the permit's bitmap 0x6; the transition
accounting then forces FAIL_SAFE and rewrites only new-state and log-security. The
action reports new-state = FAILSAFE with allow-attach = 1 and the legacy RATs 0x6.
Likewise after `storm_in_5g_connected_steps` the next 5G_FOUND event yields new-state =
FAILSAFE with allow-attach = 1. -/
theorem C37_failsafe_action_allows_attach :
    (process_transition 0
      (run_transitions 0 (alloc_context zero_context 1) storm_in_legacy_connected_steps)
      (plain_event EVENT_LEGACY_ATTACHED 1 3007) 3007).2.new_state = STATE_FAIL_SAFE ∧
    (process_transition 0
      (run_transitions 0 (alloc_context zero_context 1) storm_in_legacy_connected_steps)
      (plain_event EVENT_LEGACY_ATTACHED 1 3007) 3007).2.allow_attach = true ∧
    (process_transition 0
      (run_transitions 0 (alloc_context zero_context 1) storm_in_legacy_connected_steps)
      (plain_event EVENT_LEGACY_ATTACHED 1 3007) 3007).2.allowed_rats = 0x6 ∧
    0x6 &&& 0x7 ≠ 0 ∧
    (process_transition 0
      (run_transitions 0 (alloc_context zero_context 1) storm_in_legacy_connected_steps)
      (plain_event EVENT_LEGACY_ATTACHED 1 3007) 3007).1.current_state = STATE_FAIL_SAFE ∧
    (process_transition 0
      (run_transitions 0 (alloc_context zero_context 1) storm_in_5g_connected_steps)
      (plain_event EVENT_5G_FOUND 1 2004) 2004).2.new_state = STATE_FAIL_SAFE ∧
    (process_transition 0
      (run_transitions 0 (alloc_context zero_context 1) storm_in_5g_connected_steps)
      (plain_event EVENT_5G_FOUND 1 2004) 2004).2.allow_attach = true := by
  decide

/-! ## C34: the reachable states -/

/-- Every run leaves a declared state. -/
theorem run_transitions_declared (k : Nat) (ctx : fsm_context_t)
    (steps : List (fsm_input_t × timestamp_t)) (h : is_declared_state ctx.current_state) :
    is_declared_state (run_transitions k ctx steps).current_state := by
  induction steps generalizing ctx with
  | nil => exact h
  | cons a l ih =>
    simp only [run_transitions]
    exact ih _ (process_transition_declared k ctx a.1 a.2).1

/-- C34 (exactly 12 reachable states): for every freshly allocated context, each of the 12
declared states is the state of the context after some finite event sequence (the empty
one for INIT), and after every event sequence the context is in one of the 12 declared
states. -/
theorem C34_reachable_states (k : Nat) (slot : fsm_context_t) (ue_id : ue_id_t) :
    (∀ s : dgate_state_t, is_declared_state s →
      ∃ steps : List (fsm_input_t × timestamp_t),
        (run_transitions k (alloc_context slot ue_id) steps).current_state = s) ∧
    (∀ steps : List (fsm_input_t × timestamp_t),
      is_declared_state (run_transitions k (alloc_context slot ue_id) steps).current_state) := by
  constructor
  · intro s hs
    unfold is_declared_state at hs
    have key : ∀ n : Nat, n ≤ 11 → n = 0 ∨ n = 1 ∨ n = 2 ∨ n = 3 ∨ n = 4 ∨ n = 5 ∨ n = 6 ∨
        n = 7 ∨ n = 8 ∨ n = 9 ∨ n = 10 ∨ n = 11 := by
      intro n hn; omega
    rcases key s hs with h | h | h | h | h | h | h | h | h | h | h | h <;> subst h
    · exact ⟨[], rfl⟩
    · exact ⟨authorised_downgrade_steps.take 1, by
        simp [authorised_downgrade_steps, run_transitions, process_transition, state_switch,
          count_transition, initial_output, alloc_context, plain_event, permit_event,
          MAX_TRANSITIONS, is_emergency_number]⟩
    · exact ⟨attach_retry_steps.take 2, by
        simp [attach_retry_steps, run_transitions, process_transition, state_switch,
          count_transition, initial_output, alloc_context, plain_event,
          MAX_TRANSITIONS, is_emergency_number]⟩
    · exact ⟨attach_retry_steps.take 2 ++ [(plain_event EVENT_5G_ATTACHED 1 102, 102)], by
        simp [attach_retry_steps, run_transitions, process_transition, state_switch,
          count_transition, initial_output, alloc_context, plain_event,
          MAX_TRANSITIONS, is_emergency_number]⟩
    · exact ⟨authorised_downgrade_steps.take 2, by
        simp [authorised_downgrade_steps, run_transitions, process_transition, state_switch,
          count_transition, initial_output, alloc_context, plain_event, permit_event,
          MAX_TRANSITIONS, is_emergency_number]⟩
    · exact ⟨authorised_downgrade_steps.take 3, by
        simp [authorised_downgrade_steps, run_transitions, process_transition, state_switch,
          count_transition, initial_output, alloc_context, plain_event, permit_event,
          MAX_TRANSITIONS, is_emergency_number]⟩
    · exact ⟨authorised_downgrade_steps.take 4, by
        simp [authorised_downgrade_steps, run_transitions, process_transition, state_switch,
          count_transition, initial_output, alloc_context, plain_event, permit_event,
          MAX_TRANSITIONS, is_emergency_number, verify_permit_signature, is_permit_valid,
          create_valid_permit]⟩
    · exact ⟨authorised_downgrade_steps.take 5, by
        simp [authorised_downgrade_steps, run_transitions, process_transition, state_switch,
          count_transition, initial_output, alloc_context, plain_event, permit_event,
          MAX_TRANSITIONS, is_emergency_number, verify_permit_signature, is_permit_valid,
          create_valid_permit]⟩
    · exact ⟨authorised_downgrade_steps, by
        simp [authorised_downgrade_steps, run_transitions, process_transition, state_switch,
          count_transition, initial_output, alloc_context, plain_event, permit_event,
          MAX_TRANSITIONS, is_emergency_number, verify_permit_signature, is_permit_valid,
          create_valid_permit]⟩
    · exact ⟨[(dial_event EMERGENCY_911 1 100, 100)], by
        simp [run_transitions, process_transition, dial_event, is_emergency_number]⟩
    · exact ⟨authorised_downgrade_steps.take 2 ++ [(plain_event EVENT_TIMEOUT 1 3002, 3002)], by
        simp [authorised_downgrade_steps, run_transitions, process_transition, state_switch,
          count_transition, initial_output, alloc_context, plain_event, permit_event,
          MAX_TRANSITIONS, is_emergency_number]⟩
    · exact ⟨attach_retry_steps, by
        simp [attach_retry_steps, run_transitions, process_transition, state_switch,
          count_transition, initial_output, alloc_context, plain_event,
          MAX_TRANSITIONS, is_emergency_number]⟩
  · intro steps
    apply run_transitions_declared
    simp [alloc_context, is_declared_state]

/-! ## C38: subscriber isolation -/

/-- Two tests that agree on `0..n-1` give the same search result. -/
theorem find_range_congr {n : Nat} {p q : Nat → Bool} (h : ∀ i, i < n → p i = q i) :
    (List.range n).find? p = (List.range n).find? q := by
  induction n with
  | zero => rfl
  | succ n ih =>
    rw [List.range_succ, List.find?_append, List.find?_append,
      ih (fun i hi => h i (Nat.lt_succ_of_lt hi))]
    simp [List.find?, h n (Nat.lt_succ_self n)]

/-- The engine on one event, by the outcome of the two loops of `get_context_index`. -/
theorem engine_cases (g : dgate_globals_t) (input : fsm_input_t)
    (action_out : List fsm_output_t) :
    (∃ i, i < MAX_CONCURRENT_UES ∧ g.context_valid_bitmap i = true ∧
        (g.fsm_contexts i).ue_id = input.ue_id ∧
        (List.range MAX_CONCURRENT_UES).find?
          (fun i => g.context_valid_bitmap i && decide ((g.fsm_contexts i).ue_id = input.ue_id))
          = some i ∧
        dgate_fsm_engine g [input] action_out =
          ({ g with fsm_contexts := (Function.update g.fsm_contexts i
              (process_transition g.amf_public_key (g.fsm_contexts i) input input.timestamp).1) },
           [],
           action_out ++
             [(process_transition g.amf_public_key (g.fsm_contexts i) input
                input.timestamp).2])) ∨
    (∃ i, i < MAX_CONCURRENT_UES ∧ g.context_valid_bitmap i = false ∧
        (List.range MAX_CONCURRENT_UES).find?
          (fun i => g.context_valid_bitmap i && decide ((g.fsm_contexts i).ue_id = input.ue_id))
          = none ∧
        (List.range MAX_CONCURRENT_UES).find? (fun i => !g.context_valid_bitmap i) = some i ∧
        dgate_fsm_engine g [input] action_out =
          ({ g with
              context_valid_bitmap := Function.update g.context_valid_bitmap i true
              fsm_contexts := (Function.update g.fsm_contexts i
                (process_transition g.amf_public_key
                  (alloc_context (g.fsm_contexts i) input.ue_id) input input.timestamp).1) },
           [],
           action_out ++
             [(process_transition g.amf_public_key
                (alloc_context (g.fsm_contexts i) input.ue_id) input input.timestamp).2])) ∨
    ((List.range MAX_CONCURRENT_UES).find?
          (fun i => g.context_valid_bitmap i && decide ((g.fsm_contexts i).ue_id = input.ue_id))
          = none ∧
      (List.range MAX_CONCURRENT_UES).find? (fun i => !g.context_valid_bitmap i) = none ∧
      dgate_fsm_engine g [input] action_out = (g, [], action_out ++ [no_context_output input])) := by
  cases hs : (List.range MAX_CONCURRENT_UES).find?
      (fun i => g.context_valid_bitmap i && decide ((g.fsm_contexts i).ue_id = input.ue_id)) with
  | some i =>
    left
    have hi := find_range_some hs
    simp only [Bool.and_eq_true, decide_eq_true_eq] at hi
    exact ⟨i, hi.1, hi.2.1, hi.2.2, rfl, by simp only [dgate_fsm_engine, get_context_index, hs]⟩
  | none =>
    right
    cases ha : (List.range MAX_CONCURRENT_UES).find? (fun i => !g.context_valid_bitmap i) with
    | some i =>
      left
      have hi := find_range_some ha
      simp only [Bool.not_eq_true'] at hi
      exact ⟨i, hi.1, hi.2, rfl, rfl, by
        simp only [dgate_fsm_engine, get_context_index, hs, ha, Function.update_same,
          Function.update_idem]⟩
    | none =>
      right
      exact ⟨rfl, rfl, by simp only [dgate_fsm_engine, get_context_index, hs, ha]⟩

/-- C38 (subscriber isolation): for every pool state and every event for subscriber A
(`input.ue_id`), one step of `dgate_fsm_engine` leaves the whole context and the active
flag of every active slot that holds another subscriber unchanged; and the emitted
action does not depend on the contexts of other subscribers: a second pool with the same
key and the same active flags that differs from the first only in the content of slots
that are active for another subscriber (and stay so) makes the engine emit the same
output stream. -/
theorem C38_subscriber_isolation (g : dgate_globals_t) (input : fsm_input_t)
    (action_out : List fsm_output_t) :
    (∀ j, g.context_valid_bitmap j = true → (g.fsm_contexts j).ue_id ≠ input.ue_id →
      (dgate_fsm_engine g [input] action_out).1.fsm_contexts j = g.fsm_contexts j ∧
      (dgate_fsm_engine g [input] action_out).1.context_valid_bitmap j = true) ∧
    (∀ g' : dgate_globals_t, g'.amf_public_key = g.amf_public_key →
      (∀ j, j < MAX_CONCURRENT_UES → g'.context_valid_bitmap j = g.context_valid_bitmap j) →
      (∀ j, j < MAX_CONCURRENT_UES → g.context_valid_bitmap j = true →
        (g.fsm_contexts j).ue_id ≠ input.ue_id → (g'.fsm_contexts j).ue_id ≠ input.ue_id) →
      (∀ j, j < MAX_CONCURRENT_UES →
        ¬ (g.context_valid_bitmap j = true ∧ (g.fsm_contexts j).ue_id ≠ input.ue_id) →
        g'.fsm_contexts j = g.fsm_contexts j) →
      (dgate_fsm_engine g' [input] action_out).2.2
        = (dgate_fsm_engine g [input] action_out).2.2) := by
  constructor
  · intro j hv hid
    rcases engine_cases g input action_out with
      ⟨i, _, _, hii, _, heq⟩ | ⟨i, _, hiv, _, _, heq⟩ | ⟨_, _, heq⟩
    · have hne : j ≠ i := by
        intro e; subst e; exact hid hii
      rw [heq]
      exact ⟨Function.update_noteq hne _ _, hv⟩
    · have hne : j ≠ i := by
        intro e; subst e; rw [hiv] at hv; exact absurd hv (by decide)
      rw [heq]
      simp only [Function.update_noteq hne]
      exact ⟨trivial, hv⟩
    · rw [heq]
      exact ⟨rfl, hv⟩
  · intro g' hk hbit hother hsame
    have hsearch : (List.range MAX_CONCURRENT_UES).find?
        (fun i => g'.context_valid_bitmap i &&
          decide ((g'.fsm_contexts i).ue_id = input.ue_id)) =
        (List.range MAX_CONCURRENT_UES).find?
        (fun i => g.context_valid_bitmap i &&
          decide ((g.fsm_contexts i).ue_id = input.ue_id)) := by
      apply find_range_congr
      intro i hi
      simp only [hbit i hi]
      cases hv : g.context_valid_bitmap i with
      | false => simp
      | true =>
        by_cases hid : (g.fsm_contexts i).ue_id = input.ue_id
        · rw [hsame i hi (fun h => h.2 hid)]
        · have := hother i hi hv hid
          simp [hid, this]
    have halloc : (List.range MAX_CONCURRENT_UES).find? (fun i => !g'.context_valid_bitmap i) =
        (List.range MAX_CONCURRENT_UES).find? (fun i => !g.context_valid_bitmap i) := by
      apply find_range_congr
      intro i hi
      simp only [hbit i hi]
    rcases engine_cases g input action_out with
      ⟨i, hi, _, hii, hs, heq⟩ | ⟨i, hi, hiv, hs, ha, heq⟩ | ⟨hs, ha, heq⟩
    · rcases engine_cases g' input action_out with
        ⟨i', _, _, _, hs', heq'⟩ | ⟨i', _, _, hs', _, _⟩ | ⟨hs', _, _⟩
      · rw [hsearch, hs] at hs'
        have e : i' = i := (Option.some.inj hs').symm
        subst e
        rw [heq, heq', hk, hsame i' hi (fun h => h.2 hii)]
      · rw [hsearch, hs] at hs'; exact absurd hs' (by simp)
      · rw [hsearch, hs] at hs'; exact absurd hs' (by simp)
    · rcases engine_cases g' input action_out with
        ⟨i', _, _, _, hs', _⟩ | ⟨i', _, _, _, ha', heq'⟩ | ⟨_, ha', _⟩
      · rw [hsearch, hs] at hs'; exact absurd hs' (by simp)
      · rw [halloc, ha] at ha'
        have e : i' = i := (Option.some.inj ha').symm
        subst e
        rw [heq, heq', hk, hsame i' hi (fun h => by rw [hiv] at h; exact absurd h.1 (by decide))]
      · rw [halloc, ha] at ha'; exact absurd ha' (by simp)
    · rcases engine_cases g' input action_out with
        ⟨i', _, _, _, hs', _⟩ | ⟨i', _, _, _, ha', _⟩ | ⟨_, _, heq'⟩
      · rw [hsearch, hs] at hs'; exact absurd hs' (by simp)
      · rw [halloc, ha] at ha'; exact absurd ha' (by simp)
      · rw [heq, heq']

end DGate

namespace Arc3

/-! ## C20: the Gate 1 decision procedure -/

/-- The expiry test spelled out: the age is `now - timestamp` modulo `2^32`. -/
theorem is_expired_iff (entry_time current_time : timestamp_t) :
    is_expired entry_time current_time = true ↔
      (current_time + 2 ^ 32 - entry_time % 2 ^ 32) % 2 ^ 32 > VALIDITY_CYCLES := by
  simp [is_expired]

/-- C20 (Gate 1 decision procedure): for every registry state, every pending registry
update and every request (id, channel vector, now) at the head of the request stream, one
call of the engine consumes the request and emits exactly one output record, which echoes
id and the stream-last flag. With `lookup` taken on the registry as the request sees it
(the registry after the call, equal to the registry before when no update is pending):
the decision is Unknown iff `lookup(id)` finds no entry, and then the score is 0; it is
Expired iff an entry is found and its age `(now - timestamp) mod 2^32` exceeds
VALIDITY_CYCLES, and then the score is 0; otherwise it is Accept or Reject with score
equal to `compute_correlation(vector, entry.handle)`. -/
theorem C20_gate1_decision (plab_registry : Nat → plab_entry_t) (input : csi_input_t)
    (csi_rest : List csi_input_t) (admit_out : List admit_output_t)
    (reg_in : List registry_update_t) :
    ∃ out : admit_output_t,
      (arc3_csi_correlator
        { plab_registry := plab_registry, csi_in := input :: csi_rest,
          admit_out := admit_out, reg_in := reg_in }).admit_out = admit_out ++ [out] ∧
      (arc3_csi_correlator
        { plab_registry := plab_registry, csi_in := input :: csi_rest,
          admit_out := admit_out, reg_in := reg_in }).csi_in = csi_rest ∧
      (reg_in = [] →
        (arc3_csi_correlator
          { plab_registry := plab_registry, csi_in := input :: csi_rest,
            admit_out := admit_out, reg_in := reg_in }).plab_registry = plab_registry) ∧
      out.ue_id = input.ue_id ∧ out.last = input.last ∧
      (out.decision = admit_decision_t.ADMIT_UNKNOWN ↔
        registry_lookup
          (arc3_csi_correlator
            { plab_registry := plab_registry, csi_in := input :: csi_rest,
              admit_out := admit_out, reg_in := reg_in }).plab_registry input.ue_id = none) ∧
      (out.decision = admit_decision_t.ADMIT_UNKNOWN → out.score = 0) ∧
      (out.decision = admit_decision_t.ADMIT_EXPIRED ↔
        ∃ entry, registry_lookup
          (arc3_csi_correlator
            { plab_registry := plab_registry, csi_in := input :: csi_rest,
              admit_out := admit_out, reg_in := reg_in }).plab_registry input.ue_id
            = some entry ∧
          (input.current_time + 2 ^ 32 - entry.timestamp % 2 ^ 32) % 2 ^ 32
            > VALIDITY_CYCLES) ∧
      (out.decision = admit_decision_t.ADMIT_EXPIRED → out.score = 0) ∧
      (∀ entry, registry_lookup
          (arc3_csi_correlator
            { plab_registry := plab_registry, csi_in := input :: csi_rest,
              admit_out := admit_out, reg_in := reg_in }).plab_registry input.ue_id
            = some entry →
        ¬ ((input.current_time + 2 ^ 32 - entry.timestamp % 2 ^ 32) % 2 ^ 32
            > VALIDITY_CYCLES) →
        (out.decision = admit_decision_t.ADMIT_ACCEPT ∨
          out.decision = admit_decision_t.ADMIT_REJECT) ∧
        out.score = compute_correlation input.csi entry.handle) := by
  -- the registry the request sees
  obtain ⟨reg1, hreg, hnil⟩ : ∃ reg1 : Nat → plab_entry_t,
      arc3_csi_correlator
        { plab_registry := plab_registry, csi_in := input :: csi_rest,
          admit_out := admit_out, reg_in := reg_in } =
        { plab_registry := reg1, csi_in := csi_rest,
          admit_out := admit_out ++ [admit_decision (registry_lookup reg1 input.ue_id) input],
          reg_in := reg_in.tail } ∧ (reg_in = [] → reg1 = plab_registry) := by
    cases reg_in with
    | nil => exact ⟨plab_registry, rfl, fun _ => rfl⟩
    | cons u us =>
      exact ⟨(registry_update plab_registry u).1, rfl, fun h => absurd h (by simp)⟩
  rw [hreg]
  refine ⟨admit_decision (registry_lookup reg1 input.ue_id) input, rfl, rfl, hnil, ?_⟩
  simp only []
  cases hl : registry_lookup reg1 input.ue_id with
  | none => simp [admit_decision]
  | some entry =>
    cases hx : is_expired entry.timestamp input.current_time with
    | true =>
      have hx' := (is_expired_iff entry.timestamp input.current_time).mp hx
      norm_num at hx'
      simp [admit_decision, hx, hx']
    | false =>
      have hx' : ¬ ((input.current_time + 2 ^ 32 - entry.timestamp % 2 ^ 32) % 2 ^ 32
          > VALIDITY_CYCLES) := by
        intro h
        rw [(is_expired_iff entry.timestamp input.current_time).mpr h] at hx
        exact absurd hx (by decide)
      norm_num at hx'
      by_cases hr : (Int.tdiv (compute_correlation input.csi entry.handle * 256) 65536
          % 65536).toNat > CORRELATION_THRESHOLD
      · simp [admit_decision, hx, hr, hx']
      · simp [admit_decision, hx, hr, hx']

/-! ## C26: the dequantiser -/

/-- The quantiser over the raw integers. -/
theorem quantize_eq (x : Int) :
    quantize x = if x < -128 then 0 else if x < 0 then 1 else if x < 128 then 2 else 3 :=
  rfl

/-- The dequantiser on the four codes. -/
theorem dequantize_eq (q : Nat) :
    dequantize q = if q = 0 then -192 else if q = 1 then -64 else if q = 2 then 64 else 192 :=
  rfl

theorem quantize_lt_four (x : Int) : quantize x < 4 := by
  rw [quantize_eq]; split_ifs <;> decide

theorem dequantize_quantize_mono (x y : Int) (hxy : x ≤ y) :
    dequantize (quantize x) ≤ dequantize (quantize y) := by
  rw [quantize_eq x, quantize_eq y]
  split_ifs <;> simp [dequantize_eq] <;> omega

theorem dequantize_quantize_sign (x : Int) (hx : x ≠ 0) :
    (0 < x ↔ 0 < dequantize (quantize x)) ∧ (x < 0 ↔ dequantize (quantize x) < 0) := by
  rw [quantize_eq x]
  split_ifs <;> simp [dequantize_eq] <;> omega

/-- C26 (dequantisation preserves sign and ordering): the dequantiser of
`compute_correlation` sends the codes 0, 1, 2, 3 to -0.75, -0.25, +0.25, +0.75 (raw -192,
-64, 64, 192) and never yields 0, whatever the code; for every pair of samples `x ≤ y` the
dequantised code of `x` is at most the dequantised code of `y`; and for every non-zero
sample the dequantised code has the sign of the sample. -/
theorem C26_dequantize_sign_order :
    (dequantize 0 = -192 ∧ dequantize 1 = -64 ∧ dequantize 2 = 64 ∧ dequantize 3 = 192) ∧
    (∀ q : Nat, dequantize q ≠ 0) ∧
    (∀ x y : csi_sample_t, x ≤ y →
      dequantize (quantize x) ≤ dequantize (quantize y)) ∧
    (∀ x : csi_sample_t, x ≠ 0 →
      (0 < x ↔ 0 < dequantize (quantize x)) ∧ (x < 0 ↔ dequantize (quantize x) < 0)) := by
  refine ⟨⟨rfl, rfl, rfl, rfl⟩, ?_, dequantize_quantize_mono, dequantize_quantize_sign⟩
  intro q
  unfold dequantize
  split_ifs <;> decide

/-! ## C25: layout of the fingerprint -/

theorem two_pow_mul_four (n : Nat) : 2 ^ (n * 4) = 16 ^ n := by
  rw [pow_mul']; norm_num

/-- Writing the field at offset `4 n` of a handle that has no bit at or above that offset
appends a base-16 digit. -/
theorem set_range4_fresh (handle n packed : Nat) (h : handle < 16 ^ n) :
    set_range4 handle (n * 4) packed = handle + (packed % 16) * 16 ^ n := by
  unfold set_range4
  have h1 : handle % 2 ^ (n * 4) = handle := by
    rw [two_pow_mul_four]; exact Nat.mod_eq_of_lt h
  have h2 : handle >>> (n * 4 + 4) = 0 := by
    rw [Nat.shiftRight_eq_div_pow]
    apply Nat.div_eq_of_lt
    rw [pow_add, two_pow_mul_four]
    calc handle < 16 ^ n := h
      _ ≤ 16 ^ n * 2 ^ 4 := Nat.le_mul_of_pos_right _ (by norm_num)
  rw [h1, h2, two_pow_mul_four]; simp

/-- The code of antenna `i`: the real code in the two high bits, the imaginary code in the
two low bits. -/
theorem quantize_loop_body_eq (csi : csi_vector_t) (handle : csi_handle_t) (i : Nat) :
    quantize_loop_body csi handle i =
      set_range4 handle (i * 4)
        (quantize (csi.antenna i).real * 4 + quantize (csi.antenna i).imag) := rfl

theorem packed_lt (csi : csi_vector_t) (i : Nat) :
    quantize (csi.antenna i).real * 4 + quantize (csi.antenna i).imag < 16 := by
  have h1 := quantize_lt_four (csi.antenna i).real
  have h2 := quantize_lt_four (csi.antenna i).imag
  omega

/-- After `n` passes of the `QUANTIZE_LOOP` the handle is below `16^n` and its base-16
digit `i`, for `i < n`, is the code of antenna `i`. -/
theorem quantize_loop_inv (csi : csi_vector_t) (n : Nat) :
    (List.range n).foldl (quantize_loop_body csi) 0 < 16 ^ n ∧
    ∀ i, i < n →
      ((List.range n).foldl (quantize_loop_body csi) 0 >>> (i * 4)) % 16 =
        quantize (csi.antenna i).real * 4 + quantize (csi.antenna i).imag := by
  induction n with
  | zero => simp
  | succ n ih =>
    obtain ⟨hlt, hdig⟩ := ih
    have hp := packed_lt csi n
    rw [List.range_succ, List.foldl_append, List.foldl_cons, List.foldl_nil,
      quantize_loop_body_eq, set_range4_fresh _ _ _ hlt, Nat.mod_eq_of_lt hp]
    refine ⟨?_, ?_⟩
    · have hle : (quantize (csi.antenna n).real * 4 + quantize (csi.antenna n).imag) * 16 ^ n
          ≤ 15 * 16 ^ n := Nat.mul_le_mul_right _ (by omega)
      calc _ < 16 ^ n + 15 * 16 ^ n := Nat.add_lt_add_of_lt_of_le hlt hle
        _ = 16 ^ (n + 1) := by ring
    · intro i hi
      rw [Nat.shiftRight_eq_div_pow, two_pow_mul_four]
      rcases Nat.lt_succ_iff_lt_or_eq.mp hi with h | h
      · have hd := hdig i h
        rw [Nat.shiftRight_eq_div_pow, two_pow_mul_four] at hd
        obtain ⟨k, rfl⟩ : ∃ k, n = i + (k + 1) := ⟨n - i - 1, by omega⟩
        have e : (16 : Nat) ^ (i + (k + 1)) = 16 ^ i * (16 * 16 ^ k) := by
          rw [pow_add, pow_succ]; ring
        rw [e, ← hd]
        have e2 : (quantize (csi.antenna (i + (k + 1))).real * 4 +
            quantize (csi.antenna (i + (k + 1))).imag) * (16 ^ i * (16 * 16 ^ k)) =
            16 ^ i * ((quantize (csi.antenna (i + (k + 1))).real * 4 +
            quantize (csi.antenna (i + (k + 1))).imag) * 16 ^ k * 16) := by ring
        rw [e2, Nat.add_mul_div_left _ _ (by positivity : 0 < 16 ^ i),
          Nat.add_mul_mod_self_right]
      · subst h
        rw [Nat.add_mul_div_right _ _ (by positivity : 0 < 16 ^ i),
          Nat.div_eq_of_lt hlt, zero_add, Nat.mod_eq_of_lt hp]

/-- The handle depends on the vector only through the codes. -/
theorem quantize_loop_congr (u v : csi_vector_t) (n : Nat)
    (h : ∀ i, i < n →
      quantize (u.antenna i).real * 4 + quantize (u.antenna i).imag =
        quantize (v.antenna i).real * 4 + quantize (v.antenna i).imag) :
    (List.range n).foldl (quantize_loop_body u) 0 =
      (List.range n).foldl (quantize_loop_body v) 0 := by
  induction n with
  | zero => rfl
  | succ n ih =>
    rw [List.range_succ, List.foldl_append, List.foldl_append, List.foldl_cons,
      List.foldl_cons, List.foldl_nil, List.foldl_nil, quantize_loop_body_eq,
      quantize_loop_body_eq, ih (fun i hi => h i (Nat.lt_succ_of_lt hi)),
      h n (Nat.lt_succ_self n)]

/-- Digit `i` of the handle of a vector. -/
theorem compute_csi_handle_digit (csi : csi_vector_t) (i : Nat) (hi : i < N_ANTENNAS) :
    (compute_csi_handle csi >>> (i * 4)) % 16 =
      quantize (csi.antenna i).real * 4 + quantize (csi.antenna i).imag :=
  (quantize_loop_inv csi N_ANTENNAS).2 i hi

theorem code_pair_inj (a b c d : Nat) (hb : b < 4) (hd : d < 4) :
    a * 4 + b = c * 4 + d ↔ a = c ∧ b = d := by omega

theorem code_pair_bits (a b : Nat) (ha : a < 4) (hb : b < 4) :
    (a <<< 2) ||| b = a * 4 + b := by
  interval_cases a <;> interval_cases b <;> rfl

/-- C25 (encoding layout): for every channel vector the handle is a 256-bit value whose
bits `[4i+3 : 4i]`, for every antenna `i` in 0..63, are `(real code << 2) | imag code`,
where a component `x` has code 0 if `x < -0.5`, 1 if `-0.5 ≤ x < 0`, 2 if `0 ≤ x < 0.5`
and 3 if `x ≥ 0.5` (raw boundaries -128, 0, 128); and two vectors have the same handle if
and only if their real codes and their imaginary codes agree at every antenna. -/
theorem C25_encoding_layout :
    (∀ x : csi_sample_t,
      quantize x = if x < -128 then 0 else if x < 0 then 1 else if x < 128 then 2 else 3) ∧
    (∀ v : csi_vector_t, compute_csi_handle v < 2 ^ 256) ∧
    (∀ (v : csi_vector_t) (i : Nat), i < N_ANTENNAS →
      (compute_csi_handle v >>> (4 * i)) % 16 =
        (quantize (v.antenna i).real <<< 2) ||| quantize (v.antenna i).imag) ∧
    (∀ u v : csi_vector_t,
      compute_csi_handle u = compute_csi_handle v ↔
        ∀ i, i < N_ANTENNAS →
          quantize (u.antenna i).real = quantize (v.antenna i).real ∧
          quantize (u.antenna i).imag = quantize (v.antenna i).imag) := by
  refine ⟨fun x => rfl, ?_, ?_, ?_⟩
  · intro v
    have h := (quantize_loop_inv v N_ANTENNAS).1
    have e : (16 : Nat) ^ N_ANTENNAS = 2 ^ 256 := by norm_num
    rw [e] at h
    exact h
  · intro v i hi
    rw [code_pair_bits _ _ (quantize_lt_four _) (quantize_lt_four _), Nat.mul_comm 4 i]
    exact compute_csi_handle_digit v i hi
  · intro u v
    constructor
    · intro h i hi
      have hu := compute_csi_handle_digit u i hi
      have hv := compute_csi_handle_digit v i hi
      rw [h, hv] at hu
      exact (code_pair_inj _ _ _ _ (quantize_lt_four _) (quantize_lt_four _)).mp hu.symm
    · intro h
      apply quantize_loop_congr
      intro i hi
      rw [(h i hi).1, (h i hi).2]

/-! ## C24: accuracy of the square root -/

/-- C24 (square-root accuracy), evaluation of the code: `approx_sqrt(0) = 0`, but at the
argument 1/16 (raw 4096), the lower end of the range, the three iterations return raw
21450 (0.3273) where the square root is 1/4 (raw 16384, and 16384^2 = 4096 * 2^16): the
result is more than 30% above the true value, not within 0.5%. At 1/4 the result is raw
33887 (true value 32768, 3.4% above) and at 1/2 raw 46592 (true value 46340.95, 0.54%
above). -/
theorem C24_sqrt_of_one_sixteenth :
    approx_sqrt 0 = 0 ∧
    approx_sqrt 4096 = 21450 ∧
    (16384 : Int) * 16384 = 4096 * 65536 ∧
    100 * (approx_sqrt 4096 - 16384) > 30 * 16384 ∧
    approx_sqrt 16384 = 33887 ∧
    approx_sqrt 32768 = 46592 ∧
    (1000 * 46592) ^ 2 > (1005 : Int) ^ 2 * (32768 * 65536) := by
  decide

/-! ## C21: the threshold comparison -/

set_option maxRecDepth 20000 in
/-- C21 (threshold rule), evaluation of the code: subscriber 7 is enrolled with the handle
0 at time 1000 and requests admission at time 1100 with a vector that has 1.0 at 41 of
the 64 antennas and 0 elsewhere. The entry is found and fresh, the score is raw 52573,
that is 0.8022 and strictly greater than 0.8 (`52573 * 10 > 8 * 65536`), and the engine
emits Reject: the comparison `rho_int > 205` is made on the integer part of `rho * 256`,
which is 205 for this score. -/
theorem C21_score_above_threshold_rejected :
    (arc3_csi_correlator
      { plab_registry := empty_registry
        csi_in := [{ csi := csi_41_of_64, ue_id := 7, current_time := 1100, last := true }]
        admit_out := []
        reg_in := [{ ue_id := 7, handle := 0, timestamp := 1000, is_update := false }]
      }).admit_out =
      [{ ue_id := 7, decision := admit_decision_t.ADMIT_REJECT, score := 52573,
         last := true }] ∧
    (52573 : Int) * 10 > 8 * 65536 ∧
    Int.tdiv (52573 * 256) 65536 = 205 := by
  decide

/-! ## C27, C28: the registry probe window -/

/-- The first hit of a search over `0..n-1` has no hit before it. -/
theorem find_range_first {n i : Nat} {p : Nat → Bool}
    (h : (List.range n).find? p = some i) : ∀ j, j < i → p j = false := by
  induction n with
  | zero => simp at h
  | succ n ih =>
    rw [List.range_succ, List.find?_append] at h
    cases hf : (List.range n).find? p with
    | some k =>
      rw [hf] at h
      simp at h
      subst h
      exact ih hf
    | none =>
      rw [hf] at h
      simp at h
      obtain ⟨_, rfl⟩ := h
      intro j hj
      have := List.find?_eq_none.mp hf j (List.mem_range.mpr hj)
      simpa using this

/-- A search for the first defined value over `0..n-1`. -/
theorem findSome_range_first {α : Type} {n p : Nat} {f : Nat → Option α} {e : α}
    (hp : p < n) (h1 : ∀ q, q < p → f q = none) (h2 : f p = some e) :
    (List.range n).findSome? f = some e := by
  induction n with
  | zero => omega
  | succ n ih =>
    rw [List.range_succ, List.findSome?_append]
    rcases Nat.lt_succ_iff_lt_or_eq.mp hp with h | h
    · rw [ih h]; rfl
    · subst h
      have hn : (List.range p).findSome? f = none := by
        rw [List.findSome?_eq_none_iff]
        intro x hx
        exact h1 x (List.mem_range.mp hx)
      rw [hn]; simp [h2]

/-- The index computed by `registry_lookup` is the index computed by `registry_update`. -/
theorem lookup_index_eq (ue_id : Nat) :
    (if ue_id % 16384 ≥ MAX_PLAB_ENTRIES then ue_id % 16384 % MAX_PLAB_ENTRIES
      else ue_id % 16384) = ue_id % 16384 % MAX_PLAB_ENTRIES := by
  split_ifs with h
  · rfl
  · simp only [MAX_PLAB_ENTRIES] at h ⊢; omega

/-- The four slots of a probe window are distinct. -/
theorem probe_slot_inj (index p q : Nat) (hp : p < 4) (hq : q < 4)
    (h : (index + p) % MAX_PLAB_ENTRIES = (index + q) % MAX_PLAB_ENTRIES) : p = q := by
  simp only [MAX_PLAB_ENTRIES] at h; omega

/-- The two outcomes of `registry_update`: either some probe `p` of the window is the
first whose slot is empty or holds the subscriber, and that slot is written; or all four
slots are valid and hold other subscribers, and the registry is returned as it was. -/
theorem registry_update_cases (reg : Nat → plab_entry_t) (u : registry_update_t) :
    (∃ p, p < 4 ∧
      (∀ q, q < p →
        (reg ((u.ue_id % 16384 % MAX_PLAB_ENTRIES + q) % MAX_PLAB_ENTRIES)).valid = true ∧
        (reg ((u.ue_id % 16384 % MAX_PLAB_ENTRIES + q) % MAX_PLAB_ENTRIES)).ue_id
          ≠ u.ue_id) ∧
      ((reg ((u.ue_id % 16384 % MAX_PLAB_ENTRIES + p) % MAX_PLAB_ENTRIES)).valid = false ∨
        (reg ((u.ue_id % 16384 % MAX_PLAB_ENTRIES + p) % MAX_PLAB_ENTRIES)).ue_id
          = u.ue_id) ∧
      registry_update reg u =
        (Function.update reg ((u.ue_id % 16384 % MAX_PLAB_ENTRIES + p) % MAX_PLAB_ENTRIES)
          { ue_id := u.ue_id, handle := u.handle, timestamp := u.timestamp, valid := true },
         true)) ∨
    ((∀ q, q < 4 →
        (reg ((u.ue_id % 16384 % MAX_PLAB_ENTRIES + q) % MAX_PLAB_ENTRIES)).valid = true ∧
        (reg ((u.ue_id % 16384 % MAX_PLAB_ENTRIES + q) % MAX_PLAB_ENTRIES)).ue_id
          ≠ u.ue_id) ∧
      registry_update reg u = (reg, false)) := by
  cases hf : (List.range 4).find? (fun probe =>
      !(reg ((u.ue_id % 16384 % MAX_PLAB_ENTRIES + probe) % MAX_PLAB_ENTRIES)).valid ||
        decide ((reg ((u.ue_id % 16384 % MAX_PLAB_ENTRIES + probe)
          % MAX_PLAB_ENTRIES)).ue_id = u.ue_id)) with
  | some p =>
    left
    obtain ⟨hp, hpp⟩ := DGate.find_range_some hf
    have hfirst := find_range_first hf
    refine ⟨p, hp, ?_, ?_, ?_⟩
    · intro q hq
      have := hfirst q hq
      simpa using this
    · simpa using hpp
    · simp only [registry_update, hf]
  | none =>
    right
    refine ⟨?_, ?_⟩
    · intro q hq
      have := List.find?_eq_none.mp hf q (List.mem_range.mpr hq)
      simpa using this
    · simp only [registry_update, hf]

/-- A successful `registry_update` followed by `registry_lookup` of the same id returns
the entry that was written. -/
theorem registry_lookup_after_update (plab_registry : Nat → plab_entry_t)
    (update : registry_update_t)
    (h : (registry_update plab_registry update).2 = true) :
    registry_lookup (registry_update plab_registry update).1 update.ue_id =
      some { ue_id := update.ue_id, handle := update.handle,
             timestamp := update.timestamp, valid := true } := by
  rcases registry_update_cases plab_registry update with ⟨p, hp, hbefore, _, heq⟩ | ⟨_, heq⟩
  · rw [heq]
    simp only [registry_lookup]
    rw [lookup_index_eq]
    apply findSome_range_first hp
    · intro q hq
      have hne : (update.ue_id % 16384 % MAX_PLAB_ENTRIES + q) % MAX_PLAB_ENTRIES ≠
          (update.ue_id % 16384 % MAX_PLAB_ENTRIES + p) % MAX_PLAB_ENTRIES := by
        intro e
        have := probe_slot_inj _ q p (by omega) hp e
        omega
      simp only [Function.update_noteq hne]
      exact if_neg (fun h => (hbefore q hq).2 h.2)
    · simp
  · rw [heq] at h
    simp at h

/-- C27 (lookup after upsert): for every registry state, subscriber-id, handle and
timestamp, if `registry_update` returns true then `registry_lookup` of the same id on the
registry it leaves returns found, with an entry that holds the id, the handle and the
timestamp of the update. -/
theorem C27_lookup_after_upsert (plab_registry : Nat → plab_entry_t)
    (update : registry_update_t)
    (h : (registry_update plab_registry update).2 = true) :
    ∃ entry : plab_entry_t,
      registry_lookup (registry_update plab_registry update).1 update.ue_id = some entry ∧
      entry.handle = update.handle ∧ entry.timestamp = update.timestamp ∧
      entry.ue_id = update.ue_id ∧ entry.valid = true := by
  exact ⟨_, registry_lookup_after_update plab_registry update h, rfl, rfl, rfl, rfl⟩

/-- Witness for C27: enrolling subscriber 7 in the empty registry succeeds. -/
theorem C27_lookup_after_upsert_witness :
    (registry_update empty_registry
        { ue_id := 7, handle := 5, timestamp := 1000, is_update := false }).2 = true ∧
    ∃ entry : plab_entry_t,
      registry_lookup
        (registry_update empty_registry
          { ue_id := 7, handle := 5, timestamp := 1000, is_update := false }).1 7
        = some entry ∧
      entry.handle = 5 ∧ entry.timestamp = 1000 ∧ entry.ue_id = 7 ∧ entry.valid = true :=
  ⟨by decide,
   C27_lookup_after_upsert empty_registry
     { ue_id := 7, handle := 5, timestamp := 1000, is_update := false } (by decide)⟩

/-- C28 (registry full): `registry_update` returns false if and only if every one of the
four slots of the probe window of the id, the slots `(id mod 2^14 mod 10000 + probe) mod
10000` for probe 0..3, is valid and holds another subscriber-id. When it returns false the
registry is unchanged; when it returns true one slot of the window holds the new entry
and every other slot of the registry is as before. -/
theorem C28_registry_full (plab_registry : Nat → plab_entry_t)
    (update : registry_update_t) :
    ((registry_update plab_registry update).2 = false ↔
      ∀ probe, probe < 4 →
        (plab_registry ((update.ue_id % 16384 % MAX_PLAB_ENTRIES + probe)
          % MAX_PLAB_ENTRIES)).valid = true ∧
        (plab_registry ((update.ue_id % 16384 % MAX_PLAB_ENTRIES + probe)
          % MAX_PLAB_ENTRIES)).ue_id ≠ update.ue_id) ∧
    ((registry_update plab_registry update).2 = false →
      (registry_update plab_registry update).1 = plab_registry) ∧
    ((registry_update plab_registry update).2 = true →
      ∃ probe, probe < 4 ∧
        (registry_update plab_registry update).1
            ((update.ue_id % 16384 % MAX_PLAB_ENTRIES + probe) % MAX_PLAB_ENTRIES) =
          { ue_id := update.ue_id, handle := update.handle,
            timestamp := update.timestamp, valid := true } ∧
        ∀ j, j ≠ (update.ue_id % 16384 % MAX_PLAB_ENTRIES + probe) % MAX_PLAB_ENTRIES →
          (registry_update plab_registry update).1 j = plab_registry j) := by
  rcases registry_update_cases plab_registry update with
    ⟨p, hp, _, hat, heq⟩ | ⟨hall, heq⟩
  · rw [heq]
    refine ⟨⟨fun h => by simp at h, ?_⟩, fun h => by simp at h, ?_⟩
    · intro hall
      have := hall p hp
      rcases hat with h | h
      · rw [h] at this; exact absurd this.1 (by decide)
      · exact absurd h this.2
    · intro _
      exact ⟨p, hp, by simp, fun j hj => by simp [Function.update_noteq hj]⟩
  · rw [heq]
    exact ⟨⟨fun _ => hall, fun _ => rfl⟩, fun _ => rfl, fun h => by simp at h⟩

/-! ## C30: expiry -/

/-- A loop over the slots `0..n-1` that rewrites slot `i` from its own content. -/
theorem fold_pointwise (g : plab_entry_t → plab_entry_t) (reg : Nat → plab_entry_t)
    (n j : Nat) :
    (List.range n).foldl (fun r i => Function.update r i (g (r i))) reg j =
      if j < n then g (reg j) else reg j := by
  induction n generalizing j with
  | zero => simp
  | succ n ih =>
    rw [List.range_succ, List.foldl_append, List.foldl_cons, List.foldl_nil]
    by_cases hj : j = n
    · subst hj
      have hn : (List.range j).foldl (fun r i => Function.update r i (g (r i))) reg j
          = reg j := by
        rw [ih j]; simp
      simp [hn]
    · rw [Function.update_noteq hj, ih]
      by_cases h1 : j < n
      · simp [h1, Nat.lt_succ_of_lt h1]
      · have h2 : ¬ j < n + 1 := by omega
        simp [h1, h2]

theorem arc3_expire_old_apply (reg : Nat → plab_entry_t) (now : timestamp_t) (j : Nat) :
    arc3_expire_old reg now j =
      if j < MAX_PLAB_ENTRIES then expire_entry now (reg j) else reg j := by
  have hstep : (fun (r : Nat → plab_entry_t) (i : Nat) =>
      if (r i).valid = true then
        if is_expired (r i).timestamp now = true then
          Function.update r i { r i with valid := false }
        else r
      else r) = fun r i => Function.update r i (expire_entry now (r i)) := by
    funext r i
    unfold expire_entry
    by_cases h1 : (r i).valid = true
    · by_cases h2 : is_expired (r i).timestamp now = true
      · simp [h1, h2]
      · simp [h1, h2]
    · simp [h1]
  unfold arc3_expire_old
  rw [hstep]
  exact fold_pointwise (expire_entry now) reg MAX_PLAB_ENTRIES j

theorem arc3_init_registry_apply (reg : Nat → plab_entry_t) (j : Nat) :
    arc3_init_registry reg j =
      if j < MAX_PLAB_ENTRIES then { reg j with valid := false } else reg j :=
  fold_pointwise (fun e => { e with valid := false }) reg MAX_PLAB_ENTRIES j

/-- C30 (expiry): for every registry state, every timestamp `now` and every slot of the
registry, after `arc3_expire_old(now)` the slot is valid if and only if it was valid
before and its age `(now - timestamp) mod 2^32` does not exceed VALIDITY_CYCLES
(500,000,000); the id, the handle and the timestamp of the slot are unchanged. -/
theorem C30_expiry (plab_registry : Nat → plab_entry_t) (now : timestamp_t) (i : Nat)
    (hi : i < MAX_PLAB_ENTRIES) :
    ((arc3_expire_old plab_registry now i).valid = true ↔
      (plab_registry i).valid = true ∧
      ¬ ((now + 2 ^ 32 - (plab_registry i).timestamp % 2 ^ 32) % 2 ^ 32
          > VALIDITY_CYCLES)) ∧
    (arc3_expire_old plab_registry now i).ue_id = (plab_registry i).ue_id ∧
    (arc3_expire_old plab_registry now i).handle = (plab_registry i).handle ∧
    (arc3_expire_old plab_registry now i).timestamp = (plab_registry i).timestamp := by
  rw [arc3_expire_old_apply, if_pos hi, ← is_expired_iff]
  unfold expire_entry
  by_cases h1 : (plab_registry i).valid = true
  · by_cases h2 : is_expired (plab_registry i).timestamp now = true
    · simp [h1, h2]
    · simp [h1, h2]
  · simp [h1]

/-- Witness for C30: slot 3 of the empty registry. -/
theorem C30_expiry_witness :
    (3 < MAX_PLAB_ENTRIES) ∧
    (((arc3_expire_old empty_registry 5 3).valid = true ↔
      (empty_registry 3).valid = true ∧
      ¬ ((5 + 2 ^ 32 - (empty_registry 3).timestamp % 2 ^ 32) % 2 ^ 32
          > VALIDITY_CYCLES)) ∧
    (arc3_expire_old empty_registry 5 3).ue_id = (empty_registry 3).ue_id ∧
    (arc3_expire_old empty_registry 5 3).handle = (empty_registry 3).handle ∧
    (arc3_expire_old empty_registry 5 3).timestamp = (empty_registry 3).timestamp) :=
  ⟨by decide, C30_expiry empty_registry 5 3 (by decide)⟩

/-! ## C29: one valid entry per subscriber -/

/-- The slot that `registry_update` writes: the first probe whose slot is empty or holds
the subscriber. -/
theorem registry_update_at (reg : Nat → plab_entry_t) (u : registry_update_t) (p : Nat)
    (hp : p < 4)
    (hbefore : ∀ q, q < p →
      (reg ((u.ue_id % 16384 % MAX_PLAB_ENTRIES + q) % MAX_PLAB_ENTRIES)).valid = true ∧
      (reg ((u.ue_id % 16384 % MAX_PLAB_ENTRIES + q) % MAX_PLAB_ENTRIES)).ue_id ≠ u.ue_id)
    (hat : (reg ((u.ue_id % 16384 % MAX_PLAB_ENTRIES + p) % MAX_PLAB_ENTRIES)).valid = false ∨
      (reg ((u.ue_id % 16384 % MAX_PLAB_ENTRIES + p) % MAX_PLAB_ENTRIES)).ue_id = u.ue_id) :
    (registry_update reg u).1 =
      Function.update reg ((u.ue_id % 16384 % MAX_PLAB_ENTRIES + p) % MAX_PLAB_ENTRIES)
        { ue_id := u.ue_id, handle := u.handle, timestamp := u.timestamp, valid := true } := by
  rcases registry_update_cases reg u with ⟨p', hp', hb', hat', heq⟩ | ⟨hall, _⟩
  · have hpp : p' = p := by
      rcases Nat.lt_trichotomy p' p with h | h | h
      · have := hbefore p' h
        rcases hat' with h' | h'
        · rw [h'] at this; exact absurd this.1 (by decide)
        · exact absurd h' this.2
      · exact h
      · have := hb' p h
        rcases hat with h' | h'
        · rw [h'] at this; exact absurd this.1 (by decide)
        · exact absurd h' this.2
    rw [heq, hpp]
  · have := hall p hp
    rcases hat with h' | h'
    · rw [h'] at this; exact absurd this.1 (by decide)
    · exact absurd h' this.2

/-- The same with the fields of the update and the written slot named. -/
theorem registry_update_slot (reg : Nat → plab_entry_t) (ue_id h t : Nat) (upd : Bool)
    (p slot : Nat) (hp : p < 4)
    (hslot : (ue_id % 16384 % MAX_PLAB_ENTRIES + p) % MAX_PLAB_ENTRIES = slot)
    (hbefore : ∀ q, q < p →
      (reg ((ue_id % 16384 % MAX_PLAB_ENTRIES + q) % MAX_PLAB_ENTRIES)).valid = true ∧
      (reg ((ue_id % 16384 % MAX_PLAB_ENTRIES + q) % MAX_PLAB_ENTRIES)).ue_id ≠ ue_id)
    (hat : (reg slot).valid = false ∨ (reg slot).ue_id = ue_id) :
    (registry_update reg
      { ue_id := ue_id, handle := h, timestamp := t, is_update := upd }).1 =
      Function.update reg slot { ue_id := ue_id, handle := h, timestamp := t, valid := true } := by
  subst hslot
  exact registry_update_at reg
    { ue_id := ue_id, handle := h, timestamp := t, is_update := upd } p hp hbefore hat

theorem registry_calls_nil (reg : Nat → plab_entry_t) : registry_calls reg [] = reg := rfl

theorem registry_calls_cons (reg : Nat → plab_entry_t) (c : registry_call_t)
    (cs : List registry_call_t) :
    registry_calls reg (c :: cs) = registry_calls (registry_call reg c) cs := rfl

theorem registry_call_update (reg : Nat → plab_entry_t) (u : registry_update_t) :
    registry_call reg (.update u) = (registry_update reg u).1 := rfl

theorem registry_call_expire (reg : Nat → plab_entry_t) (t : timestamp_t) :
    registry_call reg (.expire t) = arc3_expire_old reg t := rfl

/-- The registry that the call sequence `refresh_after_expire` leaves behind an
initialised registry. -/
theorem refresh_after_expire_registry (plab_registry : Nat → plab_entry_t) :
    registry_calls (arc3_init_registry plab_registry) refresh_after_expire =
      Function.update
        (arc3_expire_old
          (Function.update
            (Function.update (arc3_init_registry plab_registry) 1
              { ue_id := 1, handle := 17, timestamp := 0, valid := true }) 2
            { ue_id := 10001, handle := 34, timestamp := 400000000, valid := true })
          600000000) 1
        { ue_id := 10001, handle := 51, timestamp := 600000000, valid := true } ∧
    arc3_expire_old
      (Function.update
        (Function.update (arc3_init_registry plab_registry) 1
          { ue_id := 1, handle := 17, timestamp := 0, valid := true }) 2
        { ue_id := 10001, handle := 34, timestamp := 400000000, valid := true })
      600000000 2 =
      { ue_id := 10001, handle := 34, timestamp := 400000000, valid := true } := by
  have h1 := registry_update_slot (arc3_init_registry plab_registry) 1 17 0 false 0 1
    (by decide) (by decide) (fun q hq => absurd hq (by omega))
    (Or.inl (by rw [arc3_init_registry_apply]; simp [MAX_PLAB_ENTRIES]))
  have h2 := registry_update_slot
    (Function.update (arc3_init_registry plab_registry) 1
      { ue_id := 1, handle := 17, timestamp := 0, valid := true })
    10001 34 400000000 false 1 2 (by decide) (by decide)
    (fun q hq => by
      have hq0 : q = 0 := by omega
      subst hq0
      simp [MAX_PLAB_ENTRIES])
    (Or.inl (by simp [MAX_PLAB_ENTRIES, arc3_init_registry_apply]))
  have h3 : arc3_expire_old
      (Function.update
        (Function.update (arc3_init_registry plab_registry) 1
          { ue_id := 1, handle := 17, timestamp := 0, valid := true }) 2
        { ue_id := 10001, handle := 34, timestamp := 400000000, valid := true })
      600000000 1 = { ue_id := 1, handle := 17, timestamp := 0, valid := false } := by
    rw [arc3_expire_old_apply]
    simp [MAX_PLAB_ENTRIES, VALIDITY_CYCLES, expire_entry, is_expired]
  have h4 : arc3_expire_old
      (Function.update
        (Function.update (arc3_init_registry plab_registry) 1
          { ue_id := 1, handle := 17, timestamp := 0, valid := true }) 2
        { ue_id := 10001, handle := 34, timestamp := 400000000, valid := true })
      600000000 2 =
      { ue_id := 10001, handle := 34, timestamp := 400000000, valid := true } := by
    rw [arc3_expire_old_apply]
    simp [MAX_PLAB_ENTRIES, VALIDITY_CYCLES, expire_entry, is_expired]
  have h5 := registry_update_slot
    (arc3_expire_old
      (Function.update
        (Function.update (arc3_init_registry plab_registry) 1
          { ue_id := 1, handle := 17, timestamp := 0, valid := true }) 2
        { ue_id := 10001, handle := 34, timestamp := 400000000, valid := true })
      600000000)
    10001 51 600000000 true 0 1 (by decide) (by decide)
    (fun q hq => absurd hq (by omega))
    (Or.inl (by rw [h3]))
  refine ⟨?_, h4⟩
  rw [refresh_after_expire, registry_calls_cons, registry_call_update, h1,
    registry_calls_cons, registry_call_update, h2, registry_calls_cons,
    registry_call_expire, registry_calls_cons, registry_call_update, h5,
    registry_calls_nil]

/-- C29 (registry uniqueness), evaluation of the code: start from `arc3_init_registry` on
any memory content; enroll subscriber 1 at time 0 (slot 1); enroll subscriber 10001 at
time 400,000,000 (same index 1, slot 1 is taken, so slot 2); `arc3_expire_old` at time
600,000,000 clears slot 1 only; refresh subscriber 10001 at time 600,000,000. The refresh
is written to slot 1, the first empty slot of the window, before the loop reaches slot 2:
slots 1 and 2 are then both valid and both hold subscriber-id 10001. -/
theorem C29_duplicate_entry_after_expire (plab_registry : Nat → plab_entry_t) :
    (registry_calls (arc3_init_registry plab_registry) refresh_after_expire 1).valid = true ∧
    (registry_calls (arc3_init_registry plab_registry) refresh_after_expire 2).valid = true ∧
    (registry_calls (arc3_init_registry plab_registry) refresh_after_expire 1).ue_id = 10001 ∧
    (registry_calls (arc3_init_registry plab_registry) refresh_after_expire 2).ue_id = 10001 ∧
    (registry_calls (arc3_init_registry plab_registry) refresh_after_expire 1).timestamp
      = 600000000 ∧
    (registry_calls (arc3_init_registry plab_registry) refresh_after_expire 2).timestamp
      = 400000000 := by
  obtain ⟨hreg, h4⟩ := refresh_after_expire_registry plab_registry
  have e1 : registry_calls (arc3_init_registry plab_registry) refresh_after_expire 1 =
      { ue_id := 10001, handle := 51, timestamp := 600000000, valid := true } := by
    rw [hreg]; exact Function.update_same _ _ _
  have e2 : registry_calls (arc3_init_registry plab_registry) refresh_after_expire 2 =
      { ue_id := 10001, handle := 34, timestamp := 400000000, valid := true } := by
    rw [hreg, Function.update_noteq (by decide : (2 : Nat) ≠ 1), h4]
  rw [e1, e2]
  exact ⟨rfl, rfl, rfl, rfl, rfl, rfl⟩

/-! ## The square root on the range of a squared correlation -/

theorem saturate_eq (raw : Int) :
    saturate_correlation raw =
      if raw > 2147483647 then (2147483647 : Int)
      else if raw < -2147483648 then (-2147483648 : Int) else raw := rfl

theorem saturate_of_range (r : Int) (h1 : -2147483648 ≤ r) (h2 : r ≤ 2147483647) :
    saturate_correlation r = r := by
  simp only [saturate_eq, min_def]
  split_ifs <;> linarith

theorem saturate_nonneg (r : Int) (h : 0 ≤ r) :
    saturate_correlation r = min r 2147483647 := by
  simp only [saturate_eq, min_def]
  split_ifs <;> linarith

theorem saturate_le_max (r : Int) : saturate_correlation r ≤ 2147483647 := by
  simp only [saturate_eq, min_def]
  split_ifs <;> linarith

theorem saturate_mono (a b : Int) (h : a ≤ b) :
    saturate_correlation a ≤ saturate_correlation b := by
  simp only [saturate_eq, min_def]
  split_ifs <;> linarith

/-- The shift `>> 1` of a non-negative raw value halves it. -/
theorem shiftRight_one_cast (a : Nat) : (a : Int) >>> (1 : Int) = ((a / 2 : Nat) : Int) := by
  have h := Int.shiftRight_coe_nat a 1
  rw [Nat.shiftRight_eq_div_pow] at h
  simpa using h

theorem newton_step_cast (x g : Nat) :
    newton_step (x : Int) (g : Int) = ((newton_step_nat x g : Nat) : Int) := by
  unfold newton_step newton_step_nat
  by_cases hg : g = 0
  · subst hg; simp
  · have hg' : (g : Int) ≠ 0 := by exact_mod_cast hg
    have hb : Nat.beq g 0 = false := by
      cases h : Nat.beq g 0
      · rfl
      · exact absurd (Nat.eq_of_beq_eq_true h) hg
    rw [if_pos hg', hb]
    have e1 : Int.tdiv ((x : Int) * 65536) (g : Int) = ((x * 65536 / g : Nat) : Int) := by
      rw [Int.tdiv_eq_ediv (by positivity) (by positivity)]
      norm_cast
    have e2 : ((g : Int) + ((x * 65536 / g : Nat) : Int)) >>> 1
        = (((g + x * 65536 / g) / 2 : Nat) : Int) := by
      rw [← Nat.cast_add, shiftRight_one_cast]
    rw [e1, e2, saturate_nonneg _ (by positivity)]
    simp only [cond_false]
    have hdiv : Nat.div (Nat.add g (Nat.div (Nat.mul x 65536) g)) 2
        = (g + x * 65536 / g) / 2 := rfl
    rw [hdiv]
    generalize (g + x * 65536 / g) / 2 = v
    cases hle : Nat.ble v 2147483647
    · have hv : ¬ (v ≤ 2147483647) := by
        intro h
        rw [Nat.ble_eq_true_of_le h] at hle
        exact absurd hle (by decide)
      simp only [cond_false]
      have hv' : (2147483647 : Int) ≤ (v : Int) := by
        have : 2147483647 ≤ v := by omega
        exact_mod_cast this
      rw [min_eq_right hv']
      rfl
    · have hv : v ≤ 2147483647 := Nat.le_of_ble_eq_true hle
      simp only [cond_true]
      have hv' : (v : Int) ≤ 2147483647 := by exact_mod_cast hv
      rw [min_eq_left hv']

theorem approx_sqrt_cast (x : Nat) :
    approx_sqrt (x : Int) = ((approx_sqrt_nat x : Nat) : Int) := by
  unfold approx_sqrt approx_sqrt_nat
  by_cases hx : x = 0
  · subst hx; rfl
  · have hx' : (x : Int) ≠ 0 := by exact_mod_cast hx
    have e : (x : Int) >>> 1 = ((Nat.div x 2 : Nat) : Int) := shiftRight_one_cast x
    simp only [hx', if_false, e]
    rw [newton_step_cast, newton_step_cast, newton_step_cast]

theorem sqrt_range_check_sound (d lo : Nat) (h : sqrt_range_check d lo = true) (x : Nat)
    (h1 : lo ≤ x) (h2 : x < lo + 2 ^ d) :
    approx_sqrt_nat x ≤ 65555 ∧ (42437 ≤ x → 52736 ≤ approx_sqrt_nat x) := by
  induction d generalizing lo with
  | zero =>
    have hx : x = lo := by simp at h2; omega
    subst hx
    unfold sqrt_range_check at h
    cases ha : Nat.ble (approx_sqrt_nat x) 65555
    · rw [ha] at h; simp at h
    · rw [ha] at h
      refine ⟨Nat.le_of_ble_eq_true ha, fun hx => ?_⟩
      rw [Nat.ble_eq_true_of_le hx] at h
      exact Nat.le_of_ble_eq_true h
  | succ d ih =>
    unfold sqrt_range_check at h
    cases ha : sqrt_range_check d lo
    · rw [ha] at h; simp at h
    · rw [ha] at h
      have hb : sqrt_range_check d (lo + 2 ^ d) = true := h
      by_cases hx : x < lo + 2 ^ d
      · exact ih lo ha h1 hx
      · exact ih (lo + 2 ^ d) hb (by omega) (by rw [pow_succ] at h2; omega)

theorem sqrt_range_check_all : sqrt_range_check 16 0 = true := by decide!

/-- On the range of a squared correlation, raw arguments 0..65536, `approx_sqrt` returns a
value between 0 and 65555 (1 + 19/65536), and at least 52736 (206/256) for arguments from
42437 (0.6475) upwards. -/
theorem approx_sqrt_range (x : Int) (h0 : 0 ≤ x) (h1 : x ≤ 65536) :
    0 ≤ approx_sqrt x ∧ approx_sqrt x ≤ 65555 ∧ (42437 ≤ x → 52736 ≤ approx_sqrt x) := by
  obtain ⟨n, rfl⟩ := Int.eq_ofNat_of_zero_le h0
  rw [approx_sqrt_cast]
  have hn : n ≤ 65536 := by exact_mod_cast h1
  have key : approx_sqrt_nat n ≤ 65555 ∧ (42437 ≤ n → 52736 ≤ approx_sqrt_nat n) := by
    rcases Nat.lt_or_ge n 65536 with h | h
    · exact sqrt_range_check_sound 16 0 sqrt_range_check_all n (Nat.zero_le _)
        (by norm_num; exact h)
    · have e : n = 65536 := by omega
      subst e
      decide
  refine ⟨by positivity, by exact_mod_cast key.1, fun h => ?_⟩
  have : 42437 ≤ n := by exact_mod_cast h
  exact_mod_cast key.2 this

/-! ## The accumulators of the correlation as exact sums -/

theorem corr_loop_body_eq (v : csi_vector_t) (h : csi_handle_t) (acc : corr_acc_t)
    (i : Nat) :
    corr_loop_body v h acc i =
      { inner_real := saturate_correlation (acc.inner_real +
          ((v.antenna i).real * stored_real h i + (v.antenna i).imag * stored_imag h i))
        inner_imag := saturate_correlation (acc.inner_imag +
          ((v.antenna i).imag * stored_real h i - (v.antenna i).real * stored_imag h i))
        norm_cur := saturate_correlation (acc.norm_cur +
          ((v.antenna i).real * (v.antenna i).real + (v.antenna i).imag * (v.antenna i).imag))
        norm_stored := saturate_correlation (acc.norm_stored +
          (stored_real h i * stored_real h i + stored_imag h i * stored_imag h i)) } := rfl

theorem dequantize_values (q : Nat) :
    dequantize q = -192 ∨ dequantize q = -64 ∨ dequantize q = 64 ∨ dequantize q = 192 := by
  rw [dequantize_eq]
  split_ifs <;> simp

/-- Bounds of the four terms that one antenna adds to the accumulators. -/
theorem antenna_terms_bounds (x y s t : Int) (hx : -32768 ≤ x ∧ x ≤ 32767)
    (hy : -32768 ≤ y ∧ y ≤ 32767)
    (hs : s = -192 ∨ s = -64 ∨ s = 64 ∨ s = 192)
    (ht : t = -192 ∨ t = -64 ∨ t = 64 ∨ t = 192) :
    (-12582912 ≤ x * s + y * t ∧ x * s + y * t ≤ 12582912) ∧
    (-12582912 ≤ y * s - x * t ∧ y * s - x * t ≤ 12582912) ∧
    (8192 ≤ s * s + t * t ∧ s * s + t * t ≤ 73728) ∧
    0 ≤ x * x + y * y := by
  have hxx : 0 ≤ x * x + y * y := by nlinarith [sq_nonneg x, sq_nonneg y]
  rcases hs with rfl | rfl | rfl | rfl <;> rcases ht with rfl | rfl | rfl | rfl <;>
    refine ⟨⟨by omega, by omega⟩, ⟨by omega, by omega⟩, ⟨by norm_num, by norm_num⟩, hxx⟩

/-- A sum of `n` terms that lie between `lo` and `hi`. -/
theorem sum_range_bounds (f : Nat → Int) (lo hi : Int) (n : Nat)
    (h : ∀ i, i < n → lo ≤ f i ∧ f i ≤ hi) :
    (n : Int) * lo ≤ Finset.sum (Finset.range n) f ∧
    Finset.sum (Finset.range n) f ≤ (n : Int) * hi := by
  induction n with
  | zero => simp
  | succ n ih =>
    have ih' := ih (fun i hi => h i (Nat.lt_succ_of_lt hi))
    have hn := h n (Nat.lt_succ_self n)
    rw [Finset.sum_range_succ]
    push_cast
    constructor <;> nlinarith

theorem saturate_min_add (S a : Int) (hS : 0 ≤ S) (ha : 0 ≤ a) :
    saturate_correlation (min S 2147483647 + a) = min (S + a) 2147483647 := by
  simp only [saturate_eq, min_def]
  split_ifs <;> linarith

/-- After `n` passes of the `CORR_LOOP`, for a vector of Q8.8 samples: the two parts of
the inner product and the norm of the stored vector are the exact sums (they never
saturate), the norm of the current vector is the exact sum clamped at the upper bound. -/
theorem corr_loop_exact (v : csi_vector_t) (h : csi_handle_t) (hv : csi_in_range v)
    (n : Nat) (hn : n ≤ N_ANTENNAS) :
    (List.range n).foldl (corr_loop_body v h)
        { inner_real := 0, inner_imag := 0, norm_cur := 0, norm_stored := 0 } =
      { inner_real := Finset.sum (Finset.range n) (fun i =>
          (v.antenna i).real * stored_real h i + (v.antenna i).imag * stored_imag h i)
        inner_imag := Finset.sum (Finset.range n) (fun i =>
          (v.antenna i).imag * stored_real h i - (v.antenna i).real * stored_imag h i)
        norm_cur := min (Finset.sum (Finset.range n) (fun i =>
          (v.antenna i).real * (v.antenna i).real + (v.antenna i).imag * (v.antenna i).imag))
          2147483647
        norm_stored := Finset.sum (Finset.range n) (fun i =>
          stored_real h i * stored_real h i + stored_imag h i * stored_imag h i) } := by
  induction n with
  | zero => simp
  | succ n ih =>
    have hb : ∀ i, i < n + 1 →
        ((-12582912 ≤ (v.antenna i).real * stored_real h i +
            (v.antenna i).imag * stored_imag h i ∧
          (v.antenna i).real * stored_real h i + (v.antenna i).imag * stored_imag h i
            ≤ 12582912) ∧
        (-12582912 ≤ (v.antenna i).imag * stored_real h i -
            (v.antenna i).real * stored_imag h i ∧
          (v.antenna i).imag * stored_real h i - (v.antenna i).real * stored_imag h i
            ≤ 12582912) ∧
        (8192 ≤ stored_real h i * stored_real h i + stored_imag h i * stored_imag h i ∧
          stored_real h i * stored_real h i + stored_imag h i * stored_imag h i ≤ 73728) ∧
        0 ≤ (v.antenna i).real * (v.antenna i).real +
            (v.antenna i).imag * (v.antenna i).imag) := by
      intro i hi
      have hi' : i < N_ANTENNAS := by omega
      exact antenna_terms_bounds _ _ _ _ (hv i hi').1 (hv i hi').2
        (dequantize_values _) (dequantize_values _)
    have hR := sum_range_bounds _ _ _ (n + 1) (fun i hi => (hb i hi).1)
    have hI := sum_range_bounds _ _ _ (n + 1) (fun i hi => (hb i hi).2.1)
    have hB := sum_range_bounds _ _ _ (n + 1) (fun i hi => (hb i hi).2.2.1)
    have hA : 0 ≤ Finset.sum (Finset.range n) (fun i =>
        (v.antenna i).real * (v.antenna i).real + (v.antenna i).imag * (v.antenna i).imag) :=
      Finset.sum_nonneg (fun i hi => (hb i (Nat.lt_succ_of_lt (Finset.mem_range.mp hi))).2.2.2)
    have hn' : ((n + 1 : Nat) : Int) ≤ 64 := by exact_mod_cast hn
    rw [Finset.sum_range_succ] at hR hI hB
    rw [List.range_succ, List.foldl_append, List.foldl_cons, List.foldl_nil,
      ih (by omega), corr_loop_body_eq]
    simp only [Finset.sum_range_succ]
    rw [saturate_of_range _ (by linarith [hR.1]) (by linarith [hR.2]),
      saturate_of_range _ (by linarith [hI.1]) (by linarith [hI.2]),
      saturate_min_add _ _ hA (hb n (Nat.lt_succ_self n)).2.2.2,
      saturate_of_range _ (by linarith [hB.1]) (by linarith [hB.2])]

/-! ## Cauchy-Schwarz for the accumulated inner product -/

/-- For integer sequences `x, y` (current vector) and `s, t` (stored vector) the sum of
the squares `|k (x + i y) - (l + i m) (s + i t)|^2` over the antennas is non-negative. -/
theorem inner_product_quadratic (x y s t : Nat → Int) (n : Nat) (k l m : Int) :
    0 ≤ k ^ 2 * Finset.sum (Finset.range n) (fun i => x i * x i + y i * y i)
      - 2 * k * (l * Finset.sum (Finset.range n) (fun i => x i * s i + y i * t i)
        + m * Finset.sum (Finset.range n) (fun i => y i * s i - x i * t i))
      + (l ^ 2 + m ^ 2) * Finset.sum (Finset.range n) (fun i => s i * s i + t i * t i) := by
  induction n with
  | zero => simp
  | succ n ih =>
    simp only [Finset.sum_range_succ]
    have h1 := sq_nonneg (k * x n - l * s n + m * t n)
    have h2 := sq_nonneg (k * y n - l * t n - m * s n)
    nlinarith [ih, h1, h2]

/-- Cauchy-Schwarz: the squared magnitude of the inner product is at most the product of
the squared norms. -/
theorem inner_product_le (x y s t : Nat → Int) (n : Nat)
    (hB : 0 < Finset.sum (Finset.range n) (fun i => s i * s i + t i * t i)) :
    Finset.sum (Finset.range n) (fun i => x i * s i + y i * t i) ^ 2
      + Finset.sum (Finset.range n) (fun i => y i * s i - x i * t i) ^ 2 ≤
    Finset.sum (Finset.range n) (fun i => x i * x i + y i * y i)
      * Finset.sum (Finset.range n) (fun i => s i * s i + t i * t i) := by
  have h := inner_product_quadratic x y s t n
    (Finset.sum (Finset.range n) (fun i => s i * s i + t i * t i))
    (Finset.sum (Finset.range n) (fun i => x i * s i + y i * t i))
    (Finset.sum (Finset.range n) (fun i => y i * s i - x i * t i))
  generalize Finset.sum (Finset.range n) (fun i => s i * s i + t i * t i) = B at h hB ⊢
  generalize Finset.sum (Finset.range n) (fun i => x i * s i + y i * t i) = R at h ⊢
  generalize Finset.sum (Finset.range n) (fun i => y i * s i - x i * t i) = I at h ⊢
  generalize Finset.sum (Finset.range n) (fun i => x i * x i + y i * y i) = A at h ⊢
  have e : B ^ 2 * A - 2 * B * (R * R + I * I) + (R ^ 2 + I ^ 2) * B
      = B * (A * B - (R ^ 2 + I ^ 2)) := by ring
  rw [e] at h
  have := nonneg_of_mul_nonneg_right h hB
  linarith

/-! ## The final stage of the correlation -/

theorem round_eq (raw32 : Int) :
    round_correlation raw32 = saturate_correlation ((raw32 + 32768) / 65536) := rfl

theorem compute_correlation_eq (v : csi_vector_t) (h : csi_handle_t) :
    compute_correlation v h =
      if round_correlation ((corr_accumulate v h).norm_cur * (corr_accumulate v h).norm_stored)
          * 10000 < 65536 then 0
      else approx_sqrt (div_correlation
        (round_correlation ((corr_accumulate v h).inner_real * (corr_accumulate v h).inner_real
          + (corr_accumulate v h).inner_imag * (corr_accumulate v h).inner_imag))
        (round_correlation
          ((corr_accumulate v h).norm_cur * (corr_accumulate v h).norm_stored))) := rfl

/-- The accumulators of a vector of Q8.8 samples: the norm of the current vector is an
exact non-negative sum clamped at the upper bound, the norm of the stored vector lies
between 8 and 72 (raw), and the inner product obeys Cauchy-Schwarz for the exact norm. -/
theorem corr_accumulate_facts (v : csi_vector_t) (h : csi_handle_t) (hv : csi_in_range v) :
    ∃ A : Int, 0 ≤ A ∧ (corr_accumulate v h).norm_cur = min A 2147483647 ∧
      524288 ≤ (corr_accumulate v h).norm_stored ∧
      (corr_accumulate v h).norm_stored ≤ 4718592 ∧
      (corr_accumulate v h).inner_real * (corr_accumulate v h).inner_real
        + (corr_accumulate v h).inner_imag * (corr_accumulate v h).inner_imag
        ≤ A * (corr_accumulate v h).norm_stored := by
  have hex := corr_loop_exact v h hv N_ANTENNAS (le_refl _)
  have hacc : corr_accumulate v h = _ := hex
  rw [hacc]
  have hB := sum_range_bounds
    (fun i => stored_real h i * stored_real h i + stored_imag h i * stored_imag h i)
    8192 73728 N_ANTENNAS
    (fun i _ => (antenna_terms_bounds 0 0 _ _ (by norm_num) (by norm_num)
      (dequantize_values _) (dequantize_values _)).2.2.1)
  have hB1 : (524288 : Int) ≤ Finset.sum (Finset.range N_ANTENNAS)
      (fun i => stored_real h i * stored_real h i + stored_imag h i * stored_imag h i) := by
    have := hB.1; norm_num at this; linarith
  have hB2 : Finset.sum (Finset.range N_ANTENNAS)
      (fun i => stored_real h i * stored_real h i + stored_imag h i * stored_imag h i)
      ≤ (4718592 : Int) := by
    have := hB.2; norm_num at this; linarith
  refine ⟨Finset.sum (Finset.range N_ANTENNAS) (fun i =>
      (v.antenna i).real * (v.antenna i).real + (v.antenna i).imag * (v.antenna i).imag),
    Finset.sum_nonneg (fun i _ => add_nonneg (mul_self_nonneg _) (mul_self_nonneg _)),
    rfl, hB1, hB2, ?_⟩
  have hcs := inner_product_le (fun i => (v.antenna i).real) (fun i => (v.antenna i).imag)
    (stored_real h) (stored_imag h) N_ANTENNAS (by linarith)
  simp only [sq] at hcs
  exact hcs

/-- The rounded squared inner product is between 0 and the rounded product of the norms. -/
theorem rounded_products (v : csi_vector_t) (h : csi_handle_t) (hv : csi_in_range v) :
    0 ≤ round_correlation
        ((corr_accumulate v h).inner_real * (corr_accumulate v h).inner_real
          + (corr_accumulate v h).inner_imag * (corr_accumulate v h).inner_imag) ∧
    round_correlation
        ((corr_accumulate v h).inner_real * (corr_accumulate v h).inner_real
          + (corr_accumulate v h).inner_imag * (corr_accumulate v h).inner_imag) ≤
      round_correlation ((corr_accumulate v h).norm_cur * (corr_accumulate v h).norm_stored) := by
  obtain ⟨A, hA0, hA, hB1, hB2, hcs⟩ := corr_accumulate_facts v h hv
  generalize (corr_accumulate v h).inner_real = R at hcs ⊢
  generalize (corr_accumulate v h).inner_imag = I at hcs ⊢
  generalize (corr_accumulate v h).norm_stored = B at hcs hB1 hB2 ⊢
  rw [hA]
  have hnum : 0 ≤ R * R + I * I := by nlinarith [sq_nonneg R, sq_nonneg I]
  have hq : 0 ≤ (R * R + I * I + 32768) / 65536 := Int.ediv_nonneg (by linarith) (by norm_num)
  constructor
  · rw [round_eq, saturate_nonneg _ hq]
    exact le_min hq (by norm_num)
  · rw [round_eq, round_eq]
    by_cases hAm : A ≤ 2147483647
    · rw [min_eq_left hAm]
      apply saturate_mono
      exact Int.ediv_le_ediv (by norm_num) (by linarith)
    · have hAm' : (2147483647 : Int) ≤ A := by linarith
      rw [min_eq_right hAm']
      have hbig : (2147483647 : Int) < (2147483647 * B + 32768) / 65536 := by
        have : (2147483648 : Int) ≤ (2147483647 * B + 32768) / 65536 :=
          (Int.le_ediv_iff_mul_le (by norm_num)).mpr (by linarith)
        linarith
      have hN : saturate_correlation ((2147483647 * B + 32768) / 65536) = 2147483647 := by
        rw [saturate_eq, if_pos hbig]
      rw [hN]
      exact saturate_le_max _

/-- The quotient of the final stage for `0 ≤ M ≤ N`, `N > 0`: it is the floor of
`M * 2^16 / N` and lies between 0 and 65536. -/
theorem div_correlation_range (M N : Int) (hM : 0 ≤ M) (hMN : M ≤ N) (hN : 0 < N) :
    div_correlation M N = M * 65536 / N ∧ 0 ≤ M * 65536 / N ∧ M * 65536 / N ≤ 65536 := by
  have h0 : 0 ≤ M * 65536 / N := Int.ediv_nonneg (by linarith) (by linarith)
  have h1 : M * 65536 / N ≤ 65536 := by
    apply Int.ediv_le_of_le_mul hN
    nlinarith
  refine ⟨?_, h0, h1⟩
  unfold div_correlation
  rw [Int.tdiv_eq_ediv (by linarith) (by linarith)]
  exact saturate_of_range _ (by linarith) (by linarith)

/-- The score of a vector of Q8.8 samples against any handle is between 0 and raw 65555. -/
theorem compute_correlation_range (v : csi_vector_t) (h : csi_handle_t)
    (hv : csi_in_range v) :
    0 ≤ compute_correlation v h ∧ compute_correlation v h ≤ 65555 := by
  rw [compute_correlation_eq]
  obtain ⟨hM0, hMN⟩ := rounded_products v h hv
  split_ifs with hz
  · exact ⟨le_refl _, by norm_num⟩
  · have hN : 0 < round_correlation
        ((corr_accumulate v h).norm_cur * (corr_accumulate v h).norm_stored) := by
      by_contra hneg
      apply hz
      have : round_correlation
        ((corr_accumulate v h).norm_cur * (corr_accumulate v h).norm_stored) ≤ 0 := by
        linarith
      linarith
    obtain ⟨hd, hd0, hd1⟩ := div_correlation_range _ _ hM0 hMN hN
    rw [hd]
    have := approx_sqrt_range _ hd0 hd1
    exact ⟨this.1, this.2.1⟩

/-- A product of the accumulated norms below 0.0001 means that the current vector is
zero, and the score is 0. -/
theorem compute_correlation_zero (v : csi_vector_t) (h : csi_handle_t)
    (hv : csi_in_range v)
    (hs : (corr_accumulate v h).norm_cur * (corr_accumulate v h).norm_stored * 10000
      < 4294967296) :
    compute_correlation v h = 0 := by
  rw [compute_correlation_eq]
  obtain ⟨A, hA0, hA, hB1, _, _⟩ := corr_accumulate_facts v h hv
  have hA1 : 0 ≤ (corr_accumulate v h).norm_cur := by
    rw [hA]; exact le_min hA0 (by norm_num)
  have hz : (corr_accumulate v h).norm_cur = 0 := by
    by_contra hne
    have h1 : 1 ≤ (corr_accumulate v h).norm_cur := by
      rcases lt_or_eq_of_le hA1 with hlt | heq
      · have := Int.add_one_le_of_lt hlt
        simpa using this
      · exact absurd heq.symm hne
    nlinarith
  rw [hz]
  have e : round_correlation (0 * (corr_accumulate v h).norm_stored) = 0 := by
    rw [zero_mul]; decide
  rw [e]
  simp

/-! ## C23: range of the score -/

set_option maxRecDepth 20000 in
/-- C23, counterexample to the upper bound 1: the vector with 0.25 + 0.25i at every
antenna is a vector of Q8.8 samples, and its score against its own handle is raw 65555,
that is 1 + 19/65536, above 1 (raw 65536): the squared correlation is exactly 1 and
`approx_sqrt(1)` overshoots. -/
theorem C23_counterexample :
    csi_in_range csi_all_quarter ∧
    compute_correlation csi_all_quarter (compute_csi_handle csi_all_quarter) = 65555 ∧
    ¬ (compute_correlation csi_all_quarter (compute_csi_handle csi_all_quarter) ≤ 65536) := by
  refine ⟨fun i _ => by simp [csi_all_quarter], by decide, by decide⟩

/-- C23 (score range, amended): for every channel vector of Q8.8 samples and every handle,
`compute_correlation` returns a value between 0 and raw 65555, that is in
[0, 1 + 19/65536]; and it returns exactly 0 whenever the product of the two accumulated
squared norms is below 0.0001 (`norm_cur * norm_stored * 10^4 < 2^32` on raw values), as
well as whenever the rounded product `norm_prod_sq` that the code tests is. -/
theorem C23_score_range (v : csi_vector_t) (handle : csi_handle_t) (hv : csi_in_range v) :
    (0 ≤ compute_correlation v handle ∧ compute_correlation v handle ≤ 65555) ∧
    ((corr_accumulate v handle).norm_cur * (corr_accumulate v handle).norm_stored * 10000
        < 2 ^ 32 → compute_correlation v handle = 0) ∧
    (round_correlation
        ((corr_accumulate v handle).norm_cur * (corr_accumulate v handle).norm_stored) * 10000
        < 65536 → compute_correlation v handle = 0) := by
  refine ⟨compute_correlation_range v handle hv, ?_, ?_⟩
  · intro hs
    exact compute_correlation_zero v handle hv (by norm_num at hs; exact hs)
  · intro hs
    rw [compute_correlation_eq, if_pos hs]

/-- Witness for C23: the vector with 0.25 + 0.25i at every antenna and the handle 0. -/
theorem C23_score_range_witness :
    csi_in_range csi_all_quarter ∧
    ((0 ≤ compute_correlation csi_all_quarter 0 ∧
      compute_correlation csi_all_quarter 0 ≤ 65555) ∧
    ((corr_accumulate csi_all_quarter 0).norm_cur
        * (corr_accumulate csi_all_quarter 0).norm_stored * 10000
        < 2 ^ 32 → compute_correlation csi_all_quarter 0 = 0) ∧
    (round_correlation
        ((corr_accumulate csi_all_quarter 0).norm_cur
          * (corr_accumulate csi_all_quarter 0).norm_stored) * 10000
        < 65536 → compute_correlation csi_all_quarter 0 = 0)) :=
  ⟨fun i _ => by simp [csi_all_quarter],
   C23_score_range csi_all_quarter 0 (fun i _ => by simp [csi_all_quarter])⟩

/-! ## C22: the score of a vector against its own handle -/

/-- The stored sample that the correlation reconstructs from the handle of a vector is the
dequantised code of the vector's own sample. -/
theorem stored_of_own_handle (v : csi_vector_t) (i : Nat) (hi : i < N_ANTENNAS) :
    stored_real (compute_csi_handle v) i = dequantize (quantize (v.antenna i).real) ∧
    stored_imag (compute_csi_handle v) i = dequantize (quantize (v.antenna i).imag) := by
  unfold stored_real stored_imag
  rw [compute_csi_handle_digit v i hi]
  have h1 := quantize_lt_four (v.antenna i).real
  have h2 := quantize_lt_four (v.antenna i).imag
  have e1 : (quantize (v.antenna i).real * 4 + quantize (v.antenna i).imag) >>> 2
      = quantize (v.antenna i).real := by
    rw [Nat.shiftRight_eq_div_pow]; omega
  have e2 : (quantize (v.antenna i).real * 4 + quantize (v.antenna i).imag) % 4
      = quantize (v.antenna i).imag := by omega
  rw [e1, e2]
  exact ⟨rfl, rfl⟩

/-- A component in the band and the midpoint `s` of its quantisation interval: the ratio
`x / s` is between 2/3 and 2, that is `3 x^2 + 4 s^2 ≤ 8 x s`. -/
theorem band_component (x : Int) (hx : (43 ≤ x ∧ x ≤ 384) ∨ (-384 ≤ x ∧ x ≤ -43)) :
    3 * (x * x) + 4 * (dequantize (quantize x) * dequantize (quantize x))
      ≤ 8 * (x * dequantize (quantize x)) ∧
    1849 ≤ x * x ∧ x * x ≤ 147456 ∧ -32768 ≤ x ∧ x ≤ 32767 := by
  have hsq : 1849 ≤ x * x ∧ x * x ≤ 147456 := by
    rcases hx with ⟨h1, h2⟩ | ⟨h1, h2⟩ <;> constructor <;> nlinarith
  refine ⟨?_, hsq.1, hsq.2, by omega, by omega⟩
  rw [quantize_eq]
  rcases hx with ⟨h1, h2⟩ | ⟨h1, h2⟩
  · by_cases h3 : x < 128
    · rw [if_neg (by omega), if_neg (by omega), if_pos h3]
      simp only [dequantize_eq]; norm_num
      nlinarith [mul_nonneg (by linarith : (0 : Int) ≤ 3 * x - 128)
        (by linarith : (0 : Int) ≤ 128 - x)]
    · rw [if_neg (by omega), if_neg (by omega), if_neg h3]
      simp only [dequantize_eq]; norm_num
      nlinarith [mul_nonneg (by linarith : (0 : Int) ≤ x - 128)
        (by linarith : (0 : Int) ≤ 384 - x)]
  · by_cases h3 : x < -128
    · rw [if_pos h3]
      simp only [dequantize_eq]; norm_num
      nlinarith [mul_nonneg (by linarith : (0 : Int) ≤ -128 - x)
        (by linarith : (0 : Int) ≤ x + 384)]
    · rw [if_neg h3, if_pos (by omega)]
      simp only [dequantize_eq]; norm_num
      nlinarith [mul_nonneg (by linarith : (0 : Int) ≤ x + 128)
        (by linarith : (0 : Int) ≤ -128 - 3 * x)]

theorem csi_in_band_in_range (v : csi_vector_t) (hv : csi_in_band v) : csi_in_range v := by
  intro i hi
  have h1 := band_component _ (hv i hi).1
  have h2 := band_component _ (hv i hi).2
  exact ⟨⟨h1.2.2.2.1, h1.2.2.2.2⟩, ⟨h2.2.2.2.1, h2.2.2.2.2⟩⟩

/-- Sums over the antennas of a vector in the band, against its own handle: the exact
norm of the current vector is between 3.6 and 288 (raw), and `3 A + 4 B ≤ 8 R` for the
two norms `A`, `B` and the real part `R` of the inner product. -/
theorem band_sums (v : csi_vector_t) (hv : csi_in_band v) (n : Nat) (hn : n ≤ N_ANTENNAS) :
    3 * Finset.sum (Finset.range n) (fun i =>
        (v.antenna i).real * (v.antenna i).real + (v.antenna i).imag * (v.antenna i).imag)
      + 4 * Finset.sum (Finset.range n) (fun i =>
        stored_real (compute_csi_handle v) i * stored_real (compute_csi_handle v) i
          + stored_imag (compute_csi_handle v) i * stored_imag (compute_csi_handle v) i)
      ≤ 8 * Finset.sum (Finset.range n) (fun i =>
        (v.antenna i).real * stored_real (compute_csi_handle v) i
          + (v.antenna i).imag * stored_imag (compute_csi_handle v) i) ∧
    (n : Int) * 3698 ≤ Finset.sum (Finset.range n) (fun i =>
        (v.antenna i).real * (v.antenna i).real + (v.antenna i).imag * (v.antenna i).imag) ∧
    Finset.sum (Finset.range n) (fun i =>
        (v.antenna i).real * (v.antenna i).real + (v.antenna i).imag * (v.antenna i).imag)
      ≤ (n : Int) * 294912 := by
  have hb : ∀ i, i < n →
      3698 ≤ (v.antenna i).real * (v.antenna i).real + (v.antenna i).imag * (v.antenna i).imag ∧
      (v.antenna i).real * (v.antenna i).real + (v.antenna i).imag * (v.antenna i).imag
        ≤ 294912 := by
    intro i hi
    have h1 := band_component _ (hv i (by omega)).1
    have h2 := band_component _ (hv i (by omega)).2
    constructor <;> linarith [h1.2.1, h1.2.2.1, h2.2.1, h2.2.2.1]
  refine ⟨?_, sum_range_bounds _ _ _ n hb⟩
  induction n with
  | zero => simp
  | succ n ih =>
    have ih' := ih (by omega) (fun i hi => hb i (Nat.lt_succ_of_lt hi))
    simp only [Finset.sum_range_succ]
    obtain ⟨e1, e2⟩ := stored_of_own_handle v n (by omega)
    have h1 := (band_component _ (hv n (by omega)).1).1
    have h2 := (band_component _ (hv n (by omega)).2).1
    rw [e1, e2]
    linarith

/-- The score of a vector in the band against its own handle is at least raw 52736, that
is 206/256. -/
theorem self_correlation_score (v : csi_vector_t) (hv : csi_in_band v) :
    52736 ≤ compute_correlation v (compute_csi_handle v) := by
  have hr := csi_in_band_in_range v hv
  have hex : corr_accumulate v (compute_csi_handle v) = _ :=
    corr_loop_exact v (compute_csi_handle v) hr N_ANTENNAS (le_refl _)
  obtain ⟨hk, hA1, hA2⟩ := band_sums v hv N_ANTENNAS (le_refl _)
  obtain ⟨_, _, _, hB1, hB2, _⟩ := corr_accumulate_facts v (compute_csi_handle v) hr
  obtain ⟨hM0, hMN⟩ := rounded_products v (compute_csi_handle v) hr
  rw [compute_correlation_eq]
  rw [hex] at hB1 hB2 hM0 hMN ⊢
  simp only [] at hB1 hB2 hM0 hMN ⊢
  generalize Finset.sum (Finset.range N_ANTENNAS) (fun i =>
    (v.antenna i).real * stored_real (compute_csi_handle v) i
      + (v.antenna i).imag * stored_imag (compute_csi_handle v) i) = R at *
  generalize Finset.sum (Finset.range N_ANTENNAS) (fun i =>
    (v.antenna i).imag * stored_real (compute_csi_handle v) i
      - (v.antenna i).real * stored_imag (compute_csi_handle v) i) = I at *
  generalize Finset.sum (Finset.range N_ANTENNAS) (fun i =>
    stored_real (compute_csi_handle v) i * stored_real (compute_csi_handle v) i
      + stored_imag (compute_csi_handle v) i * stored_imag (compute_csi_handle v) i) = B at *
  generalize Finset.sum (Finset.range N_ANTENNAS) (fun i =>
    (v.antenna i).real * (v.antenna i).real
      + (v.antenna i).imag * (v.antenna i).imag) = A at *
  norm_num at hA1 hA2
  have hAm : min A 2147483647 = A := min_eq_left (by linarith)
  rw [hAm] at hMN ⊢
  -- the product of the norms and its rounding
  have hP1 : 236672 * 524288 ≤ A * B := by nlinarith
  have hP2 : A * B ≤ 18874368 * 4718592 := by nlinarith
  have hN : round_correlation (A * B) = (A * B + 32768) / 65536 := by
    rw [round_eq]
    apply saturate_of_range
    · have : 0 ≤ (A * B + 32768) / 65536 := Int.ediv_nonneg (by linarith) (by norm_num)
      linarith
    · have : (A * B + 32768) / 65536 ≤ 2147483647 :=
        Int.ediv_le_of_le_mul (by norm_num) (by linarith)
      exact this
  have hNle : (A * B + 32768) / 65536 * 65536 ≤ A * B + 32768 :=
    Int.ediv_mul_le _ (by norm_num)
  have hNge : A * B + 32768 < ((A * B + 32768) / 65536 + 1) * 65536 :=
    Int.lt_ediv_add_one_mul_self _ (by norm_num)
  -- the squared inner product and its rounding
  have hR0 : 0 ≤ 8 * R := by nlinarith
  have hRR : 3 * (A * B) ≤ 4 * (R * R) := by
    nlinarith [sq_nonneg (3 * A - 4 * B), mul_self_le_mul_self (by nlinarith : (0 : Int) ≤ 3 * A + 4 * B) hk]
  have hM : round_correlation (R * R + I * I) = (R * R + I * I + 32768) / 65536 := by
    have hq : 0 ≤ (R * R + I * I + 32768) / 65536 :=
      Int.ediv_nonneg (by nlinarith [mul_self_nonneg R, mul_self_nonneg I]) (by norm_num)
    rw [round_eq, saturate_nonneg _ hq]
    apply min_eq_left
    by_contra hbig
    have h1 : round_correlation (R * R + I * I) = 2147483647 := by
      rw [round_eq, saturate_nonneg _ hq]
      exact min_eq_right (by linarith)
    rw [h1, hN] at hMN
    have : (A * B + 32768) / 65536 ≤ 2147483646 :=
      Int.ediv_le_of_le_mul (by norm_num) (by linarith)
    linarith
  have hMge : R * R + I * I + 32768 < ((R * R + I * I + 32768) / 65536 + 1) * 65536 :=
    Int.lt_ediv_add_one_mul_self _ (by norm_num)
  rw [hM, hN] at hMN
  rw [hM] at hM0
  rw [hM, hN]
  generalize (R * R + I * I + 32768) / 65536 = M at *
  generalize (A * B + 32768) / 65536 = N at *
  have hI : 0 ≤ I * I := mul_self_nonneg I
  have hNpos : 7 ≤ N := by
    by_contra hlt
    have : N + 1 ≤ 7 := by linarith
    nlinarith
  rw [if_neg (by linarith)]
  obtain ⟨hd, hd0, hd1⟩ := div_correlation_range M N hM0 hMN (by linarith)
  rw [hd]
  apply (approx_sqrt_range _ hd0 hd1).2.2
  apply (Int.le_ediv_iff_mul_le (by linarith)).mpr
  nlinarith

/-- The decision for a fresh entry whose score is at least 206/256. -/
theorem admit_accept_of_score (entry : plab_entry_t) (input : csi_input_t)
    (hfresh : is_expired entry.timestamp input.current_time = false)
    (h1 : 52736 ≤ compute_correlation input.csi entry.handle)
    (h2 : compute_correlation input.csi entry.handle ≤ 65555) :
    admit_decision (some entry) input =
      { ue_id := input.ue_id, decision := admit_decision_t.ADMIT_ACCEPT,
        score := compute_correlation input.csi entry.handle, last := input.last } := by
  have hint : (Int.tdiv (compute_correlation input.csi entry.handle * 256) 65536
      % 65536).toNat > CORRELATION_THRESHOLD := by
    generalize compute_correlation input.csi entry.handle = rho at h1 h2
    rw [Int.tdiv_eq_ediv (by linarith) (by norm_num)]
    have e1 : 206 ≤ rho * 256 / 65536 :=
      (Int.le_ediv_iff_mul_le (by norm_num)).mpr (by linarith)
    have e2 : rho * 256 / 65536 ≤ 257 := Int.ediv_le_of_le_mul (by norm_num) (by linarith)
    generalize rho * 256 / 65536 = q at e1 e2
    have e3 : q % 65536 = q := Int.emod_eq_of_lt (by linarith) (by linarith)
    rw [e3]
    have e4 : ((q.toNat : Nat) : Int) = q := Int.toNat_of_nonneg (by linarith)
    have : (205 : Int) < (q.toNat : Int) := by rw [e4]; linarith
    exact_mod_cast this
  simp only [admit_decision, hfresh, hint]
  simp

set_option maxRecDepth 20000 in
/-- C22, counterexample: subscriber 7 is enrolled at time 1000 with the handle of a
vector of Q8.8 samples that has 1.0 + 1.0i at antenna 0 and 0.03125 + 0.03125i at the
other antennas, and requests admission at time 1100 with the same vector. The score of
the vector against its own handle is raw 37947, that is 0.579, below 0.8
(`37947 * 10 < 8 * 65536`), and the engine emits Reject: the 2-bit quantiser gives the
63 weak antennas a third of the weight of the strong one instead of 1/32. -/
theorem C22_counterexample :
    csi_in_range csi_one_strong ∧
    compute_correlation csi_one_strong (compute_csi_handle csi_one_strong) = 37947 ∧
    (37947 : Int) * 10 < 8 * 65536 ∧
    (arc3_csi_correlator
      { plab_registry := empty_registry
        csi_in := [{ csi := csi_one_strong, ue_id := 7, current_time := 1100, last := true }]
        admit_out := []
        reg_in := [{ ue_id := 7, handle := compute_csi_handle csi_one_strong,
                     timestamp := 1000, is_update := false }]
      }).admit_out =
      [{ ue_id := 7, decision := admit_decision_t.ADMIT_REJECT, score := 37947,
         last := true }] := by
  refine ⟨fun i _ => ?_, by decide, by decide, by decide⟩
  by_cases h : i = 0 <;> simp [csi_one_strong, h]

/-- C22 (self-correlation, amended): for every channel vector whose real and imaginary
components all have a magnitude between 43/256 (about 0.168) and 1.5, the score of the
vector against its own handle is at least raw 52736, that is 206/256 and above 0.8; and
a subscriber that is enrolled with this handle (the update is accepted by the registry)
and requests admission with the same vector while the entry's age
`(now - enrolled) mod 2^32` is at most VALIDITY_CYCLES is Accepted, with that score. -/
theorem C22_self_correlation (v : csi_vector_t) (hv : csi_in_band v) :
    52736 ≤ compute_correlation v (compute_csi_handle v) ∧
    ∀ (plab_registry : Nat → plab_entry_t) (ue_id : ue_id_t) (enrolled now : timestamp_t)
      (last : Bool) (csi_rest : List csi_input_t) (admit_out : List admit_output_t),
      (registry_update plab_registry
        { ue_id := ue_id, handle := compute_csi_handle v, timestamp := enrolled,
          is_update := false }).2 = true →
      (now + 2 ^ 32 - enrolled % 2 ^ 32) % 2 ^ 32 ≤ VALIDITY_CYCLES →
      (arc3_csi_correlator
        { plab_registry := plab_registry
          csi_in := { csi := v, ue_id := ue_id, current_time := now, last := last } :: csi_rest
          admit_out := admit_out
          reg_in := [{ ue_id := ue_id, handle := compute_csi_handle v, timestamp := enrolled,
                       is_update := false }]
        }).admit_out =
        admit_out ++
          [{ ue_id := ue_id, decision := admit_decision_t.ADMIT_ACCEPT,
             score := compute_correlation v (compute_csi_handle v), last := last }] := by
  have hscore := self_correlation_score v hv
  have hrange := compute_correlation_range v (compute_csi_handle v)
    (csi_in_band_in_range v hv)
  refine ⟨hscore, ?_⟩
  intro plab_registry ue_id enrolled now last csi_rest admit_out hupd hage
  have hfresh : is_expired enrolled now = false := by
    cases hx : is_expired enrolled now with
    | false => rfl
    | true =>
      have := (is_expired_iff enrolled now).mp hx
      omega
  have hlook := registry_lookup_after_update plab_registry
    { ue_id := ue_id, handle := compute_csi_handle v, timestamp := enrolled,
      is_update := false } hupd
  have hdec := admit_accept_of_score
    { ue_id := ue_id, handle := compute_csi_handle v, timestamp := enrolled, valid := true }
    { csi := v, ue_id := ue_id, current_time := now, last := last } hfresh hscore hrange.2
  simp only [arc3_csi_correlator]
  rw [hlook, hdec]

/-- Witness for C22: the vector with 0.25 + 0.25i at every antenna, enrolled for
subscriber 7 in the empty registry. -/
theorem C22_self_correlation_witness :
    csi_in_band csi_all_quarter ∧
    (52736 ≤ compute_correlation csi_all_quarter (compute_csi_handle csi_all_quarter) ∧
    ∀ (plab_registry : Nat → plab_entry_t) (ue_id : ue_id_t) (enrolled now : timestamp_t)
      (last : Bool) (csi_rest : List csi_input_t) (admit_out : List admit_output_t),
      (registry_update plab_registry
        { ue_id := ue_id, handle := compute_csi_handle csi_all_quarter, timestamp := enrolled,
          is_update := false }).2 = true →
      (now + 2 ^ 32 - enrolled % 2 ^ 32) % 2 ^ 32 ≤ VALIDITY_CYCLES →
      (arc3_csi_correlator
        { plab_registry := plab_registry
          csi_in := { csi := csi_all_quarter, ue_id := ue_id, current_time := now,
                      last := last } :: csi_rest
          admit_out := admit_out
          reg_in := [{ ue_id := ue_id, handle := compute_csi_handle csi_all_quarter,
                       timestamp := enrolled, is_update := false }]
        }).admit_out =
        admit_out ++
          [{ ue_id := ue_id, decision := admit_decision_t.ADMIT_ACCEPT,
             score := compute_correlation csi_all_quarter
               (compute_csi_handle csi_all_quarter),
             last := last }]) :=
  ⟨fun i _ => by simp [csi_all_quarter, component_in_band],
   C22_self_correlation csi_all_quarter
     (fun i _ => by simp [csi_all_quarter, component_in_band])⟩

/-! ## C31: the expiry test under counter wrap -/

/-- C31 (counter wrap is tolerated): for every 32-bit entry timestamp `t` and every
elapsed time `d` below `2^31`, `is_expired(t, (t + d) mod 2^32)` holds if and only if
`d > VALIDITY_CYCLES`, whether or not `t + d` wraps past `2^32`. -/
theorem C31_counter_wrap (t d : Nat) (ht : t < 2 ^ 32) (hd : d < 2 ^ 31) :
    is_expired t ((t + d) % 2 ^ 32) = true ↔ d > VALIDITY_CYCLES := by
  rw [is_expired_iff]
  norm_num at ht hd ⊢
  have e : ((t + d) % 4294967296 + 4294967296 - t % 4294967296) % 4294967296 = d := by
    omega
  rw [e]

/-- Witness for C31: an entry written 1000 ticks before the counter wraps, read
600,000,000 ticks later. -/
theorem C31_counter_wrap_witness :
    (4294966296 < 2 ^ 32 ∧ 600000000 < 2 ^ 31 ∧ 4294966296 + 600000000 ≥ 2 ^ 32) ∧
    (is_expired 4294966296 ((4294966296 + 600000000) % 2 ^ 32) = true ↔
      600000000 > VALIDITY_CYCLES) :=
  ⟨by decide, C31_counter_wrap 4294966296 600000000 (by decide) (by decide)⟩

/-! ## C39: encoding the decoded handle -/

/-- Decoding and re-encoding one 4-bit field gives the field back. -/
theorem nibble_round_trip (p : Nat) (hp : p < 16) :
    quantize (dequantize (p >>> 2)) * 4 + quantize (dequantize (p % 4)) = p := by
  interval_cases p <;> decide

/-- Two numbers below `16^n` with the same `n` base-16 digits are equal. -/
theorem eq_of_digits_eq (n : Nat) (a b : Nat) (ha : a < 16 ^ n) (hb : b < 16 ^ n)
    (h : ∀ i, i < n → (a >>> (i * 4)) % 16 = (b >>> (i * 4)) % 16) : a = b := by
  induction n generalizing a b with
  | zero => simp at ha hb; omega
  | succ n ih =>
    have h0 := h 0 (Nat.succ_pos n)
    simp at h0
    have hdiv : a / 16 = b / 16 := by
      apply ih
      · rw [pow_succ] at ha; omega
      · rw [pow_succ] at hb; omega
      · intro i hi
        have := h (i + 1) (Nat.succ_lt_succ hi)
        simp only [Nat.shiftRight_eq_div_pow] at this ⊢
        have e : 2 ^ ((i + 1) * 4) = 16 * 2 ^ (i * 4) := by
          rw [Nat.add_mul, pow_add]; ring
        rw [e, ← Nat.div_div_eq_div_mul, ← Nat.div_div_eq_div_mul] at this
        exact this
    omega

/-- C39 (codec round trip on codes): for every 256-bit handle `h`, encoding the channel
vector obtained by dequantising every antenna of `h` (codes 0..3 to -0.75, -0.25, +0.25,
+0.75) yields `h` again. -/
theorem C39_codec_round_trip (h : csi_handle_t) (hh : h < 2 ^ 256) :
    compute_csi_handle (decode_handle h) = h := by
  have e : (16 : Nat) ^ N_ANTENNAS = 2 ^ 256 := by norm_num
  apply eq_of_digits_eq N_ANTENNAS
  · exact (quantize_loop_inv (decode_handle h) N_ANTENNAS).1
  · rw [e]; exact hh
  · intro i hi
    rw [compute_csi_handle_digit (decode_handle h) i hi]
    exact nibble_round_trip _ (Nat.mod_lt _ (by norm_num))

/-- Witness for C39: the handle 0x1B, codes (1, 2) and (2, 3) at antennas 1 and 0 and
code (0, 0) elsewhere. -/
theorem C39_codec_round_trip_witness :
    27 < 2 ^ 256 ∧ compute_csi_handle (decode_handle 27) = 27 :=
  ⟨by decide, C39_codec_round_trip 27 (by decide)⟩

/-! ## C35: registry addressing -/

/-- C35 fails as stated: subscriber-id 16384 has `16384 mod 10000 = 6384`, but enrolling
it in an empty registry writes slot 0 and leaves slot 6384 empty, and the lookup finds
it although the four slots from 6384 are empty: the index is taken from the low 14 bits
of the id. -/
theorem C35_counterexample :
    16384 % MAX_PLAB_ENTRIES = 6384 ∧
    (registry_update empty_registry
      { ue_id := 16384, handle := 5, timestamp := 0, is_update := false }).1 0
      = { ue_id := 16384, handle := 5, timestamp := 0, valid := true } ∧
    ((registry_update empty_registry
      { ue_id := 16384, handle := 5, timestamp := 0, is_update := false }).1 6384).valid
      = false ∧
    registry_lookup
      (Function.update empty_registry 0
        { ue_id := 16384, handle := 5, timestamp := 0, valid := true }) 16384
      = some { ue_id := 16384, handle := 5, timestamp := 0, valid := true } ∧
    registry_lookup
      (Function.update empty_registry 6384
        { ue_id := 16384, handle := 5, timestamp := 0, valid := true }) 16384 = none := by
  decide

/-- The search of `registry_lookup` depends on the four probed slots only. -/
theorem findSome_range_congr {α : Type} {n : Nat} {f g : Nat → Option α}
    (h : ∀ i, i < n → f i = g i) :
    (List.range n).findSome? f = (List.range n).findSome? g := by
  induction n with
  | zero => rfl
  | succ n ih =>
    rw [List.range_succ, List.findSome?_append, List.findSome?_append,
      ih (fun i hi => h i (Nat.lt_succ_of_lt hi))]
    simp [List.findSome?, h n (Nat.lt_succ_self n)]

/-- C35 (registry addressing, amended): for every subscriber-id, `registry_lookup` and
`registry_update` both start probing at index `(id mod 2^14) mod 10000`, which is
`id mod 10000` for ids below `2^14`, and examine only the 4 slots at that index and the
next three, wrapping modulo the capacity: the result of the lookup and the flag returned
by the update are the same on two registries that agree on these 4 slots, an entry
returned by the lookup is the content of one of them, and the update leaves every slot
outside them unchanged. -/
theorem C35_registry_addressing (ue_id : ue_id_t) :
    (ue_id < 16384 → ue_id % 16384 % MAX_PLAB_ENTRIES = ue_id % MAX_PLAB_ENTRIES) ∧
    (∀ reg reg' : Nat → plab_entry_t,
      (∀ probe, probe < 4 →
        reg ((ue_id % 16384 % MAX_PLAB_ENTRIES + probe) % MAX_PLAB_ENTRIES)
          = reg' ((ue_id % 16384 % MAX_PLAB_ENTRIES + probe) % MAX_PLAB_ENTRIES)) →
      registry_lookup reg ue_id = registry_lookup reg' ue_id ∧
      ∀ (handle : csi_handle_t) (timestamp : timestamp_t) (is_update : Bool),
        (registry_update reg
          { ue_id := ue_id, handle := handle, timestamp := timestamp,
            is_update := is_update }).2 =
        (registry_update reg'
          { ue_id := ue_id, handle := handle, timestamp := timestamp,
            is_update := is_update }).2) ∧
    (∀ (reg : Nat → plab_entry_t) (entry : plab_entry_t),
      registry_lookup reg ue_id = some entry →
      ∃ probe, probe < 4 ∧
        entry = reg ((ue_id % 16384 % MAX_PLAB_ENTRIES + probe) % MAX_PLAB_ENTRIES)) ∧
    (∀ (reg : Nat → plab_entry_t) (handle : csi_handle_t) (timestamp : timestamp_t)
      (is_update : Bool) (j : Nat),
      (∀ probe, probe < 4 →
        j ≠ (ue_id % 16384 % MAX_PLAB_ENTRIES + probe) % MAX_PLAB_ENTRIES) →
      (registry_update reg
        { ue_id := ue_id, handle := handle, timestamp := timestamp,
          is_update := is_update }).1 j = reg j) := by
  refine ⟨?_, ?_, ?_, ?_⟩
  · intro h
    rw [Nat.mod_eq_of_lt h]
  · intro reg reg' hagree
    constructor
    · simp only [registry_lookup]
      rw [lookup_index_eq]
      apply findSome_range_congr
      intro i hi
      simp only [hagree i hi]
    · intro handle timestamp is_update
      have hfind : (List.range 4).find? (fun probe =>
          !(reg ((ue_id % 16384 % MAX_PLAB_ENTRIES + probe) % MAX_PLAB_ENTRIES)).valid ||
            decide ((reg ((ue_id % 16384 % MAX_PLAB_ENTRIES + probe)
              % MAX_PLAB_ENTRIES)).ue_id = ue_id)) =
          (List.range 4).find? (fun probe =>
          !(reg' ((ue_id % 16384 % MAX_PLAB_ENTRIES + probe) % MAX_PLAB_ENTRIES)).valid ||
            decide ((reg' ((ue_id % 16384 % MAX_PLAB_ENTRIES + probe)
              % MAX_PLAB_ENTRIES)).ue_id = ue_id)) := by
        apply DGate.find_range_congr
        intro i hi
        simp only [hagree i hi]
      simp only [registry_update, hfind]
      cases (List.range 4).find? (fun probe =>
          !(reg' ((ue_id % 16384 % MAX_PLAB_ENTRIES + probe) % MAX_PLAB_ENTRIES)).valid ||
            decide ((reg' ((ue_id % 16384 % MAX_PLAB_ENTRIES + probe)
              % MAX_PLAB_ENTRIES)).ue_id = ue_id)) <;> rfl
  · intro reg entry hlook
    simp only [registry_lookup] at hlook
    rw [lookup_index_eq] at hlook
    obtain ⟨probe, hmem, hp⟩ := List.exists_of_findSome?_eq_some hlook
    refine ⟨probe, List.mem_range.mp hmem, ?_⟩
    split_ifs at hp
    exact (Option.some.inj hp).symm
  · intro reg handle timestamp is_update j hj
    rcases registry_update_cases reg
      { ue_id := ue_id, handle := handle, timestamp := timestamp, is_update := is_update }
      with ⟨p, hp, _, _, heq⟩ | ⟨_, heq⟩
    · rw [heq]
      exact Function.update_noteq (hj p hp) _ _
    · rw [heq]

end Arc3
